import Mathlib

/-!
# td-client.cpp: a shallow embedding

The client `PurpleTdClient` of `td-client.cpp` is embedded as explicit state passing.
A value of `PurpleTdClient` holds the member variables of the C++ object together with
the part of the host (libpurple account and connection) the code reads and writes, and a
`trace` of every call the code makes outward (queries handed to the transceiver and calls
into the presentation layer), in program order.

Pointers that may be null are `Option`; dereferencing a null object pointer ends the
handler with `Result.nullDeref`, carrying the state reached just before.
-/

set_option autoImplicit false

namespace td_api

/-! ## Objects of the remote API (`td::td_api`) that the client inspects -/

/-- The `chatList` classes; `chat.chat_list_` may be null. -/
inductive ChatList
  | chatListMain
  | chatListArchive
  deriving DecidableEq, Repr

/-- The `ChatType` classes. -/
inductive ChatType
  | chatTypePrivate (user_id_ : Int)
  | chatTypeBasicGroup (basic_group_id_ : Int)
  | chatTypeSupergroup (supergroup_id_ : Int) (is_channel_ : Bool)
  | chatTypeSecret (secret_chat_id_ : Int) (user_id_ : Int)
  deriving DecidableEq, Repr

/-- The fields of `td_api::chat` the client reads. -/
structure chat where
  id_ : Int
  type_ : ChatType
  chat_list_ : Option ChatList
  title_ : String
  deriving DecidableEq, Repr

/-- The `UserStatus` classes. -/
inductive UserStatus
  | userStatusEmpty
  | userStatusOnline
  | userStatusOffline
  | userStatusRecently
  | userStatusLastWeek
  | userStatusLastMonth
  deriving DecidableEq, Repr

/-- The fields of `td_api::user` the client reads. -/
structure user where
  id_ : Int
  first_name_ : String
  last_name_ : String
  phone_number_ : String
  status_ : UserStatus
  is_contact_ : Bool
  deriving DecidableEq, Repr

/-- The `ProxyType` classes. -/
inductive ProxyType
  | proxyTypeSocks5 (username_ : String) (password_ : String)
  | proxyTypeHttp (username_ : String) (password_ : String) (http_only_ : Bool)
  | proxyTypeMtproto (secret_ : String)
  deriving DecidableEq, Repr

/-- A registered proxy, `td_api::proxy`. -/
structure proxy where
  id_ : Int
  server_ : String
  port_ : Int
  is_enabled_ : Bool
  deriving DecidableEq, Repr

/-- The list object `td_api::proxies`; its elements are object pointers and may be null. -/
structure proxies where
  proxies_ : List (Option proxy)
  deriving DecidableEq, Repr

/-- The `AuthenticationCodeType` classes. -/
inductive AuthenticationCodeType
  | authenticationCodeTypeTelegramMessage (length_ : Int)
  | authenticationCodeTypeSms (length_ : Int)
  | authenticationCodeTypeCall (length_ : Int)
  | authenticationCodeTypeFlashCall (pattern_ : String)
  | authenticationCodeTypeOther
  deriving DecidableEq, Repr

/-- The object `td_api::authenticationCodeInfo`. -/
structure authenticationCodeInfo where
  phone_number_ : String
  type_ : Option AuthenticationCodeType
  next_type_ : Option AuthenticationCodeType
  deriving DecidableEq, Repr

/-- The `AuthorizationState` classes. -/
inductive AuthorizationState
  | authorizationStateWaitTdlibParameters
  | authorizationStateWaitEncryptionKey
  | authorizationStateWaitPhoneNumber
  | authorizationStateWaitCode (code_info_ : Option authenticationCodeInfo)
  | authorizationStateWaitOtherDeviceConfirmation
  | authorizationStateWaitRegistration
  | authorizationStateWaitPassword
  | authorizationStateReady
  | authorizationStateLoggingOut
  | authorizationStateClosing
  | authorizationStateClosed
  deriving DecidableEq, Repr

/-- The class identifiers `authorizationState*::ID`, the values of `get_id()`. -/
inductive AuthorizationStateID
  | waitTdlibParameters
  | waitEncryptionKey
  | waitPhoneNumber
  | waitCode
  | waitOtherDeviceConfirmation
  | waitRegistration
  | waitPassword
  | ready
  | loggingOut
  | closing
  | closed
  deriving DecidableEq, Repr

/-- The method `get_id()` of an authorization state. -/
def AuthorizationState.get_id : AuthorizationState → AuthorizationStateID
  | .authorizationStateWaitTdlibParameters => .waitTdlibParameters
  | .authorizationStateWaitEncryptionKey => .waitEncryptionKey
  | .authorizationStateWaitPhoneNumber => .waitPhoneNumber
  | .authorizationStateWaitCode _ => .waitCode
  | .authorizationStateWaitOtherDeviceConfirmation => .waitOtherDeviceConfirmation
  | .authorizationStateWaitRegistration => .waitRegistration
  | .authorizationStateWaitPassword => .waitPassword
  | .authorizationStateReady => .ready
  | .authorizationStateLoggingOut => .loggingOut
  | .authorizationStateClosing => .closing
  | .authorizationStateClosed => .closed

/-- The `ConnectionState` classes. -/
inductive ConnectionState
  | connectionStateWaitingForNetwork
  | connectionStateConnectingToProxy
  | connectionStateConnecting
  | connectionStateUpdating
  | connectionStateReady
  deriving DecidableEq, Repr

/-- The object `td_api::localFile`. -/
structure localFile where
  path_ : String
  is_downloading_completed_ : Bool
  deriving DecidableEq, Repr

/-- The object `td_api::file`; `local_` may be null. -/
structure file where
  id_ : Int
  local_ : Option localFile
  deriving DecidableEq, Repr

/-- The object `td_api::photoSize`; `photo_` (the file) may be null. -/
structure photoSize where
  photo_ : Option file
  width_ : Int
  height_ : Int
  deriving DecidableEq, Repr

/-- The object `td_api::photo`; the elements of `sizes_` may be null. -/
structure photo where
  sizes_ : List (Option photoSize)
  deriving DecidableEq, Repr

/-- The object `td_api::formattedText`. -/
structure formattedText where
  text_ : String
  deriving DecidableEq, Repr

/-- The object `td_api::document`. -/
structure document where
  file_name_ : String
  mime_type_ : String
  deriving DecidableEq, Repr

/-- The object `td_api::video`. -/
structure video where
  file_name_ : String
  width_ : Int
  height_ : Int
  duration_ : Int
  deriving DecidableEq, Repr

/-- The object `td_api::sticker`; the sticker file and the thumbnail may be null. -/
structure sticker where
  sticker_ : Option file
  thumbnail_ : Option photoSize
  deriving DecidableEq, Repr

/-- The object `td_api::messageText`. -/
structure messageText where
  text_ : Option formattedText
  deriving DecidableEq, Repr

/-- The object `td_api::messagePhoto`. -/
structure messagePhoto where
  photo_ : Option photo
  caption_ : Option formattedText
  deriving DecidableEq, Repr

/-- The object `td_api::messageDocument`. -/
structure messageDocument where
  document_ : Option document
  caption_ : Option formattedText
  deriving DecidableEq, Repr

/-- The object `td_api::messageVideo`. -/
structure messageVideo where
  video_ : Option video
  caption_ : Option formattedText
  deriving DecidableEq, Repr

/-- The object `td_api::messageSticker`. -/
structure messageSticker where
  sticker_ : Option sticker
  deriving DecidableEq, Repr

/-- The object `td_api::messageChatChangeTitle`. -/
structure messageChatChangeTitle where
  title_ : String
  deriving DecidableEq, Repr

/-- The `MessageContent` classes the client distinguishes; every other class is
`other`, carrying its class identifier. -/
inductive MessageContent
  | ofMessageText (c : messageText)
  | ofMessagePhoto (c : messagePhoto)
  | ofMessageDocument (c : messageDocument)
  | ofMessageVideo (c : messageVideo)
  | ofMessageSticker (c : messageSticker)
  | ofMessageChatChangeTitle (c : messageChatChangeTitle)
  | other (id : Int)
  deriving DecidableEq, Repr

/-- The `MessageForwardOrigin` classes, kept abstract: the client only passes the object
to `getForwardSource`. -/
structure messageForwardInfo where
  origin_ : Int
  deriving DecidableEq, Repr

/-- The fields of `td_api::message` the client reads. -/
structure message where
  id_ : Int
  sender_user_id_ : Int
  chat_id_ : Int
  is_outgoing_ : Bool
  date_ : Int
  forward_info_ : Option messageForwardInfo
  reply_to_message_id_ : Int
  ttl_ : Int
  content_ : Option MessageContent
  deriving DecidableEq, Repr

/-- The object `td_api::basicGroup`. -/
structure basicGroup where
  id_ : Int
  member_count_ : Int
  deriving DecidableEq, Repr

/-- The object `td_api::supergroup`. -/
structure supergroup where
  id_ : Int
  member_count_ : Int
  deriving DecidableEq, Repr

/-- The object `td_api::basicGroupFullInfo`, its members given by user id. -/
structure basicGroupFullInfo where
  members_ : List Int
  deriving DecidableEq, Repr

/-- The `ChatAction` classes the client distinguishes. -/
inductive ChatAction
  | chatActionCancel
  | chatActionStartPlayingGame
  | chatActionTyping
  | chatActionOther (id : Int)
  deriving DecidableEq, Repr

/-- A response object, `td_api::Object`, as seen by the response handlers: the classes
a handler tests for with `get_id()`, and `other` for every class none of them tests for. -/
inductive Object
  | ok
  | error (code_ : Int) (message_ : String)
  | proxy (p : proxy)
  | proxies (ps : proxies)
  | users (user_ids_ : List Int)
  | chats (chat_ids_ : List Int)
  | chat (c : chat)
  | basicGroupFullInfo (info : basicGroupFullInfo)
  | file (f : file)
  | message (m : message)
  | importedContacts (user_ids_ : List Int)
  | other (id : Int)
  deriving DecidableEq, Repr

/-- The object `td_api::contact`. -/
structure contact where
  phone_number_ : String
  first_name_ : String
  last_name_ : String
  vcard_ : String
  user_id_ : Int
  deriving DecidableEq, Repr

/-- The object `td_api::tdlibParameters`, with the fields `sendTdlibParameters` sets. -/
structure tdlibParameters where
  database_directory_ : String
  use_message_database_ : Bool
  use_secret_chats_ : Bool
  api_id_ : Int
  api_hash_ : String
  system_language_code_ : String
  device_model_ : String
  system_version_ : String
  application_version_ : String
  enable_storage_optimizer_ : Bool
  deriving DecidableEq, Repr

/-- The queries (`td_api::Function` objects) the client sends. -/
inductive Function
  | checkDatabaseEncryptionKey (encryption_key_ : String)
  | disableProxy
  | getProxies
  | addProxy (server_ : String) (port_ : Int) (enable_ : Bool) (type_ : ProxyType)
  | removeProxy (proxy_id_ : Int)
  | setTdlibParameters (parameters_ : tdlibParameters)
  | setAuthenticationPhoneNumber (phone_number_ : String)
  | registerUser (first_name_ : String) (last_name_ : String)
  | checkAuthenticationCode (code_ : String)
  | getContacts
  | getChats (offset_order_ : Int) (offset_chat_id_ : Int) (limit_ : Int)
  | createPrivateChat (user_id_ : Int) (force_ : Bool)
  | getBasicGroupFullInfo (basic_group_id_ : Int)
  | downloadFile (file_id_ : Int) (priority_ : Int) (offset_ : Int) (limit_ : Int)
      (synchronous_ : Bool)
  | viewMessages (chat_id_ : Int) (message_ids_ : List Int) (force_read_ : Bool)
  | getMessage (chat_id_ : Int) (message_id_ : Int)
  | importContacts (contacts_ : List contact)
  | addContact (contact_ : contact) (share_phone_number_ : Bool)
  | joinChatByInviteLink (invite_link_ : String)
  deriving DecidableEq, Repr

end td_api

open td_api

/-! ## The head of the file -/

/-- The identity `_` that marks translatable text. -/
def tr (s : String) : String := s

/-- The constant `REMOTE_TYPING_NOTICE_TIMEOUT`. -/
def REMOTE_TYPING_NOTICE_TIMEOUT : Nat := 10

/-- The constant `FILE_DOWNLOAD_PRIORITY`. -/
def FILE_DOWNLOAD_PRIORITY : Int := 1

/-- The function `isChatInContactList`: the chat has a chat list, or a user is given and
is a contact. -/
def isChatInContactList (chat : td_api.chat) (privateChatUser : Option td_api.user) : Bool :=
  (chat.chat_list_ != none) ||
    (match privateChatUser with
     | some u => u.is_contact_
     | none => false)

/-! ## The host: libpurple account, connection and proxy settings -/

/-- The enumeration `PurpleProxyType` of libpurple. -/
inductive PurpleProxyType
  | PURPLE_PROXY_USE_GLOBAL
  | PURPLE_PROXY_NONE
  | PURPLE_PROXY_HTTP
  | PURPLE_PROXY_SOCKS4
  | PURPLE_PROXY_SOCKS5
  | PURPLE_PROXY_USE_ENVVAR
  | PURPLE_PROXY_TOR
  deriving DecidableEq, Repr

/-- The proxy settings `PurpleProxyInfo`; the strings may be `NULL`. -/
structure PurpleProxyInfo where
  type : PurpleProxyType
  host : Option String
  port : Int
  username : Option String
  password : Option String
  deriving DecidableEq, Repr

/-- The enumeration `PurpleConnectionState` of libpurple. -/
inductive PurpleConnectionState
  | PURPLE_DISCONNECTED
  | PURPLE_CONNECTED
  | PURPLE_CONNECTING
  deriving DecidableEq, Repr

/-- The account `m_account` with its connection, as far as the client reads or writes it.
`requestInputHandle` tells whether `purple_request_input` returns a handle (the user
interface supports input requests). -/
structure PurpleAccount where
  username : String
  alias_ : Option String
  proxyInfo : Option PurpleProxyInfo
  connectionState : PurpleConnectionState
  requestInputHandle : Bool
  deriving DecidableEq, Repr

/-- The response callbacks, members of the client, that a query can be sent with. -/
inductive ResponseCb
  | authResponse
  | addProxyResponse
  | getProxiesResponse
  | getContactsResponse
  | getChatsResponse
  | loginCreatePrivateChatResponse
  | groupInfoResponse
  | imageDownloadResponse
  | stickerDownloadResponse
  | fileDownloadResponse
  | findMessageResponse
  | importContactResponse
  | addContactResponse
  | addContactCreatePrivateChatResponse
  | joinChatByLinkResponse
  | sendMessageResponse
  deriving DecidableEq, Repr

/-- The structure `TgMessageInfo` handed to the rendering helpers. -/
structure TgMessageInfo where
  sender : String
  timestamp : Int
  outgoing : Bool
  repliedMessageId : Int
  forwardedFrom : String
  deriving DecidableEq, Repr

/-- The message flag `PURPLE_MESSAGE_IMAGES` may be passed to `showMessageText`. -/
inductive MessageFlags
  | noFlags
  | PURPLE_MESSAGE_IMAGES
  deriving DecidableEq, Repr

/-- A call made outward by the client: a query handed to the transceiver, or a call into
libpurple or into a helper of the presentation layer that is defined outside
`td-client.cpp`. The trace of a client lists them in program order. -/
inductive Event
  | sendQuery (requestId : Nat) (query : td_api.Function) (responseCb : Option ResponseCb)
  | sendQueryWithTimeout (requestId : Nat) (query : td_api.Function)
      (responseCb : Option ResponseCb) (timeout : Nat)
  | purple_connection_error (message : String)
  | purple_connection_set_state (state : PurpleConnectionState)
  | purple_connection_update_progress (text : String) (step : Nat) (count : Nat)
  | purple_blist_remove_account
  | purple_blist_add_account
  | purple_request_input (title : String) (primary : String)
  | purple_conversation_write (conversation : String) (who : String) (text : String)
  | purple_account_set_alias (alias_ : String)
  | purple_prpl_got_user_status (name : String) (statusId : String)
  | updatePrivateChat (chatId : Int) (userId : Int)
  | updateBasicGroupChat (groupId : Int)
  | updateSupergroupChat (groupId : Int)
  | removeGroupChat (chatId : Int)
  | setChatMembers (chatId : Int) (members : List Int)
  | showMessageText (chatId : Int) (message : TgMessageInfo) (text : Option String)
      (notice : Option String) (flags : MessageFlags)
  | purple_imgstore_add_with_id (imageId : Int)
  | purple_notify_error (hasHandle : Bool) (title : String) (text : String)
  | g_idle_add_failedContactIdle (message : String)
  | serv_got_typing (name : String) (timeout : Nat)
  | serv_got_typing_stopped (name : String)
  | purple_blist_remove_chat (purpleChat : Nat)
  | remove (path : String)
  deriving DecidableEq, Repr

/-! ## The pending request registry and the mirror (`TdAccountData`) -/

/-- The request class `GroupInfoRequest`. -/
structure GroupInfoRequest where
  groupId : Int
  deriving DecidableEq, Repr

/-- The request class `DownloadRequest`. -/
structure DownloadRequest where
  chatId : Int
  message : TgMessageInfo
  thumbnail : Option td_api.file
  deriving DecidableEq, Repr

/-- The request class `ContactRequest`. -/
structure ContactRequest where
  phoneNumber : String
  alias_ : String
  groupName : String
  userId : Int
  deriving DecidableEq, Repr

/-- The request class `GroupJoinRequest`. -/
structure GroupJoinRequest where
  inviteLink : String
  deriving DecidableEq, Repr

/-- The request class `SendMessageRequest`. -/
structure SendMessageRequest where
  tempFile : String
  deriving DecidableEq, Repr

/-- The request class `PendingMessage`. -/
structure PendingMessage where
  messageId : Int
  chatId : Int
  deriving DecidableEq, Repr

/-- The classes derived from `PendingRequest`, one per workflow kind. -/
inductive PendingRequest
  | ofGroupInfoRequest (r : GroupInfoRequest)
  | ofDownloadRequest (r : DownloadRequest)
  | ofContactRequest (r : ContactRequest)
  | ofGroupJoinRequest (r : GroupJoinRequest)
  | ofSendMessageRequest (r : SendMessageRequest)
  | ofPendingMessage (r : PendingMessage)
  deriving DecidableEq, Repr

/-- The dynamic cast of a stored request to `GroupInfoRequest`. -/
def PendingRequest.asGroupInfoRequest : PendingRequest → Option GroupInfoRequest
  | .ofGroupInfoRequest r => some r
  | _ => none

/-- The dynamic cast of a stored request to `DownloadRequest`. -/
def PendingRequest.asDownloadRequest : PendingRequest → Option DownloadRequest
  | .ofDownloadRequest r => some r
  | _ => none

/-- The dynamic cast of a stored request to `ContactRequest`. -/
def PendingRequest.asContactRequest : PendingRequest → Option ContactRequest
  | .ofContactRequest r => some r
  | _ => none

/-- The dynamic cast of a stored request to `GroupJoinRequest`. -/
def PendingRequest.asGroupJoinRequest : PendingRequest → Option GroupJoinRequest
  | .ofGroupJoinRequest r => some r
  | _ => none

/-- The dynamic cast of a stored request to `SendMessageRequest`. -/
def PendingRequest.asSendMessageRequest : PendingRequest → Option SendMessageRequest
  | .ofSendMessageRequest r => some r
  | _ => none

/-- The dynamic cast of a stored request to `PendingMessage`. -/
def PendingRequest.asPendingMessage : PendingRequest → Option PendingMessage
  | .ofPendingMessage r => some r
  | _ => none

/-- Modelled from the spec: the class `TdAccountData` (account-data.h) is not in src.
It is the Mirror of the spec: in-memory tables of users, chats, groups and messages, the
set of contacts, the map from message id to temp file, the "group info requested" flags
and the Pending Request Registry, a mapping from request id to a one-shot context. Each
table is a list holding at most one entry per key. -/
structure TdAccountData where
  users : List td_api.user
  chats : List td_api.chat
  basicGroups : List td_api.basicGroup
  basicGroupInfos : List (Int × td_api.basicGroupFullInfo)
  basicGroupInfoRequested : List Int
  supergroups : List td_api.supergroup
  contacts : List Int
  messages : List td_api.message
  tempFileUploads : List (Int × String)
  pendingRequests : List (Nat × PendingRequest)
  deriving DecidableEq, Repr

namespace TdAccountData

/-- Modelled from the spec: `TdAccountData::getUser` is not in src; the user stored
under the id, if any. -/
def getUser (d : TdAccountData) (userId : Int) : Option td_api.user :=
  d.users.find? (fun u => u.id_ == userId)

/-- Modelled from the spec: `TdAccountData::updateUser` is not in src; user updates
overwrite the corresponding Mirror entry. -/
def updateUser (d : TdAccountData) (u : td_api.user) : TdAccountData :=
  { d with users := u :: d.users.filter (fun v => v.id_ != u.id_) }

/-- Modelled from the spec: `TdAccountData::getChat` is not in src; the chat stored
under the id, if any. -/
def getChat (d : TdAccountData) (chatId : Int) : Option td_api.chat :=
  d.chats.find? (fun c => c.id_ == chatId)

/-- Modelled from the spec: `TdAccountData::getChats` is not in src; all chats of the
Mirror. -/
def getChats (d : TdAccountData) : List td_api.chat := d.chats

/-- Modelled from the spec: `TdAccountData::addChat` is not in src; chat updates
overwrite the corresponding Mirror entry. -/
def addChat (d : TdAccountData) (c : td_api.chat) : TdAccountData :=
  { d with chats := c :: d.chats.filter (fun v => v.id_ != c.id_) }

/-- Modelled from the spec: `TdAccountData::getUserByPrivateChat` is not in src; private
chats carry a back-reference to a user id, and the user is looked up under it. -/
def getUserByPrivateChat (d : TdAccountData) (c : td_api.chat) : Option td_api.user :=
  match c.type_ with
  | .chatTypePrivate userId => d.getUser userId
  | _ => none

/-- Modelled from the spec: `TdAccountData::getPrivateChatByUserId` is not in src; the
private chat whose back-reference is the user id, if any. -/
def getPrivateChatByUserId (d : TdAccountData) (userId : Int) : Option td_api.chat :=
  d.chats.find? (fun c => c.type_ == .chatTypePrivate userId)

/-- Modelled from the spec: `TdAccountData::setContacts` is not in src; it records the
user ids of the fetched contacts. -/
def setContacts (d : TdAccountData) (userIds : List Int) : TdAccountData :=
  { d with contacts := userIds }

/-- Modelled from the spec: `TdAccountData::getContactsWithNoChat` is not in src; the
contacts lacking a private chat. -/
def getContactsWithNoChat (d : TdAccountData) : List Int :=
  d.contacts.filter (fun userId => (d.getPrivateChatByUserId userId).isNone)

/-- Modelled from the spec: `TdAccountData::isBasicGroupInfoRequested` is not in src; the
"group info requested" flag of the group id. -/
def isBasicGroupInfoRequested (d : TdAccountData) (groupId : Int) : Bool :=
  d.basicGroupInfoRequested.contains groupId

/-- Modelled from the spec: `TdAccountData::setBasicGroupInfoRequested` is not in src; it
sets the "group info requested" flag of the group id. -/
def setBasicGroupInfoRequested (d : TdAccountData) (groupId : Int) : TdAccountData :=
  { d with basicGroupInfoRequested := groupId :: d.basicGroupInfoRequested }

/-- Modelled from the spec: `TdAccountData::addPendingRequest` is not in src; `register`
of the Pending Request Registry, a mapping: the context is stored under the request id. -/
def addPendingRequest (d : TdAccountData) (requestId : Nat) (r : PendingRequest) :
    TdAccountData :=
  { d with pendingRequests :=
      (requestId, r) :: d.pendingRequests.filter (fun e => e.1 != requestId) }

/-- The entry the registry holds under a request id, if any. -/
def lookupPendingRequest (d : TdAccountData) (requestId : Nat) : Option PendingRequest :=
  (d.pendingRequests.find? (fun e => e.1 == requestId)).map Prod.snd

/-- The registry without the entry under a request id. -/
def erasePendingRequest (d : TdAccountData) (requestId : Nat) : TdAccountData :=
  { d with pendingRequests := d.pendingRequests.filter (fun e => e.1 != requestId) }

/-- Modelled from the spec: `TdAccountData::getPendingRequest` is not in src; `take` of
the Pending Request Registry: it removes the entry under the id and returns it, and
returns empty if the id is absent or the stored variant does not match the requested
type (the cast). -/
def getPendingRequest {T : Type} (cast : PendingRequest → Option T) (d : TdAccountData)
    (requestId : Nat) : Option T × TdAccountData :=
  ((d.lookupPendingRequest requestId).bind cast, d.erasePendingRequest requestId)

end TdAccountData

/-! ## The client state -/

/-- The transceiver `m_transceiver`. Modelled from the spec: the class `TdTransceiver`
(transceiver.h) is not in src; the query-send primitive returns monotonically assigned
request ids, unique for the process lifetime, so the state is the next id to hand out. -/
structure TdTransceiver where
  nextRequestId : Nat
  deriving DecidableEq, Repr

/-- The object `PurpleTdClient`: its member variables, the host account, and the trace of
the calls made outward so far. `m_lastAuthState` is `none` for the initial value 0. -/
structure PurpleTdClient where
  m_account : PurpleAccount
  m_transceiver : TdTransceiver
  m_data : TdAccountData
  m_lastAuthState : Option AuthorizationStateID
  m_connectionReady : Bool
  m_isProxyAdded : Bool
  m_addedProxy : Option td_api.proxy
  m_proxies : Option td_api.proxies
  m_usersForNewPrivateChats : List Int
  trace : List Event
  deriving DecidableEq, Repr

/-- The outcome of a handler that dereferences object pointers: it ran to completion, or it
dereferenced a null pointer, in which case the state reached just before is kept. -/
inductive Result
  | ok (s : PurpleTdClient)
  | nullDeref (s : PurpleTdClient)
  deriving DecidableEq, Repr

/-- The state a handler ended in, whether it completed or not. -/
def Result.state : Result → PurpleTdClient
  | .ok s => s
  | .nullDeref s => s

/-- Whether the handler ran to completion. -/
def Result.completed : Result → Bool
  | .ok _ => true
  | .nullDeref _ => false

/-- The helpers and host look-ups that `td-client.cpp` calls and that are defined
elsewhere (client-utils, format, purple-info, libpurple, glib); each is a parameter of
the embedding. -/
structure Env where
  proxyTypeToString : PurpleProxyType → String
  getNamesFromAlias : Option String → String × String
  isPhoneNumber : String → Bool
  getPurpleBuddyName : td_api.user → String
  getDisplayName : td_api.user → String
  getPurpleStatusId : td_api.UserStatus → String
  messageTypeToString : td_api.MessageContent → String
  getSenderPurpleName : td_api.chat → td_api.message → TdAccountData → String
  getForwardSource : td_api.messageForwardInfo → TdAccountData → String
  findChatConversation : td_api.chat → Bool
  findChatsByInviteLink : String → List Nat
  g_file_get_contents : String → Bool
  purple_imgstore_add_with_id : String → Int
  purple_user_dir : String
  configSubdir : String
  G_DIR_SEPARATOR_S : String

namespace PurpleTdClient

/-- Record a call made outward. -/
def emit (s : PurpleTdClient) (e : Event) : PurpleTdClient :=
  { s with trace := s.trace ++ [e] }

/-- The call `m_transceiver.sendQuery(query, responseCb)`: the query is handed over and
the next request id is returned. -/
def sendQuery (s : PurpleTdClient) (query : td_api.Function) (responseCb : Option ResponseCb) :
    Nat × PurpleTdClient :=
  (s.m_transceiver.nextRequestId,
   { s with
     m_transceiver := { nextRequestId := s.m_transceiver.nextRequestId + 1 }
     trace := s.trace ++ [Event.sendQuery s.m_transceiver.nextRequestId query responseCb] })

/-- The call `m_transceiver.sendQueryWithTimeout(query, responseCb, timeout)`. -/
def sendQueryWithTimeout (s : PurpleTdClient) (query : td_api.Function)
    (responseCb : Option ResponseCb) (timeout : Nat) : Nat × PurpleTdClient :=
  (s.m_transceiver.nextRequestId,
   { s with
     m_transceiver := { nextRequestId := s.m_transceiver.nextRequestId + 1 }
     trace := s.trace ++
       [Event.sendQueryWithTimeout s.m_transceiver.nextRequestId query responseCb timeout] })

/-- The call `purple_connection_set_state` of libpurple. -/
def purple_connection_set_state (s : PurpleTdClient) (st : PurpleConnectionState) :
    PurpleTdClient :=
  { s with
    m_account := { s.m_account with connectionState := st }
    trace := s.trace ++ [Event.purple_connection_set_state st] }

/-- The test `purple_account_is_connected` of libpurple. -/
def purple_account_is_connected (s : PurpleTdClient) : Bool :=
  s.m_account.connectionState == .PURPLE_CONNECTED

end PurpleTdClient

/-- The queries among a list of outward calls, in order. -/
def queriesOf : List Event → List td_api.Function
  | [] => []
  | Event.sendQuery _ q _ :: es => q :: queriesOf es
  | Event.sendQueryWithTimeout _ q _ _ :: es => q :: queriesOf es
  | _ :: es => queriesOf es

/-- Replace the placeholders of a format text, one per argument, left to right. -/
def formatChars : List Char → List String → List Char
  | [], _ => []
  | [c], _ => [c]
  | c :: d :: rest, [] => c :: d :: rest
  | c :: d :: rest, a :: args =>
    if c = '\x7b' ∧ d = '\x7d' then a.data ++ formatChars rest args
    else c :: formatChars (d :: rest) (a :: args)

/-- Modelled from the spec: `formatMessage` (format.h) is not in src; error messages
include the remote-reported code and message text, so each placeholder of the format text
is replaced by the corresponding argument. -/
def formatMessage (fmt : String) (args : List String) : String :=
  String.mk (formatChars fmt.data args)

namespace PurpleTdClient

/-- The function `getDisplayedError`. -/
def getDisplayedError (object : Option td_api.Object) : String :=
  match object with
  | none => tr "No response received"
  | some (.error code message) =>
    formatMessage "code \x7b\x7d (\x7b\x7d)" [toString code, message]
  | some _ => tr "Unexpected response"

/-- The method `addProxy`. -/
def addProxy (env : Env) (s : PurpleTdClient) : Bool × PurpleTdClient :=
  let purpleProxy := s.m_account.proxyInfo
  let proxyType := match purpleProxy with
    | some p => p.type
    | none => PurpleProxyType.PURPLE_PROXY_NONE
  let username := (purpleProxy.bind (fun p => p.username)).getD ""
  let password := (purpleProxy.bind (fun p => p.password)).getD ""
  let host := (purpleProxy.bind (fun p => p.host)).getD ""
  let port := match purpleProxy with
    | some p => p.port
    | none => 0
  let chosen : Option td_api.ProxyType × String := match proxyType with
    | .PURPLE_PROXY_NONE => (none, "")
    | .PURPLE_PROXY_SOCKS5 => (some (.proxyTypeSocks5 username password), "")
    | .PURPLE_PROXY_HTTP => (some (.proxyTypeHttp username password true), "")
    | other =>
      (none, formatMessage (tr "Proxy type \x7b\x7d is not supported")
        [env.proxyTypeToString other])
  let tdProxyType := chosen.1
  let errorMessage := chosen.2
  if errorMessage ≠ "" then
    (false, s.emit (.purple_connection_error errorMessage))
  else
    match tdProxyType with
    | some t =>
      let s1 := (s.sendQuery (.addProxy host port true t) (some .addProxyResponse)).2
      (true, { s1 with m_isProxyAdded := true })
    | none => (true, s)

/-- The method `removeOldProxies`; it dereferences `m_proxies`. -/
def removeOldProxies (s : PurpleTdClient) : Result :=
  match s.m_proxies with
  | none => .nullDeref s
  | some ps =>
    .ok (ps.proxies_.foldl
      (fun acc p =>
        match p with
        | some proxy =>
          if (match s.m_addedProxy with
              | none => true
              | some added => proxy.id_ ≠ added.id_) then
            (acc.sendQuery (.removeProxy proxy.id_) none).2
          else acc
        | none => acc) s)

/-- The method `addProxyResponse`. -/
def addProxyResponse (s : PurpleTdClient) (_requestId : Nat) (object : Option td_api.Object) :
    Result :=
  match object with
  | some (.proxy p) =>
    let s1 := { s with m_addedProxy := some p }
    if s1.m_proxies.isSome then removeOldProxies s1 else .ok s1
  | _ =>
    let message := formatMessage (tr "Could not set proxy: \x7b\x7d") [getDisplayedError object]
    .ok (s.emit (.purple_connection_error message))

/-- The method `getProxiesResponse`. -/
def getProxiesResponse (s : PurpleTdClient) (_requestId : Nat)
    (object : Option td_api.Object) : Result :=
  match object with
  | some (.proxies ps) =>
    let s1 := { s with m_proxies := some ps }
    if !s1.m_isProxyAdded || s1.m_addedProxy.isSome then removeOldProxies s1 else .ok s1
  | _ =>
    let message :=
      formatMessage (tr "Could not get proxies: \x7b\x7d") [getDisplayedError object]
    .ok (s.emit (.purple_connection_error message))

/-- The method `sendTdlibParameters`. -/
def sendTdlibParameters (env : Env) (s : PurpleTdClient) : PurpleTdClient :=
  let username := s.m_account.username
  let parameters : td_api.tdlibParameters :=
    { database_directory_ := env.purple_user_dir ++ env.G_DIR_SEPARATOR_S ++
        env.configSubdir ++ env.G_DIR_SEPARATOR_S ++ username
      use_message_database_ := true
      use_secret_chats_ := true
      api_id_ := 94575
      api_hash_ := "a3406de8d171bb422bb6ddf3bbd800e2"
      system_language_code_ := "en"
      device_model_ := "Desktop"
      system_version_ := "Unknown"
      application_version_ := "1.0"
      enable_storage_optimizer_ := true }
  (s.sendQuery (.setTdlibParameters parameters) (some .authResponse)).2

/-- The method `sendPhoneNumber`. -/
def sendPhoneNumber (s : PurpleTdClient) : PurpleTdClient :=
  let number := s.m_account.username
  (s.sendQuery (.setAuthenticationPhoneNumber number) (some .authResponse)).2

/-- The function `getAuthCodeDesc`. -/
def getAuthCodeDesc (codeType : td_api.AuthenticationCodeType) : String :=
  match codeType with
  | .authenticationCodeTypeTelegramMessage length =>
    formatMessage (tr "Telegram message (length: \x7b\x7d)") [toString length]
  | .authenticationCodeTypeSms length =>
    formatMessage (tr "SMS (length: \x7b\x7d)") [toString length]
  | .authenticationCodeTypeCall length =>
    formatMessage (tr "Phone call (length: \x7b\x7d)") [toString length]
  | .authenticationCodeTypeFlashCall pattern =>
    formatMessage (tr "Poor man's phone call (pattern: \x7b\x7d)") [pattern]
  | .authenticationCodeTypeOther => "Pigeon post"

/-- The method `requestAuthCode`: it asks the user for the code; no query is sent here. -/
def requestAuthCode (s : PurpleTdClient) (codeInfo : Option td_api.authenticationCodeInfo) :
    PurpleTdClient :=
  let message0 := tr "Enter authentication code" ++ "\n"
  let message := match codeInfo with
    | some info =>
      let m1 := match info.type_ with
        | some t =>
          message0 ++ formatMessage (tr "Code sent via: \x7b\x7d") [getAuthCodeDesc t] ++ "\n"
        | none => message0
      match info.next_type_ with
      | some t =>
        m1 ++ formatMessage (tr "Next code will be: \x7b\x7d") [getAuthCodeDesc t] ++ "\n"
      | none => m1
    | none => message0
  let s1 := s.emit (.purple_request_input (tr "Login code") message)
  if !s1.m_account.requestInputHandle then
    let s2 := s1.purple_connection_set_state .PURPLE_CONNECTED
    s2.emit (.purple_conversation_write "Telegram" "Telegram"
      "Authentication code needs to be entered but this libpurple won't cooperate")
  else s1

/-- The method `registerUser`. -/
def registerUser (env : Env) (s : PurpleTdClient) : PurpleTdClient :=
  let names := env.getNamesFromAlias s.m_account.alias_
  let firstName := names.1
  let lastName := names.2
  if firstName = "" ∧ lastName = "" then
    s.emit (.purple_connection_error
      (tr "Account alias (your name) must be set to register new user"))
  else
    (s.sendQuery (.registerUser firstName lastName) (some .authResponse)).2

/-- The callback `requestCodeEntered`, run when the user has entered the code. -/
def requestCodeEntered (s : PurpleTdClient) (code : String) : PurpleTdClient :=
  (s.sendQuery (.checkAuthenticationCode code) (some .authResponse)).2

/-- The callback `requestCodeCancelled`, run when the user dismisses the code request. -/
def requestCodeCancelled (s : PurpleTdClient) : PurpleTdClient :=
  s.emit (.purple_connection_error (tr "Authentication code required"))

/-- The method `notifyAuthError`. -/
def notifyAuthError (s : PurpleTdClient) (response : Option td_api.Object) : PurpleTdClient :=
  let message := match s.m_lastAuthState with
    | some .waitEncryptionKey => tr "Error applying database encryption key: \x7b\x7d"
    | some .waitPhoneNumber => tr "Authentication error after sending phone number: \x7b\x7d"
    | _ => tr "Authentication error: \x7b\x7d"
  let message := formatMessage message [getDisplayedError response]
  s.emit (.purple_connection_error message)

/-- The method `authResponse`. -/
def authResponse (s : PurpleTdClient) (_requestId : Nat) (object : Option td_api.Object) :
    PurpleTdClient :=
  match object with
  | some .ok => s
  | _ => s.notifyAuthError object

/-- The method `onLoggedIn`. -/
def onLoggedIn (s : PurpleTdClient) : PurpleTdClient :=
  (s.sendQuery .getContacts (some .getContactsResponse)).2

/-- The method `connectionReady`. -/
def connectionReady (s : PurpleTdClient) : PurpleTdClient :=
  let s1 := { s with m_connectionReady := true }
  if s1.m_lastAuthState = some .ready then s1.onLoggedIn else s1

/-- The method `setPurpleConnectionInProgress`. -/
def setPurpleConnectionInProgress (s : PurpleTdClient) : PurpleTdClient :=
  let s1 := { s with m_connectionReady := false }
  let s2 := if s1.purple_account_is_connected then s1.emit .purple_blist_remove_account else s1
  let s3 := s2.purple_connection_set_state .PURPLE_CONNECTING
  s3.emit (.purple_connection_update_progress "Connecting" 1 3)

/-- The method `setPurpleConnectionUpdating`. -/
def setPurpleConnectionUpdating (s : PurpleTdClient) : PurpleTdClient :=
  let s1 := { s with m_connectionReady := false }
  s1.emit (.purple_connection_update_progress "Updating status" 2 3)

/-- The method `processAuthorizationState`. -/
def processAuthorizationState (env : Env) (s : PurpleTdClient)
    (authState : td_api.AuthorizationState) : PurpleTdClient :=
  match authState with
  | .authorizationStateWaitEncryptionKey =>
    (s.sendQuery (.checkDatabaseEncryptionKey "") (some .authResponse)).2
  | .authorizationStateWaitTdlibParameters =>
    let s1 := (s.sendQuery .disableProxy none).2
    let r := s1.addProxy env
    if r.1 then
      let s2 := (r.2.sendQuery .getProxies (some .getProxiesResponse)).2
      s2.sendTdlibParameters env
    else r.2
  | .authorizationStateWaitPhoneNumber => s.sendPhoneNumber
  | .authorizationStateWaitCode code_info => s.requestAuthCode code_info
  | .authorizationStateWaitRegistration => s.registerUser env
  | .authorizationStateReady => if s.m_connectionReady then s.onLoggedIn else s
  | _ => s

end PurpleTdClient

/-! ## Further look-ups of the mirror -/

namespace TdAccountData

/-- Modelled from the spec: `TdAccountData::getUserByPhone` is not in src; the user whose
phone-number key is the given text, if any. -/
def getUserByPhone (d : TdAccountData) (phoneNumber : String) : Option td_api.user :=
  d.users.find? (fun u => u.phone_number_ == phoneNumber)

/-- Modelled from the spec: `TdAccountData::getBasicGroupChatByGroup` is not in src; the
chat whose content variant is the basic group of that id, if any. -/
def getBasicGroupChatByGroup (d : TdAccountData) (groupId : Int) : Option td_api.chat :=
  d.chats.find? (fun c => c.type_ == .chatTypeBasicGroup groupId)

/-- Modelled from the spec: `TdAccountData::updateBasicGroupInfo` is not in src; the
fetched member list overwrites the one held for the group. -/
def updateBasicGroupInfo (d : TdAccountData) (groupId : Int)
    (groupInfo : td_api.basicGroupFullInfo) : TdAccountData :=
  { d with basicGroupInfos :=
      (groupId, groupInfo) :: d.basicGroupInfos.filter (fun e => e.1 != groupId) }

/-- Modelled from the spec: `TdAccountData::findMessage` is not in src; the message stored
under the id, if any. -/
def findMessage (d : TdAccountData) (messageId : Int) : Option td_api.message :=
  d.messages.find? (fun m => m.id_ == messageId)

/-- Modelled from the spec: `TdAccountData::saveMessage` is not in src; a message is
stored by id in the Mirror once received. -/
def saveMessage (d : TdAccountData) (m : td_api.message) : TdAccountData :=
  { d with messages := m :: d.messages.filter (fun v => v.id_ != m.id_) }

/-- Modelled from the spec: `TdAccountData::addTempFileUpload` is not in src; it records
the temp file of an outgoing message under the message id. -/
def addTempFileUpload (d : TdAccountData) (messageId : Int) (path : String) :
    TdAccountData :=
  { d with tempFileUploads :=
      (messageId, path) :: d.tempFileUploads.filter (fun e => e.1 != messageId) }

end TdAccountData

/-- Modelled from the spec: `getBasicGroupId` (client-utils.h) is not in src; the group id
of a basic-group chat, and 0 for every other chat. -/
def getBasicGroupId (c : td_api.chat) : Int :=
  match c.type_ with
  | .chatTypeBasicGroup groupId => groupId
  | _ => 0

/-- Modelled from the spec: `getSupergroupId` (client-utils.h) is not in src; the group id
of a supergroup chat, and 0 for every other chat. -/
def getSupergroupId (c : td_api.chat) : Int :=
  match c.type_ with
  | .chatTypeSupergroup groupId _ => groupId
  | _ => 0

/-- Modelled from the spec: `isPrivateChat` (client-utils.h) is not in src; whether the
content-variant discriminator of the chat is "private". -/
def isPrivateChat (c : td_api.chat) : Bool :=
  match c.type_ with
  | .chatTypePrivate _ => true
  | _ => false

namespace PurpleTdClient

/-! ## Bootstrap after login -/

/-- The method `requestBasicGroupMembers`. -/
def requestBasicGroupMembers (s : PurpleTdClient) (groupId : Int) : PurpleTdClient :=
  if !s.m_data.isBasicGroupInfoRequested groupId then
    let s1 := { s with m_data := s.m_data.setBasicGroupInfoRequested groupId }
    let r := s1.sendQuery (.getBasicGroupFullInfo groupId) (some .groupInfoResponse)
    { r.2 with m_data := r.2.m_data.addPendingRequest r.1 (.ofGroupInfoRequest ⟨groupId⟩) }
  else s

/-- The method `updateChat`. -/
def updateChat (s : PurpleTdClient) (chat : Option td_api.chat) : PurpleTdClient :=
  match chat with
  | none => s
  | some chat =>
    let privateChatUser := s.m_data.getUserByPrivateChat chat
    let basicGroupId := getBasicGroupId chat
    let supergroupId := getSupergroupId chat
    if !s.purple_account_is_connected then s
    else if isChatInContactList chat privateChatUser then
      let s1 := match privateChatUser with
        | some u => s.emit (.updatePrivateChat chat.id_ u.id_)
        | none => s
      let s2 := if basicGroupId ≠ 0 then
          (s1.requestBasicGroupMembers basicGroupId).emit (.updateBasicGroupChat basicGroupId)
        else s1
      if supergroupId ≠ 0 then s2.emit (.updateSupergroupChat supergroupId) else s2
    else s.emit (.removeGroupChat chat.id_)

/-- The body of the loop over the chats in `updatePurpleChatListAndReportConnected`. -/
def updateChatAndUserStatus (env : Env) (s : PurpleTdClient) (chat : td_api.chat) :
    PurpleTdClient :=
  let s1 := s.updateChat (some chat)
  match s1.m_data.getUserByPrivateChat chat with
  | some u =>
    if isChatInContactList chat (some u) then
      s1.emit (.purple_prpl_got_user_status (env.getPurpleBuddyName u)
        (env.getPurpleStatusId u.status_))
    else s1
  | none => s1

/-- The call `purple_account_set_alias` of libpurple. -/
def purple_account_set_alias (s : PurpleTdClient) (alias_ : String) : PurpleTdClient :=
  { s with
    m_account := { s.m_account with alias_ := some alias_ }
    trace := s.trace ++ [Event.purple_account_set_alias alias_] }

/-- The method `updatePurpleChatListAndReportConnected`. -/
def updatePurpleChatListAndReportConnected (env : Env) (s : PurpleTdClient) : PurpleTdClient :=
  let s1 := s.purple_connection_set_state .PURPLE_CONNECTED
  let chats := s1.m_data.getChats
  let s2 := chats.foldl (updateChatAndUserStatus env) s1
  let s3 := match s2.m_data.getUserByPhone s2.m_account.username with
    | some selfInfo =>
      s2.purple_account_set_alias (selfInfo.first_name_ ++ " " ++ selfInfo.last_name_)
    | none => s2
  s3.emit .purple_blist_add_account

/-- The method `requestMissingPrivateChats`: the queue is a vector, served from its back. -/
def requestMissingPrivateChats (env : Env) (s : PurpleTdClient) : PurpleTdClient :=
  match s.m_usersForNewPrivateChats.getLast? with
  | none => s.updatePurpleChatListAndReportConnected env
  | some userId =>
    let s1 := { s with m_usersForNewPrivateChats := s.m_usersForNewPrivateChats.dropLast }
    (s1.sendQuery (.createPrivateChat userId false) (some .loginCreatePrivateChatResponse)).2

/-- The method `getContactsResponse`. -/
def getContactsResponse (s : PurpleTdClient) (_requestId : Nat)
    (object : Option td_api.Object) : PurpleTdClient :=
  match object with
  | some (.users user_ids) =>
    let s1 := { s with m_data := s.m_data.setContacts user_ids }
    (s1.sendQuery (.getChats 9223372036854775807 0 200) (some .getChatsResponse)).2
  | _ => s.notifyAuthError object

/-- The method `getChatsResponse`. -/
def getChatsResponse (env : Env) (s : PurpleTdClient) (_requestId : Nat)
    (object : Option td_api.Object) : PurpleTdClient :=
  match object with
  | some (.chats _) =>
    let s1 := { s with m_usersForNewPrivateChats := s.m_data.getContactsWithNoChat }
    s1.requestMissingPrivateChats env
  | _ => s.notifyAuthError object

/-- The method `loginCreatePrivateChatResponse`; it calls `object->get_id()` without
testing the pointer. -/
def loginCreatePrivateChatResponse (env : Env) (s : PurpleTdClient) (_requestId : Nat)
    (object : Option td_api.Object) : Result :=
  match object with
  | none => .nullDeref s
  | some (.chat chat) =>
    let s1 := { s with m_data := s.m_data.addChat chat }
    .ok (s1.requestMissingPrivateChats env)
  | some _ => .ok (s.requestMissingPrivateChats env)

/-- The method `groupInfoResponse`. -/
def groupInfoResponse (env : Env) (s : PurpleTdClient) (requestId : Nat)
    (object : Option td_api.Object) : PurpleTdClient :=
  let taken := s.m_data.getPendingRequest PendingRequest.asGroupInfoRequest requestId
  let s1 := { s with m_data := taken.2 }
  match taken.1, object with
  | some request, some (.basicGroupFullInfo groupInfo) =>
    let s2 := match s1.m_data.getBasicGroupChatByGroup request.groupId with
      | some chat =>
        if env.findChatConversation chat then
          s1.emit (.setChatMembers chat.id_ groupInfo.members_)
        else s1
      | none => s1
    { s2 with m_data := s2.m_data.updateBasicGroupInfo request.groupId groupInfo }
  | _, _ => s1

end PurpleTdClient

/-! ## Rendering of messages -/

/-- Continue with `f` if the handler so far ran to completion. -/
def Result.andThen (r : Result) (f : PurpleTdClient → Result) : Result :=
  match r with
  | .ok s => f s
  | .nullDeref s => .nullDeref s

/-- Apply a state change to the state a handler ended in. -/
def Result.mapState (r : Result) (f : PurpleTdClient → PurpleTdClient) : Result :=
  match r with
  | .ok s => .ok (f s)
  | .nullDeref s => .nullDeref (f s)

/-- The C string `s.c_str()` as the C library reads it: the characters before the first
NUL. -/
def c_str (s : String) : String :=
  String.mk (s.data.takeWhile (fun c => c ≠ '\x00'))

/-- The test `file.local_ && file.local_->is_downloading_completed_`. -/
def isDownloadingCompleted (f : td_api.file) : Bool :=
  match f.local_ with
  | some l => l.is_downloading_completed_
  | none => false

/-- The path `file.local_->path_` of a file with local information. -/
def localPath (f : td_api.file) : String :=
  match f.local_ with
  | some l => l.path_
  | none => ""

/-- The function `selectPhotoSize`. -/
def selectPhotoSize (photo : td_api.messagePhoto) : Option td_api.file :=
  let selectedSize : Option td_api.photoSize :=
    match photo.photo_ with
    | some ph =>
      ph.sizes_.foldl
        (fun selectedSize newSize =>
          match newSize with
          | some ns =>
            if ns.photo_.isSome &&
                (match selectedSize with
                 | none => true
                 | some sel => decide (ns.width_ > sel.width_)) then some ns
            else selectedSize
          | none => selectedSize) none
    | none => none
  match selectedSize with
  | some sel => sel.photo_
  | none => none

/-- The function `getSenderDisplayName`. For an outgoing message the result is built from
`purple_account_get_alias`, which is a null pointer when no alias is set: `none`. -/
def getSenderDisplayName (chat : td_api.chat) (message : TgMessageInfo)
    (account : PurpleAccount) : Option String :=
  if message.outgoing then account.alias_
  else if isPrivateChat chat then some chat.title_
  else some message.sender

/-- The function `makeNoticeWithSender`. -/
def makeNoticeWithSender (chat : td_api.chat) (message : TgMessageInfo) (noticeText : String)
    (account : PurpleAccount) : Option String :=
  match getSenderDisplayName chat message account with
  | none => none
  | some name => some ((if name ≠ "" then name ++ ": " else name) ++ noticeText)

/-- The function `getDownloadPath`. -/
def getDownloadPath (object : Option td_api.Object) : String :=
  match object with
  | some (.file f) =>
    match f.local_ with
    | none => ""
    | some l => if !l.is_downloading_completed_ then "" else l.path_
  | _ => ""

/-- The position test `path.rfind(c)`: the characters after the last occurrence of `c`,
if there is one. -/
def afterLast (c : Char) : List Char → Option (List Char)
  | [] => none
  | x :: rest =>
    match afterLast c rest with
    | some suffix => some suffix
    | none => if x = c then some rest else none

/-- The function `isTgs`. -/
def isTgs (path : String) : Bool :=
  match afterLast '.' path.data with
  | some suffix => c_str (String.mk suffix) == "tgs"
  | none => false

namespace PurpleTdClient

/-- The method `showTextMessage`. -/
def showTextMessage (s : PurpleTdClient) (chat : td_api.chat) (message : TgMessageInfo)
    (text : td_api.messageText) : PurpleTdClient :=
  match text.text_ with
  | some t => s.emit (.showMessageText chat.id_ message (some t.text_) none .noFlags)
  | none => s

/-- The method `requestDownload`. -/
def requestDownload (s : PurpleTdClient) (fileId : Int) (chatId : Int)
    (message : TgMessageInfo) (thumbnail : Option td_api.file) (responseCb : ResponseCb) :
    PurpleTdClient :=
  let r := s.sendQuery (.downloadFile fileId FILE_DOWNLOAD_PRIORITY 0 0 true) (some responseCb)
  { r.2 with
    m_data := r.2.m_data.addPendingRequest r.1 (.ofDownloadRequest ⟨chatId, message, thumbnail⟩) }

/-- The method `showDownloadedImage`. -/
def showDownloadedImage (env : Env) (s : PurpleTdClient) (chatId : Int)
    (message : TgMessageInfo) (filePath : String) (caption : Option String) : Result :=
  match s.m_data.getChat chatId with
  | none => .ok s
  | some chat =>
    let shown (s1 : PurpleTdClient) (text0 : String) (notice : String) : Result :=
      let text := match caption with
        | some c =>
          if c_str c ≠ "" then (if text0 ≠ "" then text0 ++ "\n" else text0) ++ c_str c
          else text0
        | none => text0
      .ok (s1.emit (.showMessageText chat.id_ message
        (if text = "" then none else some text)
        (if notice = "" then none else some notice) .PURPLE_MESSAGE_IMAGES))
    if env.g_file_get_contents filePath then
      let id := env.purple_imgstore_add_with_id filePath
      shown (s.emit (.purple_imgstore_add_with_id id)) ("\n<img id=\"" ++ toString id ++ "\">") ""
    else if !filePath.data.contains '"' then
      shown s ("<img src=\"file://" ++ filePath ++ "\">") ""
    else
      match makeNoticeWithSender chat message "Cannot show photo: file path contains quotes"
          s.m_account with
      | none => .nullDeref s
      | some notice => shown s "" notice

/-- The method `showImage`. -/
def showImage (env : Env) (s : PurpleTdClient) (chat : td_api.chat) (message : TgMessageInfo)
    (file : td_api.file) (caption : Option String) : Result :=
  if isDownloadingCompleted file then
    s.showDownloadedImage env chat.id_ message (localPath file) caption
  else
    .ok (s.requestDownload file.id_ chat.id_ message none .imageDownloadResponse)

/-- The method `showPhotoMessage`. -/
def showPhotoMessage (env : Env) (s : PurpleTdClient) (chat : td_api.chat)
    (message : TgMessageInfo) (photo : td_api.messagePhoto) : Result :=
  let file := selectPhotoSize photo
  let notice : Option String :=
    match file with
    | none => makeNoticeWithSender chat message (tr "Faulty image") s.m_account
    | some f =>
      if isDownloadingCompleted f then some ""
      else makeNoticeWithSender chat message (tr "Downloading image") s.m_account
  match notice with
  | none => .nullDeref s
  | some notice =>
    let caption := photo.caption_.map (fun c => c.text_)
    let s1 :=
      if notice ≠ "" then s.emit (.showMessageText chat.id_ message caption (some notice) .noFlags)
      else s
    match file with
    | some f => s1.showImage env chat message f caption
    | none => .ok s1

/-- The method `imageDownloadResponse`. -/
def imageDownloadResponse (env : Env) (s : PurpleTdClient) (requestId : Nat)
    (object : Option td_api.Object) : Result :=
  let path := getDownloadPath object
  let taken := s.m_data.getPendingRequest PendingRequest.asDownloadRequest requestId
  let s1 := { s with m_data := taken.2 }
  match taken.1 with
  | some request =>
    if path ≠ "" then s1.showDownloadedImage env request.chatId request.message path none
    else .ok s1
  | none => .ok s1

/-- The method `showDocument`. -/
def showDocument (s : PurpleTdClient) (chat : td_api.chat) (message : TgMessageInfo)
    (document : td_api.messageDocument) : Result :=
  match makeNoticeWithSender chat message "Sent a file" s.m_account with
  | none => .nullDeref s
  | some description0 =>
    let description := match document.document_ with
      | some d => description0 ++ ": " ++ d.file_name_ ++ " [" ++ d.mime_type_ ++ "]"
      | none => description0
    .ok (s.emit (.showMessageText chat.id_ message (document.caption_.map (fun c => c.text_))
      (some description) .noFlags))

/-- The method `showVideo`. -/
def showVideo (s : PurpleTdClient) (chat : td_api.chat) (message : TgMessageInfo)
    (video : td_api.messageVideo) : Result :=
  match makeNoticeWithSender chat message "Sent a video" s.m_account with
  | none => .nullDeref s
  | some description0 =>
    let description := match video.video_ with
      | some v =>
        description0 ++ ": " ++ v.file_name_ ++ " [" ++ toString v.width_ ++ "x" ++
          toString v.height_ ++ ", " ++ toString v.duration_ ++ "s]"
      | none => description0
    .ok (s.emit (.showMessageText chat.id_ message (video.caption_.map (fun c => c.text_))
      (some description) .noFlags))

/-- The method `showDownloadedInlineFile`. -/
def showDownloadedInlineFile (s : PurpleTdClient) (chatId : Int) (message : TgMessageInfo)
    (filePath : String) (label : String) : Result :=
  match s.m_data.getChat chatId with
  | none => .ok s
  | some chat =>
    if filePath.data.contains '"' then
      match makeNoticeWithSender chat message "Cannot show file: path contains quotes"
          s.m_account with
      | none => .nullDeref s
      | some notice =>
        .ok (s.emit (.showMessageText chat.id_ message none (some notice) .noFlags))
    else
      let text := "<a href=\"file://" ++ filePath ++ "\">" ++ label ++ "</a>"
      .ok (s.emit (.showMessageText chat.id_ message (some text) none .noFlags))

/-- The method `showDownloadedSticker`. -/
def showDownloadedSticker (s : PurpleTdClient) (chatId : Int) (message : TgMessageInfo)
    (filePath : String) (thumbnail : Option td_api.file) : Result :=
  match isTgs filePath, thumbnail with
  | true, some thumb =>
    if isDownloadingCompleted thumb then
      s.showDownloadedInlineFile chatId message (localPath thumb) "Sticker"
    else
      .ok (s.requestDownload thumb.id_ chatId message none .stickerDownloadResponse)
  | _, _ => s.showDownloadedInlineFile chatId message filePath "Sticker"

/-- The method `showSticker`. The content is passed by reference and the file of its
thumbnail is moved out of it: the first component is the content left behind. -/
def showSticker (s : PurpleTdClient) (chat : td_api.chat) (message : TgMessageInfo)
    (stickerContent : td_api.messageSticker) : td_api.messageSticker × Result :=
  match stickerContent.sticker_ with
  | none => (stickerContent, .ok s)
  | some sticker =>
    match sticker.sticker_ with
    | none => (stickerContent, .ok s)
    | some stickerFile =>
      let thumbnail := match sticker.thumbnail_ with
        | some t => t.photo_
        | none => none
      let left : td_api.messageSticker :=
        { sticker_ := some
            { sticker with thumbnail_ := sticker.thumbnail_.map (fun t => { t with photo_ := none }) } }
      if isDownloadingCompleted stickerFile then
        (left, s.showDownloadedSticker chat.id_ message (localPath stickerFile) thumbnail)
      else
        (left, .ok (s.requestDownload stickerFile.id_ chat.id_ message thumbnail
          .stickerDownloadResponse))

/-- The method `stickerDownloadResponse`. -/
def stickerDownloadResponse (s : PurpleTdClient) (requestId : Nat)
    (object : Option td_api.Object) : Result :=
  let path := getDownloadPath object
  let taken := s.m_data.getPendingRequest PendingRequest.asDownloadRequest requestId
  let s1 := { s with m_data := taken.2 }
  match taken.1 with
  | some request =>
    if path ≠ "" then
      s1.showDownloadedSticker request.chatId request.message path request.thumbnail
    else .ok s1
  | none => .ok s1

/-- The method `showInlineFile`. -/
def showInlineFile (s : PurpleTdClient) (chat : td_api.chat) (message : TgMessageInfo)
    (file : td_api.file) : Result :=
  if isDownloadingCompleted file then
    s.showDownloadedInlineFile chat.id_ message (localPath file) "Sent file"
  else
    .ok (s.requestDownload file.id_ chat.id_ message none .fileDownloadResponse)

/-- The method `fileDownloadResponse`. -/
def fileDownloadResponse (s : PurpleTdClient) (requestId : Nat)
    (object : Option td_api.Object) : Result :=
  let path := getDownloadPath object
  let taken := s.m_data.getPendingRequest PendingRequest.asDownloadRequest requestId
  let s1 := { s with m_data := taken.2 }
  match taken.1 with
  | some request =>
    if path ≠ "" then
      s1.showDownloadedInlineFile request.chatId request.message path "Sent file"
    else .ok s1
  | none => .ok s1

end PurpleTdClient

namespace td_api

/-- The update objects the dispatcher distinguishes; every other class is `other`, carrying
its class identifier. -/
inductive Update
  | updateAuthorizationState (authorization_state_ : Option AuthorizationState)
  | updateConnectionState (state_ : Option ConnectionState)
  | updateUser (user_ : Option user)
  | updateNewChat (chat_ : Option chat)
  | updateNewMessage (message_ : Option message)
  | updateUserStatus (user_id_ : Int) (status_ : Option UserStatus)
  | updateUserChatAction (chat_id_ : Int) (user_id_ : Int) (action_ : Option ChatAction)
  | updateBasicGroup (basic_group_ : Option basicGroup)
  | updateSupergroup (supergroup_ : Option supergroup)
  | updateMessageSendSucceeded (old_message_id_ : Int)
  | updateMessageSendFailed (old_message_id_ : Int)
  | updateChatChatList (chat_id_ : Int) (chat_list_ : Option ChatList)
  | updateChatTitle (chat_id_ : Int) (title_ : String)
  | other (id : Int)
  deriving DecidableEq, Repr

end td_api

namespace TdAccountData

/-- The content of the stored message is replaced: the effect of moving a part out of a
message held by the Mirror. -/
def setMessageContent (d : TdAccountData) (messageId : Int)
    (content : td_api.MessageContent) : TdAccountData :=
  { d with messages := d.messages.map
              (fun m => if m.id_ == messageId then { m with content_ := some content } else m) }

/-- Modelled from the spec: `TdAccountData::setUserStatus` is not in src; the presence
status of the user is replaced. -/
def setUserStatus (d : TdAccountData) (userId : Int) (status : td_api.UserStatus) :
    TdAccountData :=
  { d with users := d.users.map
              (fun u => if u.id_ == userId then { u with status_ := status } else u) }

/-- Modelled from the spec: `TdAccountData::updateBasicGroup` is not in src; group updates
overwrite the corresponding Mirror entry. -/
def updateBasicGroup (d : TdAccountData) (g : td_api.basicGroup) : TdAccountData :=
  { d with basicGroups := g :: d.basicGroups.filter (fun v => v.id_ != g.id_) }

/-- Modelled from the spec: `TdAccountData::updateSupergroup` is not in src; supergroup
updates overwrite the corresponding Mirror entry. -/
def updateSupergroup (d : TdAccountData) (g : td_api.supergroup) : TdAccountData :=
  { d with supergroups := g :: d.supergroups.filter (fun v => v.id_ != g.id_) }

/-- Modelled from the spec: `TdAccountData::updateChatChatList` is not in src; the
chat-list membership of the chat is replaced. -/
def updateChatChatList (d : TdAccountData) (chatId : Int) (list : Option td_api.ChatList) :
    TdAccountData :=
  { d with chats := d.chats.map
              (fun c => if c.id_ == chatId then { c with chat_list_ := list } else c) }

/-- Modelled from the spec: `TdAccountData::updateChatTitle` is not in src; the title of
the chat is replaced. -/
def updateChatTitle (d : TdAccountData) (chatId : Int) (title : String) : TdAccountData :=
  { d with chats := d.chats.map
              (fun c => if c.id_ == chatId then { c with title_ := title } else c) }

/-- Modelled from the spec: `TdAccountData::extractTempFileUpload` is not in src; the entry
of the message id is removed from the temp-file map and its path returned, the empty path
when there is none. -/
def extractTempFileUpload (d : TdAccountData) (messageId : Int) : String × TdAccountData :=
  (match d.tempFileUploads.find? (fun e => e.1 == messageId) with
   | some e => e.2
   | none => "",
   { d with tempFileUploads := d.tempFileUploads.filter (fun e => e.1 != messageId) })

/-- Modelled from the spec: `TdAccountData::getUsersByDisplayName` is not in src; the
known users whose display name is the given text. -/
def getUsersByDisplayName (d : TdAccountData) (getDisplayName : td_api.user → String)
    (name : String) : List td_api.user :=
  d.users.filter (fun u => getDisplayName u == name)

end TdAccountData

/-- Modelled from the spec: `getUserIdByPrivateChat` (client-utils.h) is not in src; the
user id a private chat refers back to, and 0 for every other chat. -/
def getUserIdByPrivateChat (c : td_api.chat) : Int :=
  match c.type_ with
  | .chatTypePrivate userId => userId
  | _ => 0

namespace PurpleTdClient

/-- The method `showMessage`. -/
def showMessage (env : Env) (s : PurpleTdClient) (chat : td_api.chat) (messageId : Int) :
    Result :=
  match s.m_data.findMessage messageId with
  | none => .ok s
  | some message =>
    match message.content_ with
    | none => .ok s
    | some content =>
      let messageInfo : TgMessageInfo :=
        { sender := env.getSenderPurpleName chat message s.m_data
          timestamp := message.date_
          outgoing := message.is_outgoing_
          repliedMessageId := message.reply_to_message_id_
          forwardedFrom := match message.forward_info_ with
            | some info => env.getForwardSource info s.m_data
            | none => "" }
      if message.ttl_ ≠ 0 then
        let text :=
          tr "Received self-destructing message, not displayed due to lack of support"
        match makeNoticeWithSender chat messageInfo text s.m_account with
        | none => .nullDeref s
        | some notice =>
          .ok (s.emit (.showMessageText chat.id_ messageInfo none (some notice) .noFlags))
      else
        match content with
        | .ofMessageText text => .ok (s.showTextMessage chat messageInfo text)
        | .ofMessagePhoto photo => s.showPhotoMessage env chat messageInfo photo
        | .ofMessageDocument document => s.showDocument chat messageInfo document
        | .ofMessageVideo video => s.showVideo chat messageInfo video
        | .ofMessageSticker sticker =>
          let r := s.showSticker chat messageInfo sticker
          r.2.mapState (fun s1 =>
            { s1 with m_data := s1.m_data.setMessageContent messageId (.ofMessageSticker r.1) })
        | .ofMessageChatChangeTitle titleChange =>
          match getSenderDisplayName chat messageInfo s.m_account with
          | none => .nullDeref s
          | some name =>
            let notice := formatMessage (tr "\x7b\x7d changed group name to \x7b\x7d")
              [name, titleChange.title_]
            .ok (s.emit (.showMessageText chat.id_ messageInfo none (some notice) .noFlags))
        | .other _ =>
          let notice0 := formatMessage (tr "Received unsupported message type \x7b\x7d")
            [env.messageTypeToString content]
          match makeNoticeWithSender chat messageInfo (c_str notice0) s.m_account with
          | none => .nullDeref s
          | some notice =>
            .ok (s.emit (.showMessageText chat.id_ messageInfo none (some notice) .noFlags))

/-- The method `onIncomingMessage`. -/
def onIncomingMessage (env : Env) (s : PurpleTdClient) (message : Option td_api.message) :
    Result :=
  match message with
  | none => .ok s
  | some message =>
    match s.m_data.getChat message.chat_id_ with
    | none => .ok s
    | some chat =>
      let s1 := (s.sendQuery (.viewMessages chat.id_ [message.id_] true) none).2
      let messageId := message.id_
      let replyMessageId := message.reply_to_message_id_
      let s2 := { s1 with m_data := s1.m_data.saveMessage message }
      if replyMessageId ≠ 0 ∧ (s2.m_data.findMessage replyMessageId).isNone then
        let r := s2.sendQueryWithTimeout (.getMessage chat.id_ replyMessageId)
          (some .findMessageResponse) 1
        .ok { r.2 with
              m_data := r.2.m_data.addPendingRequest r.1 (.ofPendingMessage ⟨messageId, chat.id_⟩) }
      else s2.showMessage env chat messageId

/-- The method `findMessageResponse`. -/
def findMessageResponse (env : Env) (s : PurpleTdClient) (requestId : Nat)
    (object : Option td_api.Object) : Result :=
  let taken := s.m_data.getPendingRequest PendingRequest.asPendingMessage requestId
  let s1 := { s with m_data := taken.2 }
  match taken.1 with
  | none => .ok s1
  | some messageInfo =>
    let s2 := match object with
      | some (.message m) => { s1 with m_data := s1.m_data.saveMessage m }
      | _ => s1
    match s2.m_data.getChat messageInfo.chatId with
    | some chat => s2.showMessage env chat messageInfo.messageId
    | none => .ok s2

/-- The method `updateUserStatus`. -/
def updateUserStatus (env : Env) (s : PurpleTdClient) (userId : Int)
    (status : td_api.UserStatus) : PurpleTdClient :=
  match s.m_data.getUser userId with
  | some u =>
    let s1 := s.emit (.purple_prpl_got_user_status (env.getPurpleBuddyName u)
      (env.getPurpleStatusId status))
    { s1 with m_data := s1.m_data.setUserStatus userId status }
  | none => s

/-- The method `updateUser`. -/
def updateUser (s : PurpleTdClient) (userInfo : Option td_api.user) : PurpleTdClient :=
  match userInfo with
  | none => s
  | some userInfo =>
    let userId := userInfo.id_
    let s1 := { s with m_data := s.m_data.updateUser userInfo }
    if s1.purple_account_is_connected then
      match s1.m_data.getUser userId, s1.m_data.getPrivateChatByUserId userId with
      | some u, some chat =>
        if isChatInContactList chat (some u) then s1.emit (.updatePrivateChat chat.id_ u.id_)
        else s1
      | _, _ => s1
    else s1

/-- The method `updateGroup`. -/
def updateGroup (s : PurpleTdClient) (group : Option td_api.basicGroup) : PurpleTdClient :=
  match group with
  | none => s
  | some group =>
    let id := group.id_
    let s1 := { s with m_data := s.m_data.updateBasicGroup group }
    if s1.purple_account_is_connected then s1.emit (.updateBasicGroupChat id) else s1

/-- The method `updateSupergroup`. -/
def updateSupergroup (s : PurpleTdClient) (group : Option td_api.supergroup) :
    PurpleTdClient :=
  match group with
  | none => s
  | some group =>
    let id := group.id_
    let s1 := { s with m_data := s.m_data.updateSupergroup group }
    if s1.purple_account_is_connected then s1.emit (.updateSupergroupChat id) else s1

/-- The method `addChat`. -/
def addChat (s : PurpleTdClient) (chat : Option td_api.chat) : PurpleTdClient :=
  match chat with
  | none => s
  | some chat =>
    let chatId := chat.id_
    let s1 := { s with m_data := s.m_data.addChat chat }
    s1.updateChat (s1.m_data.getChat chatId)

/-- The method `showUserChatAction`. -/
def showUserChatAction (env : Env) (s : PurpleTdClient) (userId : Int) (isTyping : Bool) :
    PurpleTdClient :=
  match s.m_data.getUser userId with
  | some u =>
    let userName := env.getPurpleBuddyName u
    if isTyping then s.emit (.serv_got_typing userName REMOTE_TYPING_NOTICE_TIMEOUT)
    else s.emit (.serv_got_typing_stopped userName)
  | none => s

/-- The method `handleUserChatAction`, on the fields of the update. -/
def handleUserChatAction (env : Env) (s : PurpleTdClient) (chat_id_ : Int) (user_id_ : Int)
    (action_ : Option td_api.ChatAction) : PurpleTdClient :=
  match s.m_data.getChat chat_id_ with
  | none => s
  | some chat =>
    let chatUserId := getUserIdByPrivateChat chat
    if chatUserId = 0 then s
    else if chatUserId ≠ user_id_ then s
    else
      match action_ with
      | some .chatActionCancel => s.showUserChatAction env user_id_ false
      | some .chatActionStartPlayingGame => s.showUserChatAction env user_id_ false
      | some _ => s.showUserChatAction env user_id_ true
      | none => s

/-- The function `showFailedContactMessage`; `hasHandle` tells whether a handle is given. -/
def showFailedContactMessage (s : PurpleTdClient) (hasHandle : Bool) (errorMessage : String) :
    PurpleTdClient :=
  let message := formatMessage (tr "Failed to add contact: \x7b\x7d") [errorMessage]
  s.emit (.purple_notify_error hasHandle (tr "Failed to add contact") message)

/-- The function `notifyFailedContactDeferred`: the message is copied as a C string and
shown from an idle callback. -/
def notifyFailedContactDeferred (s : PurpleTdClient) (message : String) : PurpleTdClient :=
  s.emit (.g_idle_add_failedContactIdle (c_str message))

/-- The method `notifyFailedContact`. -/
def notifyFailedContact (s : PurpleTdClient) (errorMessage : String) : PurpleTdClient :=
  s.showFailedContactMessage true errorMessage

/-- The method `addContactById`. -/
def addContactById (env : Env) (s : PurpleTdClient) (userId : Int) (phoneNumber : String)
    (alias_ : String) (groupName : String) : PurpleTdClient :=
  let names := env.getNamesFromAlias (some (c_str alias_))
  let contact : td_api.contact :=
    { phone_number_ := phoneNumber, first_name_ := names.1, last_name_ := names.2,
      vcard_ := "", user_id_ := userId }
  let r := s.sendQuery (.addContact contact true) (some .addContactResponse)
  { r.2 with
    m_data := r.2.m_data.addPendingRequest r.1
      (.ofContactRequest ⟨phoneNumber, alias_, groupName, userId⟩) }

/-- The method `addContact`. -/
def addContact (env : Env) (s : PurpleTdClient) (purpleName : String) (alias_ : String)
    (groupName : String) : PurpleTdClient :=
  if (s.m_data.getUserByPhone (c_str purpleName)).isSome then s
  else
    let users := s.m_data.getUsersByDisplayName env.getDisplayName (c_str purpleName)
    match users with
    | _ :: _ :: _ =>
      s.notifyFailedContactDeferred ("More than one user known with name '" ++ purpleName ++ "'")
    | [u] => s.addContactById env u.id_ "" purpleName groupName
    | [] =>
      let contact : td_api.contact :=
        { phone_number_ := purpleName, first_name_ := "", last_name_ := "", vcard_ := "",
          user_id_ := 0 }
      let r := s.sendQuery (.importContacts [contact]) (some .importContactResponse)
      { r.2 with
        m_data := r.2.m_data.addPendingRequest r.1
          (.ofContactRequest ⟨purpleName, alias_, groupName, 0⟩) }

/-- The method `importContactResponse`; it calls `object->get_id()` without testing the
pointer. -/
def importContactResponse (env : Env) (s : PurpleTdClient) (requestId : Nat)
    (object : Option td_api.Object) : Result :=
  let taken := s.m_data.getPendingRequest PendingRequest.asContactRequest requestId
  let s1 := { s with m_data := taken.2 }
  match taken.1 with
  | none => .ok s1
  | some request =>
    match object with
    | none => .nullDeref s1
    | some object =>
      let userId : Int := match object with
        | .importedContacts user_ids => user_ids.headD 0
        | _ => 0
      if !env.isPhoneNumber (c_str request.phoneNumber) then
        .ok (s1.notifyFailedContact
          (formatMessage (tr "\x7b\x7d is not a valid phone number") [request.phoneNumber]))
      else if userId ≠ 0 then
        .ok (s1.addContactById env userId request.phoneNumber request.alias_ request.groupName)
      else
        .ok (s1.notifyFailedContact
          (formatMessage (tr "No user found with phone number '\x7b\x7d'")
            [request.phoneNumber]))

/-- The method `addContactResponse`; it calls `object->get_id()` without testing the
pointer. -/
def addContactResponse (s : PurpleTdClient) (requestId : Nat)
    (object : Option td_api.Object) : Result :=
  let taken := s.m_data.getPendingRequest PendingRequest.asContactRequest requestId
  let s1 := { s with m_data := taken.2 }
  match taken.1 with
  | none => .ok s1
  | some request =>
    match object with
    | none => .nullDeref s1
    | some .ok =>
      let r := s1.sendQuery (.createPrivateChat request.userId false)
        (some .addContactCreatePrivateChatResponse)
      .ok { r.2 with
            m_data := r.2.m_data.addPendingRequest r.1 (.ofContactRequest request) }
    | some _ => .ok (s1.notifyFailedContact (getDisplayedError object))

/-- The method `addContactCreatePrivateChatResponse`. -/
def addContactCreatePrivateChatResponse (s : PurpleTdClient) (requestId : Nat)
    (object : Option td_api.Object) : PurpleTdClient :=
  let taken := s.m_data.getPendingRequest PendingRequest.asContactRequest requestId
  let s1 := { s with m_data := taken.2 }
  match taken.1 with
  | none => s1
  | some _ =>
    match object with
    | some (.chat _) => s1
    | _ => s1.notifyFailedContact (getDisplayedError object)

/-- The method `joinChatByLink`. -/
def joinChatByLink (s : PurpleTdClient) (inviteLink : String) : Bool × PurpleTdClient :=
  let r := s.sendQuery (.joinChatByInviteLink inviteLink) (some .joinChatByLinkResponse)
  (true,
   { r.2 with m_data := r.2.m_data.addPendingRequest r.1 (.ofGroupJoinRequest ⟨inviteLink⟩) })

/-- The method `joinChatByLinkResponse`. -/
def joinChatByLinkResponse (env : Env) (s : PurpleTdClient) (requestId : Nat)
    (object : Option td_api.Object) : PurpleTdClient :=
  let taken := s.m_data.getPendingRequest PendingRequest.asGroupJoinRequest requestId
  let s1 := { s with m_data := taken.2 }
  match object with
  | some (.chat _) =>
    match taken.1 with
    | some request =>
      (env.findChatsByInviteLink request.inviteLink).foldl
        (fun acc chat => acc.emit (.purple_blist_remove_chat chat)) s1
    | none => s1
  | _ =>
    let message := formatMessage (tr "Failed to join chat: \x7b\x7d") [getDisplayedError object]
    s1.emit (.purple_notify_error true (tr "Failed to join chat") message)

/-- The method `sendMessageResponse`. -/
def sendMessageResponse (s : PurpleTdClient) (requestId : Nat)
    (object : Option td_api.Object) : PurpleTdClient :=
  let taken := s.m_data.getPendingRequest PendingRequest.asSendMessageRequest requestId
  let s1 := { s with m_data := taken.2 }
  match taken.1 with
  | none => s1
  | some request =>
    match object with
    | some (.message message) =>
      { s1 with m_data := s1.m_data.addTempFileUpload message.id_ request.tempFile }
    | _ => s1

/-- The method `removeTempFile`. -/
def removeTempFile (s : PurpleTdClient) (messageId : Int) : PurpleTdClient :=
  let extracted := s.m_data.extractTempFileUpload messageId
  let s1 := { s with m_data := extracted.2 }
  if extracted.1 ≠ "" then s1.emit (.remove (c_str extracted.1)) else s1

/-- The method `processUpdate`. -/
def processUpdate (env : Env) (s : PurpleTdClient) (update : td_api.Update) : Result :=
  match update with
  | .updateAuthorizationState authorization_state =>
    match authorization_state with
    | some authState =>
      let s1 := { s with m_lastAuthState := some authState.get_id }
      .ok (s1.processAuthorizationState env authState)
    | none => .ok s
  | .updateConnectionState state =>
    match state with
    | some .connectionStateReady => .ok s.connectionReady
    | some .connectionStateConnecting => .ok s.setPurpleConnectionInProgress
    | some .connectionStateUpdating => .ok s.setPurpleConnectionUpdating
    | _ => .ok s
  | .updateUser user => .ok (s.updateUser user)
  | .updateNewChat chat => .ok (s.addChat chat)
  | .updateNewMessage message =>
    match message with
    | some m => s.onIncomingMessage env (some m)
    | none => .ok s
  | .updateUserStatus user_id status =>
    match status with
    | some st => .ok (s.updateUserStatus env user_id st)
    | none => .ok s
  | .updateUserChatAction chat_id user_id action =>
    .ok (s.handleUserChatAction env chat_id user_id action)
  | .updateBasicGroup basic_group => .ok (s.updateGroup basic_group)
  | .updateSupergroup supergroup => .ok (s.updateSupergroup supergroup)
  | .updateMessageSendSucceeded old_message_id => .ok (s.removeTempFile old_message_id)
  | .updateMessageSendFailed old_message_id => .ok (s.removeTempFile old_message_id)
  | .updateChatChatList chat_id chat_list =>
    let s1 := { s with m_data := s.m_data.updateChatChatList chat_id chat_list }
    .ok (s1.updateChat (s1.m_data.getChat chat_id))
  | .updateChatTitle chat_id title =>
    let s1 := { s with m_data := s.m_data.updateChatTitle chat_id title }
    .ok (s1.updateChat (s1.m_data.getChat chat_id))
  | .other _ => .ok s

end PurpleTdClient

/-! ## Concrete inputs, used to run the definitions -/

/-- A concrete environment: simple stand-ins for the helpers defined outside the file. -/
def sampleEnv : Env where
  proxyTypeToString := fun t =>
    match t with
    | .PURPLE_PROXY_SOCKS4 => "SOCKS4"
    | .PURPLE_PROXY_TOR => "TOR"
    | _ => "other"
  getNamesFromAlias := fun a => (a.getD "", "")
  isPhoneNumber := fun p => p.data.all Char.isDigit && p ≠ ""
  getPurpleBuddyName := fun u => "id" ++ toString u.id_
  getDisplayName := fun u => u.first_name_ ++ " " ++ u.last_name_
  getPurpleStatusId := fun st =>
    match st with
    | .userStatusOnline => "available"
    | _ => "away"
  messageTypeToString := fun _ => "message"
  getSenderPurpleName := fun _ m _ => "id" ++ toString m.sender_user_id_
  getForwardSource := fun _ _ => "forwarded"
  findChatConversation := fun _ => true
  findChatsByInviteLink := fun _ => [1, 2]
  g_file_get_contents := fun _ => false
  purple_imgstore_add_with_id := fun _ => 1
  purple_user_dir := "/home/user/.purple"
  configSubdir := "tdlib"
  G_DIR_SEPARATOR_S := "/"

/-- An empty mirror. -/
def emptyData : TdAccountData where
  users := []
  chats := []
  basicGroups := []
  basicGroupInfos := []
  basicGroupInfoRequested := []
  supergroups := []
  contacts := []
  messages := []
  tempFileUploads := []
  pendingRequests := []

/-- A client right after construction: nothing received, nothing sent; the account has
the given alias and proxy settings. -/
def newClient (alias_ : Option String) (proxyInfo : Option PurpleProxyInfo) : PurpleTdClient where
  m_account :=
    { username := "1234567", alias_ := alias_, proxyInfo := proxyInfo,
      connectionState := .PURPLE_CONNECTING, requestInputHandle := true }
  m_transceiver := { nextRequestId := 1 }
  m_data := emptyData
  m_lastAuthState := none
  m_connectionReady := false
  m_isProxyAdded := false
  m_addedProxy := none
  m_proxies := none
  m_usersForNewPrivateChats := []
  trace := []

/-- The events of `removeProxy` queries for the given proxy ids, numbered from `first`. -/
def removeProxyEvents : Nat → List Int → List Event
  | _, [] => []
  | first, id :: ids =>
    Event.sendQuery first (.removeProxy id) none :: removeProxyEvents (first + 1) ids

/-- The ids of the non-null proxies of a fetched list that `removeOldProxies` treats as
stale: all of them when no proxy was added, else those whose id differs from the added
one. -/
def staleProxyIds (added : Option td_api.proxy) (ps : td_api.proxies) : List Int :=
  ((ps.proxies_.filterMap (fun p => p)).filter
    (fun p => match added with
      | none => true
      | some a => decide (p.id_ ≠ a.id_))).map (fun p => p.id_)

/-- The configured proxy type, as `addProxy` reads it. -/
def configuredProxyType (s : PurpleTdClient) : PurpleProxyType :=
  match s.m_account.proxyInfo with
  | some p => p.type
  | none => .PURPLE_PROXY_NONE

/-- A client that has processed the authorization state WaitTdlibParameters with a SOCKS5
proxy configured. -/
def proxyClient : PurpleTdClient :=
  (newClient none (some ⟨.PURPLE_PROXY_SOCKS5, some "proxy.example", 1080, none, none⟩)
    ).processAuthorizationState sampleEnv .authorizationStateWaitTdlibParameters

/-! ## Observations on traces and runs of handlers -/

/-- Whether an outward call reports the session connected to the host. -/
def isConnectedReport : Event → Bool
  | Event.purple_connection_set_state .PURPLE_CONNECTED => true
  | _ => false

/-- How often a trace reports the session connected. -/
def connectedReports (tr : List Event) : Nat := tr.countP isConnectedReport

/-- The user id of a `createPrivateChat` query. -/
def createPrivateChatId : Event → Option Int
  | Event.sendQuery _ (.createPrivateChat userId _) _ => some userId
  | Event.sendQueryWithTimeout _ (.createPrivateChat userId _) _ _ => some userId
  | _ => none

/-- The user ids of the `createPrivateChat` queries of a trace, in order. -/
def createPrivateChatIds (tr : List Event) : List Int := tr.filterMap createPrivateChatId

/-- The responses to the `createPrivateChat` queries of the login sequence, handled one
after the other, each given with its request id. -/
def loginCreatePrivateChatResponses (env : Env) (s : PurpleTdClient) :
    List (Nat × Option td_api.Object) → Result
  | [] => .ok s
  | (requestId, object) :: rest =>
    (s.loginCreatePrivateChatResponse env requestId object).andThen
      (fun s1 => loginCreatePrivateChatResponses env s1 rest)

/-- A client whose contacts are the users 11, 12 and 13 and whose Mirror holds a private
chat with user 13 only, before the getChats response arrives. -/
def loginClient : PurpleTdClient :=
  { newClient (some "Me") none with
    m_lastAuthState := some .ready
    m_connectionReady := true
    m_data :=
      { emptyData with
        contacts := [11, 12, 13]
        chats := [⟨113, .chatTypePrivate 13, some .chatListMain, "Thirteen"⟩] } }

/-- Two responses to createPrivateChat queries: a chat, then an error. -/
def loginResponses : List (Nat × td_api.Object) :=
  [(1, .chat ⟨112, .chatTypePrivate 12, none, "Twelve"⟩), (2, .error 400 "USER_ID_INVALID")]

/-- The response handlers that resume a workflow registered in the Pending Request
Registry. -/
inductive RegistryHandler
  | groupInfoResponse
  | imageDownloadResponse
  | stickerDownloadResponse
  | fileDownloadResponse
  | findMessageResponse
  | importContactResponse
  | addContactResponse
  | addContactCreatePrivateChatResponse
  | joinChatByLinkResponse
  | sendMessageResponse
  deriving DecidableEq, Repr

/-- Run a response handler on a response (or its absence) for a request id. -/
def RegistryHandler.run (h : RegistryHandler) (env : Env) (s : PurpleTdClient)
    (requestId : Nat) (object : Option td_api.Object) : Result :=
  match h with
  | .groupInfoResponse => .ok (s.groupInfoResponse env requestId object)
  | .imageDownloadResponse => s.imageDownloadResponse env requestId object
  | .stickerDownloadResponse => s.stickerDownloadResponse requestId object
  | .fileDownloadResponse => s.fileDownloadResponse requestId object
  | .findMessageResponse => s.findMessageResponse env requestId object
  | .importContactResponse => s.importContactResponse env requestId object
  | .addContactResponse => s.addContactResponse requestId object
  | .addContactCreatePrivateChatResponse =>
    .ok (s.addContactCreatePrivateChatResponse requestId object)
  | .joinChatByLinkResponse => .ok (s.joinChatByLinkResponse env requestId object)
  | .sendMessageResponse => .ok (s.sendMessageResponse requestId object)

/-- The step from `s` to `t` hands out request ids only upward and leaves the registry
entry of every id handed out before `s` as it was. -/
def KeepsIssued (s t : PurpleTdClient) : Prop :=
  s.m_transceiver.nextRequestId ≤ t.m_transceiver.nextRequestId ∧
  ∀ id, id < s.m_transceiver.nextRequestId →
    t.m_data.lookupPendingRequest id = s.m_data.lookupPendingRequest id

/-- A client with a download registered under request id 1 for a sticker shown in the
private chat 113, whose thumbnail is still to be fetched. -/
def downloadClient : PurpleTdClient :=
  { loginClient with
    m_transceiver := { nextRequestId := 2 }
    m_data :=
      { loginClient.m_data with
        pendingRequests :=
          [(1, .ofDownloadRequest
            ⟨113, ⟨"id13", 1600000000, false, 0, ""⟩, some ⟨5, none⟩⟩)] } }

/-- The idle callback `failedContactIdle`, run later by the host with the message handed to
`g_idle_add`. -/
def PurpleTdClient.failedContactIdle (s : PurpleTdClient) (message : String) : PurpleTdClient :=
  s.showFailedContactMessage false message

/-- A connected client whose Mirror holds the private chat 113 with user 13, listed in the
main chat list, while user 13 itself is not known to the Mirror. -/
def connectedClient : PurpleTdClient :=
  { loginClient with
    m_account := { loginClient.m_account with connectionState := .PURPLE_CONNECTED } }

/-- A connected client that knows three users, two of them with the same display name. -/
def contactsClient : PurpleTdClient :=
  { connectedClient with
    m_data :=
      { connectedClient.m_data with
        users :=
          [⟨21, "Ann", "Lee", "111", .userStatusOnline, false⟩,
            ⟨22, "Bob", "Ray", "222", .userStatusOffline, false⟩,
            ⟨23, "Bob", "Ray", "333", .userStatusOffline, true⟩] } }

/-- A client on which a contact-add workflow waits under request id 1 for the name
"not-a-number", which is not a phone number, and one under request id 2 for user 21. -/
def contactRequestClient : PurpleTdClient :=
  { contactsClient with
    m_transceiver := { nextRequestId := 3 }
    m_data :=
      { contactsClient.m_data with
        pendingRequests :=
          [(1, .ofContactRequest ⟨"not-a-number", "Al", "Friends", 0⟩),
            (2, .ofContactRequest ⟨"", "Ann Lee", "Friends", 21⟩)] } }

/-- A connected client whose Mirror holds user 21 and the private chat 121 with that user,
and an incoming message 501 in that chat that replies to the unknown message 500. -/
def chatClient : PurpleTdClient :=
  { contactsClient with
    m_data :=
      { contactsClient.m_data with
        chats := [⟨121, .chatTypePrivate 21, some .chatListMain, "Ann Lee"⟩,
          ⟨113, .chatTypePrivate 13, some .chatListMain, "Thirteen"⟩] } }

/-- An incoming text message in chat 121 that replies to message 500. -/
def replyMessage : td_api.message :=
  { id_ := 501, sender_user_id_ := 21, chat_id_ := 121, is_outgoing_ := false,
    date_ := 1600000000, forward_info_ := none, reply_to_message_id_ := 500, ttl_ := 0,
    content_ := some (.ofMessageText ⟨some ⟨"hello"⟩⟩) }

/-- One step of the loop over the sizes in `selectPhotoSize`. -/
def selectPhotoSizeStep (selectedSize : Option td_api.photoSize)
    (newSize : Option td_api.photoSize) : Option td_api.photoSize :=
  match newSize with
  | some ns =>
    if ns.photo_.isSome &&
        (match selectedSize with
         | none => true
         | some sel => decide (ns.width_ > sel.width_)) then some ns
    else selectedSize
  | none => selectedSize

/-- A photo with a null size, a size without file, and three sizes with a file, two of
them of the largest width. -/
def samplePhoto : td_api.messagePhoto :=
  { photo_ := some
      ⟨[none, some ⟨none, 2000, 2000⟩, some ⟨some ⟨31, none⟩, 90, 90⟩,
        some ⟨some ⟨32, some ⟨"/tmp/photo.jpg", true⟩⟩, 800, 600⟩,
        some ⟨some ⟨33, none⟩, 800, 601⟩]⟩
    caption_ := some ⟨"the caption"⟩ }

/-- The step from `s` to `t` sends no query, hands out no request id and leaves the
Mirror and the registry as they were. -/
def StartsNoDownload (s t : PurpleTdClient) : Prop :=
  queriesOf t.trace = queriesOf s.trace ∧ t.m_data = s.m_data ∧
    t.m_transceiver = s.m_transceiver

/-- The text `showDownloadedImage` shows for an image tag and a caption: the tag, and the
caption on a new line when the caption, read as a C string, is not empty. -/
def imageTextWithCaption (tag : String) (caption : Option String) : String :=
  match caption with
  | some c => if c_str c ≠ "" then tag ++ "\n" ++ c_str c else tag
  | none => tag

/-- A client whose Mirror holds chat 121 and the photo message 510 in it, whose widest
file is locally complete. -/
def photoClient : PurpleTdClient :=
  { chatClient with
    m_data :=
      { chatClient.m_data with
        messages :=
          [{ id_ := 510, sender_user_id_ := 21, chat_id_ := 121, is_outgoing_ := false,
             date_ := 1600000100, forward_info_ := none, reply_to_message_id_ := 0, ttl_ := 0,
             content_ := some (.ofMessagePhoto samplePhoto) }] } }

/-- The file of the thumbnail of a sticker, as `showSticker` takes it. -/
def stickerThumbnailFile (sticker : td_api.sticker) : Option td_api.file :=
  match sticker.thumbnail_ with
  | some t => t.photo_
  | none => none

/-- A sticker message content: an animated sticker not downloaded yet, with a thumbnail
not downloaded yet. -/
def sampleSticker : td_api.messageSticker :=
  { sticker_ := some ⟨some ⟨41, none⟩, some ⟨some ⟨42, none⟩, 128, 128⟩⟩ }

/-- A client on which a join by the invite link "https://t.me/joinchat/abc" waits under
request id 1. -/
def joinClient : PurpleTdClient :=
  (chatClient.joinChatByLink "https://t.me/joinchat/abc").2

/-- The client after `showSticker` for the sample sticker in chat 121: the download of the
sticker file waits under request id 1. -/
def stickerClient : PurpleTdClient :=
  (chatClient.showSticker ⟨121, .chatTypePrivate 21, some .chatListMain, "Ann Lee"⟩
    ⟨"id21", 1600000100, false, 0, ""⟩ sampleSticker).2.state

/-- The client after the animated sticker file has arrived: the download of the thumbnail
waits under request id 2, registered without thumbnail. -/
def thumbnailClient : PurpleTdClient :=
  (stickerClient.stickerDownloadResponse 1
    (some (.file ⟨41, some ⟨"/tmp/sticker.tgs", true⟩⟩))).state

/-- A client with no proxy configured that has processed the authorization state
WaitTdlibParameters. -/
def noProxyClient : PurpleTdClient :=
  (newClient none none).processAuthorizationState sampleEnv
    .authorizationStateWaitTdlibParameters

/-! ## Runs of delivered updates and responses -/

/-- What the transceiver delivers to the client: an update, handed to `processUpdate`, or
the response to a request, handed to the response callback the request was sent with. -/
inductive Incoming
  | update (update : td_api.Update)
  | response (responseCb : ResponseCb) (requestId : Nat) (object : Option td_api.Object)
  deriving DecidableEq, Repr

/-- Run a response callback on a response (or its absence) for a request id. -/
def ResponseCb.run (cb : ResponseCb) (env : Env) (s : PurpleTdClient) (requestId : Nat)
    (object : Option td_api.Object) : Result :=
  match cb with
  | .authResponse => .ok (s.authResponse requestId object)
  | .addProxyResponse => s.addProxyResponse requestId object
  | .getProxiesResponse => s.getProxiesResponse requestId object
  | .getContactsResponse => .ok (s.getContactsResponse requestId object)
  | .getChatsResponse => .ok (s.getChatsResponse env requestId object)
  | .loginCreatePrivateChatResponse => s.loginCreatePrivateChatResponse env requestId object
  | .groupInfoResponse => RegistryHandler.groupInfoResponse.run env s requestId object
  | .imageDownloadResponse => RegistryHandler.imageDownloadResponse.run env s requestId object
  | .stickerDownloadResponse =>
    RegistryHandler.stickerDownloadResponse.run env s requestId object
  | .fileDownloadResponse => RegistryHandler.fileDownloadResponse.run env s requestId object
  | .findMessageResponse => RegistryHandler.findMessageResponse.run env s requestId object
  | .importContactResponse => RegistryHandler.importContactResponse.run env s requestId object
  | .addContactResponse => RegistryHandler.addContactResponse.run env s requestId object
  | .addContactCreatePrivateChatResponse =>
    RegistryHandler.addContactCreatePrivateChatResponse.run env s requestId object
  | .joinChatByLinkResponse =>
    RegistryHandler.joinChatByLinkResponse.run env s requestId object
  | .sendMessageResponse => RegistryHandler.sendMessageResponse.run env s requestId object

namespace PurpleTdClient

/-- Hand one delivered update or response to the client. -/
def deliver (env : Env) (s : PurpleTdClient) : Incoming → Result
  | .update u => s.processUpdate env u
  | .response cb requestId object => cb.run env s requestId object

/-- Hand a sequence of updates and responses to the client, one after the other; a null
dereference ends the run. -/
def deliverAll (env : Env) (s : PurpleTdClient) : List Incoming → Result
  | [] => .ok s
  | i :: rest =>
    match s.deliver env i with
    | .ok t => t.deliverAll env rest
    | .nullDeref t => .nullDeref t

end PurpleTdClient

/-- What a delivered event says about the connection, if it is a connection-state update
of class Ready (true), Connecting or Updating (false). -/
def connectionFlagOf : Incoming → Option Bool
  | .update (.updateConnectionState (some .connectionStateReady)) => some true
  | .update (.updateConnectionState (some .connectionStateConnecting)) => some false
  | .update (.updateConnectionState (some .connectionStateUpdating)) => some false
  | _ => none

/-- Whether the most recent connection-state update among Ready, Connecting and Updating
of a run was Ready, if the run has one. -/
def lastConnectionFlag (run : List Incoming) : Option Bool :=
  (run.filterMap connectionFlagOf).getLast?

/-- The class of the authorization state a delivered event carries, if it is an
authorization-state update with a non-null state. -/
def authorizationStateOf : Incoming → Option td_api.AuthorizationStateID
  | .update (.updateAuthorizationState (some authState)) => some authState.get_id
  | _ => none

/-- The most recent non-null authorization state of a run, if the run has one. -/
def lastAuthorizationState (run : List Incoming) : Option td_api.AuthorizationStateID :=
  (run.filterMap authorizationStateOf).getLast?

/-- The step from `s` to `t` leaves the connection flag and the last authorization state
as they were. -/
def SameFlags (s t : PurpleTdClient) : Prop :=
  t.m_connectionReady = s.m_connectionReady ∧ t.m_lastAuthState = s.m_lastAuthState

/-- The run of a Connecting update followed by an authorizationStateReady update. -/
def connectingThenAuthorized : List Incoming :=
  [.update (.updateConnectionState (some .connectionStateConnecting)),
   .update (.updateAuthorizationState (some .authorizationStateReady))]

/-- The client after a Connecting update and then an authorizationStateReady update. -/
def authorizedClient : PurpleTdClient :=
  ((newClient none none).deliverAll sampleEnv connectingThenAuthorized).state

/-! ## Theorems -/

namespace PurpleTdClient

@[simp] theorem queriesOf_append (a b : List Event) :
    queriesOf (a ++ b) = queriesOf a ++ queriesOf b := by
  induction a with
  | nil => rfl
  | cons e es ih => cases e <;> simp [queriesOf, ih]

/-- C1. `isChatInContactList chat peerUser` is true if and only if the chat has a
chat-list membership or a peer user is given whose `is_contact_` flag is set; for a chat
with no chat-list membership and no peer user it is false. -/
theorem isChatInContactList_iff (chat : td_api.chat) (privateChatUser : Option td_api.user) :
    (isChatInContactList chat privateChatUser = true ↔
      (chat.chat_list_ ≠ none ∨ ∃ u, privateChatUser = some u ∧ u.is_contact_ = true)) ∧
    isChatInContactList { chat with chat_list_ := none } none = false := by
  unfold isChatInContactList
  cases hl : chat.chat_list_ <;> cases privateChatUser <;> simp

/-- C2. From a state in which the connection is not ready and the last authorization
state is not Ready, the two updates authorizationStateReady and connectionStateReady, in
either order, make `processUpdate` send the bootstrap query `getContacts` exactly once:
the first update makes no outward call at all and the second makes exactly this one. -/
theorem processUpdate_bootstrap_once (env : Env) (s : PurpleTdClient)
    (hconn : s.m_connectionReady = false) (hauth : s.m_lastAuthState ≠ some .ready) :
    let auth := td_api.Update.updateAuthorizationState (some .authorizationStateReady)
    let conn := td_api.Update.updateConnectionState (some .connectionStateReady)
    let getContacts :=
      Event.sendQuery s.m_transceiver.nextRequestId .getContacts (some .getContactsResponse)
    ((processUpdate env s auth).completed = true ∧
      (processUpdate env s auth).state.trace = s.trace ∧
      (processUpdate env (processUpdate env s auth).state conn).completed = true ∧
      (processUpdate env (processUpdate env s auth).state conn).state.trace =
        s.trace ++ [getContacts]) ∧
    ((processUpdate env s conn).completed = true ∧
      (processUpdate env s conn).state.trace = s.trace ∧
      (processUpdate env (processUpdate env s conn).state auth).completed = true ∧
      (processUpdate env (processUpdate env s conn).state auth).state.trace =
        s.trace ++ [getContacts]) := by
  simp [processUpdate, processAuthorizationState, connectionReady, onLoggedIn, sendQuery,
    Result.completed, Result.state, hconn, hauth, td_api.AuthorizationState.get_id]

/-- C2, run on a fresh client. -/
theorem processUpdate_bootstrap_once_witness :
    (newClient none none).m_connectionReady = false ∧
    (processUpdate sampleEnv
      (processUpdate sampleEnv (newClient none none)
        (.updateConnectionState (some .connectionStateReady))).state
      (.updateAuthorizationState (some .authorizationStateReady))).state.trace =
      [Event.sendQuery 1 .getContacts (some .getContactsResponse)] :=
  ⟨rfl, (processUpdate_bootstrap_once sampleEnv (newClient none none) rfl (by decide)).2.2.2.2⟩

theorem removeProxy_fold (added : Option td_api.proxy) (l : List (Option td_api.proxy))
    (s : PurpleTdClient) :
    l.foldl
      (fun acc p =>
        match p with
        | some proxy =>
          if (match added with
              | none => true
              | some a => proxy.id_ ≠ a.id_) then
            (acc.sendQuery (.removeProxy proxy.id_) none).2
          else acc
        | none => acc) s =
    { s with
      m_transceiver :=
        { nextRequestId := s.m_transceiver.nextRequestId + (staleProxyIds added ⟨l⟩).length }
      trace := s.trace ++
        removeProxyEvents s.m_transceiver.nextRequestId (staleProxyIds added ⟨l⟩) } := by
  induction l generalizing s with
  | nil => simp [staleProxyIds, removeProxyEvents]
  | cons p l ih =>
    rw [List.foldl_cons, ih]
    cases p with
    | none => simp [staleProxyIds]
    | some proxy =>
      cases added with
      | none =>
        simp [staleProxyIds, removeProxyEvents, sendQuery]
        omega
      | some a =>
        by_cases h : proxy.id_ = a.id_
        · simp [staleProxyIds, h]
        · simp [staleProxyIds, removeProxyEvents, sendQuery, h]
          omega

theorem removeOldProxies_eq (s : PurpleTdClient) (ps : td_api.proxies)
    (h : s.m_proxies = some ps) :
    removeOldProxies s = .ok
      { s with
        m_transceiver :=
          { nextRequestId :=
              s.m_transceiver.nextRequestId + (staleProxyIds s.m_addedProxy ps).length }
        trace := s.trace ++
          removeProxyEvents s.m_transceiver.nextRequestId (staleProxyIds s.m_addedProxy ps) } := by
  unfold removeOldProxies
  simp only [h]
  rw [removeProxy_fold]
  simp [h]

theorem queriesOf_removeProxyEvents (n : Nat) (ids : List Int) :
    queriesOf (removeProxyEvents n ids) = ids.map (fun id => td_api.Function.removeProxy id) := by
  induction ids generalizing n with
  | nil => rfl
  | cons id ids ih => simp [removeProxyEvents, queriesOf, ih]

/-- C7. With a proxy configured (`m_isProxyAdded` set, no response received yet), a
successful addProxy response and a successful getProxies response, in either order: the
first response makes no outward call, and the second one runs `removeOldProxies` once, on
the state that holds both the added proxy and the fetched list. -/
theorem removeOldProxies_after_both (s : PurpleTdClient) (p : td_api.proxy)
    (ps : td_api.proxies) (ridAdd ridGet : Nat)
    (hadded : s.m_isProxyAdded = true) (hp : s.m_addedProxy = none)
    (hps : s.m_proxies = none) :
    let both := { s with m_addedProxy := some p, m_proxies := some ps }
    (addProxyResponse s ridAdd (some (.proxy p)) = .ok { s with m_addedProxy := some p } ∧
      getProxiesResponse { s with m_addedProxy := some p } ridGet (some (.proxies ps)) =
        removeOldProxies both) ∧
    (getProxiesResponse s ridGet (some (.proxies ps)) = .ok { s with m_proxies := some ps } ∧
      addProxyResponse { s with m_proxies := some ps } ridAdd (some (.proxy p)) =
        removeOldProxies both) ∧
    (removeOldProxies both).completed = true ∧
    (removeOldProxies both).state.trace =
      s.trace ++ removeProxyEvents s.m_transceiver.nextRequestId (staleProxyIds (some p) ps) := by
  refine ⟨⟨?_, ?_⟩, ⟨?_, ?_⟩, ?_, ?_⟩
  · simp [addProxyResponse, hps]
  · simp [getProxiesResponse, hadded]
  · simp [getProxiesResponse, hadded, hp]
  · simp [addProxyResponse]
  · rw [removeOldProxies_eq _ ps rfl]; rfl
  · rw [removeOldProxies_eq _ ps rfl]; rfl

/-- C7, run on a client that has processed WaitTdlibParameters with a SOCKS5 proxy
configured: the proxy 7 was added, the fetched list holds the proxies 3 and 7, and after
both responses the only further outward call is the removal of proxy 3. -/
theorem removeOldProxies_after_both_witness :
    proxyClient.m_isProxyAdded = true ∧ proxyClient.m_addedProxy = none ∧
    proxyClient.m_proxies = none ∧
    (removeOldProxies
      { proxyClient with
        m_addedProxy := some ⟨7, "h", 1080, true⟩
        m_proxies := some ⟨[some ⟨3, "old", 1080, false⟩, some ⟨7, "h", 1080, true⟩]⟩ }).state.trace =
      proxyClient.trace ++ [Event.sendQuery 5 (.removeProxy 3) none] :=
  ⟨rfl, rfl, rfl,
    (removeOldProxies_after_both proxyClient ⟨7, "h", 1080, true⟩
      ⟨[some ⟨3, "old", 1080, false⟩, some ⟨7, "h", 1080, true⟩]⟩ 2 3 rfl rfl rfl).2.2.2⟩

/-- C8. With a proxy added and a list fetched, `removeOldProxies` sends one `removeProxy`
query for exactly the non-null proxies of the list whose id differs from the id of the
added proxy, in list order, and none for the id of the added proxy. -/
theorem removeOldProxies_queries (s : PurpleTdClient) (added : td_api.proxy)
    (ps : td_api.proxies) (hp : s.m_addedProxy = some added) (hps : s.m_proxies = some ps) :
    (removeOldProxies s).completed = true ∧
    (removeOldProxies s).state.trace = s.trace ++
      removeProxyEvents s.m_transceiver.nextRequestId
        (((ps.proxies_.filterMap (fun p => p)).filter
          (fun p => decide (p.id_ ≠ added.id_))).map (fun p => p.id_)) ∧
    queriesOf (removeOldProxies s).state.trace = queriesOf s.trace ++
      ((ps.proxies_.filterMap (fun p => p)).filter
        (fun p => decide (p.id_ ≠ added.id_))).map (fun p => td_api.Function.removeProxy p.id_) ∧
    td_api.Function.removeProxy added.id_ ∉
      ((ps.proxies_.filterMap (fun p => p)).filter
        (fun p => decide (p.id_ ≠ added.id_))).map (fun p => td_api.Function.removeProxy p.id_) := by
  rw [removeOldProxies_eq s ps hps, hp]
  refine ⟨rfl, rfl, ?_, ?_⟩
  · simp [Result.state, queriesOf_removeProxyEvents, staleProxyIds]
  · simp only [List.mem_map, List.mem_filter, not_exists, not_and]
    intro x hx hq
    injection hq with hq
    simp [hq] at hx

/-- C8, run on a list with a null entry, two stale proxies and the added proxy. -/
theorem removeOldProxies_queries_witness :
    queriesOf (removeOldProxies
      { newClient none none with
        m_addedProxy := some ⟨7, "h", 1080, true⟩
        m_proxies := some ⟨[some ⟨3, "a", 1, false⟩, none, some ⟨7, "h", 1080, true⟩,
          some ⟨9, "b", 2, false⟩]⟩ }).state.trace =
      [.removeProxy 3, .removeProxy 9] :=
  (removeOldProxies_queries
    { newClient none none with
      m_addedProxy := some ⟨7, "h", 1080, true⟩
      m_proxies := some ⟨[some ⟨3, "a", 1, false⟩, none, some ⟨7, "h", 1080, true⟩,
        some ⟨9, "b", 2, false⟩]⟩ }
    ⟨7, "h", 1080, true⟩
    ⟨[some ⟨3, "a", 1, false⟩, none, some ⟨7, "h", 1080, true⟩, some ⟨9, "b", 2, false⟩]⟩
    rfl rfl).2.2.1

theorem formatMessage_proxy_ne_empty (x : String) :
    formatMessage (tr "Proxy type \x7b\x7d is not supported") [x] ≠ "" := by
  have h : formatMessage (tr "Proxy type \x7b\x7d is not supported") [x] =
      String.mk ("Proxy type ".data ++ (x.data ++ " is not supported".data)) := rfl
  rw [h]
  intro hc
  have := congrArg String.data hc
  simp at this

/-- C9. If the configured proxy type is not none, SOCKS5 or HTTP, `addProxy` returns false
and its only outward call is a connection error, and the WaitTdlibParameters handler then
makes just two outward calls, the `disableProxy` query and that connection error (so
neither `getProxies` nor `setTdlibParameters` is sent); for none, SOCKS5 and HTTP,
`addProxy` returns true and reports no connection error. -/
theorem addProxy_unsupported (env : Env) (s : PurpleTdClient) :
    (configuredProxyType s ≠ .PURPLE_PROXY_NONE ∧ configuredProxyType s ≠ .PURPLE_PROXY_SOCKS5 ∧
        configuredProxyType s ≠ .PURPLE_PROXY_HTTP →
      (addProxy env s).1 = false ∧
      (addProxy env s).2 = s.emit (.purple_connection_error
        (formatMessage (tr "Proxy type \x7b\x7d is not supported")
          [env.proxyTypeToString (configuredProxyType s)])) ∧
      (processAuthorizationState env s .authorizationStateWaitTdlibParameters).trace =
        s.trace ++ [Event.sendQuery s.m_transceiver.nextRequestId .disableProxy none,
          Event.purple_connection_error
            (formatMessage (tr "Proxy type \x7b\x7d is not supported")
              [env.proxyTypeToString (configuredProxyType s)])]) ∧
    (configuredProxyType s = .PURPLE_PROXY_NONE ∨ configuredProxyType s = .PURPLE_PROXY_SOCKS5 ∨
        configuredProxyType s = .PURPLE_PROXY_HTTP →
      (addProxy env s).1 = true ∧
      ((addProxy env s).2.trace = s.trace ∨
        ∃ server port type, (addProxy env s).2.trace = s.trace ++
          [Event.sendQuery s.m_transceiver.nextRequestId
            (.addProxy server port true type) (some .addProxyResponse)])) := by
  constructor
  · rintro ⟨h1, h2, h3⟩
    have key : ∀ s : PurpleTdClient, configuredProxyType s ≠ .PURPLE_PROXY_NONE →
        configuredProxyType s ≠ .PURPLE_PROXY_SOCKS5 →
        configuredProxyType s ≠ .PURPLE_PROXY_HTTP →
        addProxy env s = (false, s.emit (.purple_connection_error
          (formatMessage (tr "Proxy type \x7b\x7d is not supported")
            [env.proxyTypeToString (configuredProxyType s)]))) := by
      intro s h1 h2 h3
      unfold addProxy
      cases hp : s.m_account.proxyInfo with
      | none => simp [configuredProxyType, hp] at h1
      | some p =>
        simp only [configuredProxyType, hp] at h1 h2 h3 ⊢
        cases ht : p.type <;> simp [ht] at h1 h2 h3 ⊢ <;>
          simp [formatMessage_proxy_ne_empty]
    refine ⟨by rw [key s h1 h2 h3], by rw [key s h1 h2 h3], ?_⟩
    have hs1 : configuredProxyType (s.sendQuery .disableProxy none).2 = configuredProxyType s := rfl
    simp only [processAuthorizationState]
    rw [key _ (hs1 ▸ h1) (hs1 ▸ h2) (hs1 ▸ h3), hs1]
    simp [emit, sendQuery]
  · intro h
    unfold addProxy
    cases hp : s.m_account.proxyInfo with
    | none => simp
    | some p =>
      simp only [configuredProxyType, hp] at h ⊢
      cases ht : p.type <;> simp [ht] at h ⊢ <;> simp [sendQuery]

/-- C9, run with a SOCKS4 proxy configured (unsupported) and with no proxy configured. -/
theorem addProxy_unsupported_witness :
    (processAuthorizationState sampleEnv
      (newClient none (some ⟨.PURPLE_PROXY_SOCKS4, some "proxy.example", 1080, none, none⟩))
      .authorizationStateWaitTdlibParameters).trace =
      [Event.sendQuery 1 .disableProxy none,
        Event.purple_connection_error "Proxy type SOCKS4 is not supported"] ∧
    (addProxy sampleEnv (newClient none none)).1 = true :=
  ⟨((addProxy_unsupported sampleEnv
      (newClient none (some ⟨.PURPLE_PROXY_SOCKS4, some "proxy.example", 1080, none, none⟩))).1
      ⟨by decide, by decide, by decide⟩).2.2,
    ((addProxy_unsupported sampleEnv (newClient none none)).2 (Or.inl rfl)).1⟩

/-- C10, as stated, fails for WaitCode: on a fresh client the handler of the authorization
state WaitCode sends no query at all (it only asks the user for the code). -/
theorem processAuthorizationState_waitCode_no_query :
    queriesOf ((newClient none none).processAuthorizationState sampleEnv
      (.authorizationStateWaitCode none)).trace = [] ∧
    ¬ (queriesOf ((newClient none none).processAuthorizationState sampleEnv
      (.authorizationStateWaitCode none)).trace).length = 1 := by
  decide

/-- C10, amended. Processing WaitEncryptionKey sends exactly one query
(`checkDatabaseEncryptionKey`) and processing WaitPhoneNumber exactly one
(`setAuthenticationPhoneNumber`). Processing WaitCode sends no query: the user is asked for
the code, and the one query `checkAuthenticationCode` is sent when the code is entered.
Processing WaitRegistration sends exactly one query (`registerUser`) when the account
alias gives a first or a last name, and none otherwise. -/
theorem processAuthorizationState_queries (env : Env) (s : PurpleTdClient)
    (codeInfo : Option td_api.authenticationCodeInfo) (code : String) :
    (s.processAuthorizationState env .authorizationStateWaitEncryptionKey).trace =
      s.trace ++ [Event.sendQuery s.m_transceiver.nextRequestId
        (.checkDatabaseEncryptionKey "") (some .authResponse)] ∧
    (s.processAuthorizationState env .authorizationStateWaitPhoneNumber).trace =
      s.trace ++ [Event.sendQuery s.m_transceiver.nextRequestId
        (.setAuthenticationPhoneNumber s.m_account.username) (some .authResponse)] ∧
    queriesOf (s.processAuthorizationState env (.authorizationStateWaitCode codeInfo)).trace =
      queriesOf s.trace ∧
    queriesOf ((s.processAuthorizationState env
      (.authorizationStateWaitCode codeInfo)).requestCodeEntered code).trace =
      queriesOf s.trace ++ [.checkAuthenticationCode code] ∧
    queriesOf (s.processAuthorizationState env .authorizationStateWaitRegistration).trace =
      queriesOf s.trace ++
        (if (env.getNamesFromAlias s.m_account.alias_).1 = "" ∧
            (env.getNamesFromAlias s.m_account.alias_).2 = "" then []
         else [.registerUser (env.getNamesFromAlias s.m_account.alias_).1
           (env.getNamesFromAlias s.m_account.alias_).2]) := by
  have hcode : queriesOf (s.requestAuthCode codeInfo).trace = queriesOf s.trace := by
    unfold requestAuthCode
    simp only [emit, purple_connection_set_state]
    split <;> simp [queriesOf]
  refine ⟨?_, ?_, ?_, ?_, ?_⟩
  · simp [processAuthorizationState, sendQuery]
  · simp [processAuthorizationState, sendPhoneNumber, sendQuery]
  · simpa [processAuthorizationState] using hcode
  · simp [processAuthorizationState, requestCodeEntered, sendQuery, hcode, queriesOf]
  · simp only [processAuthorizationState, registerUser]
    split <;> simp [emit, sendQuery, queriesOf]

/-- C4, where the code departs from the claim. For every response object that is present
(a chat, an error or any other object) `loginCreatePrivateChatResponse` runs to completion
and ends by running `requestMissingPrivateChats` once, after storing the chat if the
response is one. For an absent response it dereferences the null pointer: it does not run
to completion and `requestMissingPrivateChats` is not run. -/
theorem loginCreatePrivateChatResponse_cases (env : Env) (s : PurpleTdClient)
    (requestId : Nat) (object : td_api.Object) :
    (loginCreatePrivateChatResponse env s requestId (some object) =
      .ok (requestMissingPrivateChats env
        (match object with
         | .chat c => { s with m_data := s.m_data.addChat c }
         | _ => s))) ∧
    loginCreatePrivateChatResponse env s requestId none = .nullDeref s ∧
    (loginCreatePrivateChatResponse env s requestId none).completed = false := by
  refine ⟨?_, rfl, rfl⟩
  cases object <;> rfl

@[simp] theorem connectedReports_append (a b : List Event) :
    connectedReports (a ++ b) = connectedReports a + connectedReports b := by
  simp [connectedReports]

@[simp] theorem createPrivateChatIds_append (a b : List Event) :
    createPrivateChatIds (a ++ b) = createPrivateChatIds a ++ createPrivateChatIds b := by
  simp [createPrivateChatIds]

theorem updateChat_login_counts (s : PurpleTdClient) (chat : Option td_api.chat) :
    connectedReports (s.updateChat chat).trace = connectedReports s.trace ∧
    createPrivateChatIds (s.updateChat chat).trace = createPrivateChatIds s.trace := by
  unfold updateChat
  cases chat with
  | none => simp
  | some c =>
    simp only [requestBasicGroupMembers, emit, sendQuery]
    constructor <;>
    · repeat' split
      all_goals simp [connectedReports, createPrivateChatIds, isConnectedReport,
        createPrivateChatId]

theorem updateChatAndUserStatus_login_counts (env : Env) (s : PurpleTdClient)
    (chat : td_api.chat) :
    connectedReports (s.updateChatAndUserStatus env chat).trace = connectedReports s.trace ∧
    createPrivateChatIds (s.updateChatAndUserStatus env chat).trace =
      createPrivateChatIds s.trace := by
  have h := updateChat_login_counts s (some chat)
  unfold updateChatAndUserStatus
  simp only
  split
  · split
    · simp [emit, connectedReports, isConnectedReport, createPrivateChatIds,
        createPrivateChatId] at h ⊢
      exact h
    · exact h
  · exact h

theorem updateChats_login_counts (env : Env) (chats : List td_api.chat) (s : PurpleTdClient) :
    connectedReports (chats.foldl (updateChatAndUserStatus env) s).trace =
      connectedReports s.trace ∧
    createPrivateChatIds (chats.foldl (updateChatAndUserStatus env) s).trace =
      createPrivateChatIds s.trace := by
  induction chats generalizing s with
  | nil => simp
  | cons c cs ih =>
    rw [List.foldl_cons, (ih _).1, (ih _).2]
    exact updateChatAndUserStatus_login_counts env s c

theorem updatePurpleChatListAndReportConnected_counts (env : Env) (s : PurpleTdClient) :
    connectedReports (s.updatePurpleChatListAndReportConnected env).trace =
      connectedReports s.trace + 1 ∧
    createPrivateChatIds (s.updatePurpleChatListAndReportConnected env).trace =
      createPrivateChatIds s.trace := by
  unfold updatePurpleChatListAndReportConnected
  have h := updateChats_login_counts env
    (s.purple_connection_set_state .PURPLE_CONNECTED).m_data.getChats
    (s.purple_connection_set_state .PURPLE_CONNECTED)
  have h0 : connectedReports (s.purple_connection_set_state .PURPLE_CONNECTED).trace =
      connectedReports s.trace + 1 ∧
      createPrivateChatIds (s.purple_connection_set_state .PURPLE_CONNECTED).trace =
        createPrivateChatIds s.trace := by
    simp [purple_connection_set_state, connectedReports, isConnectedReport,
      createPrivateChatIds, createPrivateChatId]
  rw [h0.1, h0.2] at h
  simp only
  split
  · simp only [emit, purple_account_set_alias, connectedReports_append,
      createPrivateChatIds_append, h.1, h.2]
    simp [connectedReports, isConnectedReport, createPrivateChatIds, createPrivateChatId]
  · simp only [emit, connectedReports_append, createPrivateChatIds_append, h.1, h.2]
    simp [connectedReports, isConnectedReport, createPrivateChatIds, createPrivateChatId]

theorem requestMissingPrivateChats_nil (env : Env) (s : PurpleTdClient)
    (h : s.m_usersForNewPrivateChats = []) :
    s.requestMissingPrivateChats env = s.updatePurpleChatListAndReportConnected env := by
  simp [requestMissingPrivateChats, h]

theorem requestMissingPrivateChats_cons (env : Env) (s : PurpleTdClient) (x : Int)
    (R : List Int) (h : s.m_usersForNewPrivateChats = (x :: R).reverse) :
    s.requestMissingPrivateChats env =
      ({ s with m_usersForNewPrivateChats := R.reverse }.sendQuery
        (.createPrivateChat x false) (some .loginCreatePrivateChatResponse)).2 := by
  simp [requestMissingPrivateChats, h]

theorem login_loop (env : Env) (rs : List (Nat × td_api.Object)) :
    ∀ (R : List Int) (s : PurpleTdClient), s.m_usersForNewPrivateChats = R.reverse →
      rs.length ≤ R.length →
      (loginCreatePrivateChatResponses env (s.requestMissingPrivateChats env)
        (rs.map (fun p => (p.1, some p.2)))).completed = true ∧
      connectedReports (loginCreatePrivateChatResponses env (s.requestMissingPrivateChats env)
        (rs.map (fun p => (p.1, some p.2)))).state.trace =
        connectedReports s.trace + (if rs.length = R.length then 1 else 0) ∧
      createPrivateChatIds (loginCreatePrivateChatResponses env
        (s.requestMissingPrivateChats env) (rs.map (fun p => (p.1, some p.2)))).state.trace =
        createPrivateChatIds s.trace ++ R.take (rs.length + 1) := by
  induction rs with
  | nil =>
    intro R s hq _
    cases R with
    | nil =>
      rw [requestMissingPrivateChats_nil env s (by simpa using hq)]
      have h := updatePurpleChatListAndReportConnected_counts env s
      simp [loginCreatePrivateChatResponses, Result.completed, Result.state, h.1, h.2]
    | cons x R =>
      rw [requestMissingPrivateChats_cons env s x R hq]
      simp [loginCreatePrivateChatResponses, Result.completed, Result.state, sendQuery,
        connectedReports, isConnectedReport, createPrivateChatIds, createPrivateChatId]
  | cons r rs ih =>
    intro R s hq hlen
    cases R with
    | nil => simp at hlen
    | cons x R =>
      rw [requestMissingPrivateChats_cons env s x R hq]
      have hstep : ∀ s1 : PurpleTdClient,
          loginCreatePrivateChatResponses env s1 ((r :: rs).map (fun p => (p.1, some p.2))) =
          loginCreatePrivateChatResponses env
            (requestMissingPrivateChats env
              (match r.2 with
               | .chat c => { s1 with m_data := s1.m_data.addChat c }
               | _ => s1))
            (rs.map (fun p => (p.1, some p.2))) := by
        intro s1
        simp only [List.map_cons, loginCreatePrivateChatResponses]
        cases r.2 <;> rfl
      rw [hstep]
      have hlen1 : rs.length ≤ R.length := by simpa using hlen
      have hq1 : ∀ s1 : PurpleTdClient, s1.m_usersForNewPrivateChats = R.reverse →
          (match r.2 with
           | .chat c => { s1 with m_data := s1.m_data.addChat c }
           | _ => s1).m_usersForNewPrivateChats = R.reverse := by
        intro s1 h1
        cases r.2 <;> exact h1
      have htr : ∀ s1 : PurpleTdClient,
          (match r.2 with
           | .chat c => { s1 with m_data := s1.m_data.addChat c }
           | _ => s1).trace = s1.trace := by
        intro s1
        cases r.2 <;> rfl
      have h := ih R _
        (hq1 ({ s with m_usersForNewPrivateChats := R.reverse }.sendQuery
          (.createPrivateChat x false) (some .loginCreatePrivateChatResponse)).2 rfl) hlen1
      rw [htr] at h
      refine ⟨h.1, ?_, ?_⟩
      · rw [h.2.1]
        simp [sendQuery, connectedReports, isConnectedReport]
      · rw [h.2.2]
        simp [sendQuery, createPrivateChatIds, createPrivateChatId]

/-- C3. After a successful getChats response on a state whose contacts lacking a private
chat are `q` (n of them), for every sequence of at most n createPrivateChat responses, each
a present object (a chat or a failure object), handled one after the other: every handler
runs to completion; the session has been reported connected exactly once if all n
responses have been handled (immediately, when n = 0) and not at all before; and the
createPrivateChat queries sent so far are those for the first users of the queue taken
from its back, one more than the responses handled, hence after n responses one query for
each queued user id, none skipped or repeated. -/
theorem getChatsResponse_login_sequence (env : Env) (s : PurpleTdClient) (requestId : Nat)
    (chatIds : List Int) (rs : List (Nat × td_api.Object))
    (hlen : rs.length ≤ s.m_data.getContactsWithNoChat.length) :
    (loginCreatePrivateChatResponses env
      (s.getChatsResponse env requestId (some (.chats chatIds)))
      (rs.map (fun p => (p.1, some p.2)))).completed = true ∧
    connectedReports (loginCreatePrivateChatResponses env
      (s.getChatsResponse env requestId (some (.chats chatIds)))
      (rs.map (fun p => (p.1, some p.2)))).state.trace =
      connectedReports s.trace +
        (if rs.length = s.m_data.getContactsWithNoChat.length then 1 else 0) ∧
    createPrivateChatIds (loginCreatePrivateChatResponses env
      (s.getChatsResponse env requestId (some (.chats chatIds)))
      (rs.map (fun p => (p.1, some p.2)))).state.trace =
      createPrivateChatIds s.trace ++
        s.m_data.getContactsWithNoChat.reverse.take (rs.length + 1) := by
  have h := login_loop env rs s.m_data.getContactsWithNoChat.reverse
    { s with m_usersForNewPrivateChats := s.m_data.getContactsWithNoChat }
    (by simp) (by simpa using hlen)
  simpa [getChatsResponse] using h

/-- C3, run on a client with two contacts lacking a private chat (11 and 12) and the
responses chat, error: connected is reported once, after both, and the queries were sent
for user 12, then for user 11. -/
theorem getChatsResponse_login_sequence_witness :
    loginResponses.length ≤ loginClient.m_data.getContactsWithNoChat.length ∧
    connectedReports (loginCreatePrivateChatResponses sampleEnv
      (loginClient.getChatsResponse sampleEnv 0 (some (.chats [113])))
      (loginResponses.map (fun p => (p.1, some p.2)))).state.trace = 1 ∧
    createPrivateChatIds (loginCreatePrivateChatResponses sampleEnv
      (loginClient.getChatsResponse sampleEnv 0 (some (.chats [113])))
      (loginResponses.map (fun p => (p.1, some p.2)))).state.trace = [12, 11] :=
  ⟨by decide,
    (getChatsResponse_login_sequence sampleEnv loginClient 0 [113] loginResponses
      (by decide)).2.1,
    (getChatsResponse_login_sequence sampleEnv loginClient 0 [113] loginResponses
      (by decide)).2.2⟩

theorem find_filter_ne {β : Type} (l : List (Nat × β)) (k id : Nat) (h : id ≠ k) :
    (l.filter (fun e => e.1 != k)).find? (fun e => e.1 == id) =
      l.find? (fun e => e.1 == id) := by
  rw [List.find?_filter]
  congr 1
  funext e
  by_cases he : e.1 = id
  · have : ¬ e.1 = k := fun hk => h (he ▸ hk)
    simp [he, this, h]
  · simp [he]

theorem find_filter_self {β : Type} (l : List (Nat × β)) (k : Nat) :
    (l.filter (fun e => e.1 != k)).find? (fun e => e.1 == k) = none := by
  rw [List.find?_filter, List.find?_eq_none]
  intro e _
  by_cases he : e.1 = k <;> simp [he]

theorem lookup_addPendingRequest (d : TdAccountData) (k id : Nat) (r : PendingRequest) :
    (d.addPendingRequest k r).lookupPendingRequest id =
      if id = k then some r else d.lookupPendingRequest id := by
  unfold TdAccountData.addPendingRequest TdAccountData.lookupPendingRequest
  by_cases h : id = k
  · simp [h, List.find?_cons]
  · have h' : ¬ k = id := fun e => h e.symm
    simp [h, h', List.find?_cons, find_filter_ne _ _ _ h]

theorem lookup_erasePendingRequest (d : TdAccountData) (k id : Nat) :
    (d.erasePendingRequest k).lookupPendingRequest id =
      if id = k then none else d.lookupPendingRequest id := by
  unfold TdAccountData.erasePendingRequest TdAccountData.lookupPendingRequest
  by_cases h : id = k
  · simp [h, find_filter_self]
  · simp [h, find_filter_ne _ _ _ h]

theorem erasePendingRequest_of_lookup_none (d : TdAccountData) (k : Nat)
    (h : d.lookupPendingRequest k = none) : d.erasePendingRequest k = d := by
  unfold TdAccountData.erasePendingRequest
  have hf : d.pendingRequests.filter (fun e => e.1 != k) = d.pendingRequests := by
    rw [List.filter_eq_self]
    intro a ha
    unfold TdAccountData.lookupPendingRequest at h
    simp only [Option.map_eq_none', List.find?_eq_none] at h
    simpa using h a ha
  rw [hf]

theorem getPendingRequest_of_lookup_none {T : Type} (cast : PendingRequest → Option T)
    (d : TdAccountData) (k : Nat) (h : d.lookupPendingRequest k = none) :
    d.getPendingRequest cast k = (none, d) := by
  unfold TdAccountData.getPendingRequest
  rw [h, erasePendingRequest_of_lookup_none d k h]
  rfl

theorem KeepsIssued.refl (s : PurpleTdClient) : KeepsIssued s s :=
  ⟨Nat.le_refl _, fun _ _ => rfl⟩

theorem KeepsIssued.trans {s t u : PurpleTdClient} (h1 : KeepsIssued s t)
    (h2 : KeepsIssued t u) : KeepsIssued s u :=
  ⟨Nat.le_trans h1.1 h2.1, fun id hid =>
    (h2.2 id (Nat.lt_of_lt_of_le hid h1.1)).trans (h1.2 id hid)⟩

theorem keeps_emit {s t : PurpleTdClient} (e : Event) (h : KeepsIssued s t) :
    KeepsIssued s (t.emit e) := h

theorem keeps_data {s t : PurpleTdClient} (d : TdAccountData)
    (hd : d.pendingRequests = t.m_data.pendingRequests) (h : KeepsIssued s t) :
    KeepsIssued s { t with m_data := d } := by
  refine ⟨h.1, fun id hid => ?_⟩
  rw [← h.2 id hid]
  simp [TdAccountData.lookupPendingRequest, hd]

theorem keeps_same {s t u : PurpleTdClient} (h : KeepsIssued s t)
    (htr : u.m_transceiver = t.m_transceiver)
    (hd : u.m_data.pendingRequests = t.m_data.pendingRequests) : KeepsIssued s u := by
  refine ⟨htr ▸ h.1, fun id hid => ?_⟩
  rw [← h.2 id hid]
  simp [TdAccountData.lookupPendingRequest, hd]

theorem keeps_sendQuery {s t : PurpleTdClient} (q : td_api.Function) (cb : Option ResponseCb)
    (h : KeepsIssued s t) : KeepsIssued s (t.sendQuery q cb).2 :=
  ⟨Nat.le_succ_of_le h.1, h.2⟩

theorem keeps_sendQueryWithTimeout {s t : PurpleTdClient} (q : td_api.Function)
    (cb : Option ResponseCb) (n : Nat) (h : KeepsIssued s t) :
    KeepsIssued s (t.sendQueryWithTimeout q cb n).2 :=
  ⟨Nat.le_succ_of_le h.1, h.2⟩

theorem keeps_register {s t : PurpleTdClient} (u : PurpleTdClient) (r : PendingRequest)
    (k : Nat) (hk : t.m_transceiver.nextRequestId ≤ k) (hu : KeepsIssued t u) (h : KeepsIssued s t) :
    KeepsIssued s { u with m_data := u.m_data.addPendingRequest k r } := by
  refine ⟨Nat.le_trans h.1 hu.1, fun id hid => ?_⟩
  have hid' : id < t.m_transceiver.nextRequestId := Nat.lt_of_lt_of_le hid h.1
  have hne : id ≠ k := by omega
  show (u.m_data.addPendingRequest k r).lookupPendingRequest id = _
  rw [lookup_addPendingRequest, if_neg hne, hu.2 id hid', h.2 id hid]

theorem keeps_requestDownload {s t : PurpleTdClient} (fileId chatId : Int)
    (message : TgMessageInfo) (thumbnail : Option td_api.file) (cb : ResponseCb)
    (h : KeepsIssued s t) :
    KeepsIssued s (t.requestDownload fileId chatId message thumbnail cb) := by
  unfold requestDownload
  exact keeps_register _ _ _ (Nat.le_refl _) (keeps_sendQuery _ _ (KeepsIssued.refl t)) h

@[simp] theorem Result.state_mapState (r : Result) (f : PurpleTdClient → PurpleTdClient) :
    (r.mapState f).state = f r.state := by
  cases r <;> rfl

theorem keeps_showDownloadedInlineFile {s t : PurpleTdClient} (chatId : Int)
    (message : TgMessageInfo) (filePath label : String) (h : KeepsIssued s t) :
    KeepsIssued s (t.showDownloadedInlineFile chatId message filePath label).state := by
  unfold showDownloadedInlineFile
  repeat' split
  all_goals exact h

theorem keeps_showDownloadedSticker {s t : PurpleTdClient} (chatId : Int)
    (message : TgMessageInfo) (filePath : String) (thumbnail : Option td_api.file)
    (h : KeepsIssued s t) :
    KeepsIssued s (t.showDownloadedSticker chatId message filePath thumbnail).state := by
  unfold showDownloadedSticker
  split
  · split
    · exact keeps_showDownloadedInlineFile _ _ _ _ h
    · exact keeps_requestDownload _ _ _ _ _ h
  · exact keeps_showDownloadedInlineFile _ _ _ _ h

theorem keeps_showSticker {s t : PurpleTdClient} (chat : td_api.chat)
    (message : TgMessageInfo) (stickerContent : td_api.messageSticker) (h : KeepsIssued s t) :
    KeepsIssued s (t.showSticker chat message stickerContent).2.state := by
  unfold showSticker
  split
  · exact h
  · split
    · exact h
    · simp only
      split
      · exact keeps_showDownloadedSticker _ _ _ _ h
      · exact keeps_requestDownload _ _ _ _ _ h

theorem keeps_showDownloadedImage {s t : PurpleTdClient} (env : Env) (chatId : Int)
    (message : TgMessageInfo) (filePath : String) (caption : Option String)
    (h : KeepsIssued s t) :
    KeepsIssued s (t.showDownloadedImage env chatId message filePath caption).state := by
  unfold showDownloadedImage
  repeat' split
  all_goals exact h

theorem keeps_showImage {s t : PurpleTdClient} (env : Env) (chat : td_api.chat)
    (message : TgMessageInfo) (file : td_api.file) (caption : Option String)
    (h : KeepsIssued s t) :
    KeepsIssued s (t.showImage env chat message file caption).state := by
  unfold showImage
  split
  · exact keeps_showDownloadedImage _ _ _ _ _ h
  · exact keeps_requestDownload _ _ _ _ _ h

theorem keeps_showPhotoMessage {s t : PurpleTdClient} (env : Env) (chat : td_api.chat)
    (message : TgMessageInfo) (photo : td_api.messagePhoto) (h : KeepsIssued s t) :
    KeepsIssued s (t.showPhotoMessage env chat message photo).state := by
  unfold showPhotoMessage
  simp only
  split
  · exact h
  · split
    · split
      · exact keeps_showImage _ _ _ _ _ (keeps_emit _ h)
      · exact keeps_showImage _ _ _ _ _ h
    · split
      · exact keeps_emit _ h
      · exact h

theorem keeps_showDocument {s t : PurpleTdClient} (chat : td_api.chat)
    (message : TgMessageInfo) (document : td_api.messageDocument) (h : KeepsIssued s t) :
    KeepsIssued s (t.showDocument chat message document).state := by
  unfold showDocument
  repeat' split
  all_goals exact h

theorem keeps_showVideo {s t : PurpleTdClient} (chat : td_api.chat)
    (message : TgMessageInfo) (video : td_api.messageVideo) (h : KeepsIssued s t) :
    KeepsIssued s (t.showVideo chat message video).state := by
  unfold showVideo
  repeat' split
  all_goals exact h

theorem keeps_showTextMessage {s t : PurpleTdClient} (chat : td_api.chat)
    (message : TgMessageInfo) (text : td_api.messageText) (h : KeepsIssued s t) :
    KeepsIssued s (t.showTextMessage chat message text) := by
  unfold showTextMessage
  split <;> exact h

theorem keeps_showMessage {s t : PurpleTdClient} (env : Env) (chat : td_api.chat)
    (messageId : Int) (h : KeepsIssued s t) :
    KeepsIssued s (t.showMessage env chat messageId).state := by
  unfold showMessage
  split
  · exact h
  · split
    · exact h
    · simp only
      split
      · split <;> exact h
      · split
        · exact keeps_showTextMessage _ _ _ h
        · exact keeps_showPhotoMessage _ _ _ _ h
        · exact keeps_showDocument _ _ _ h
        · exact keeps_showVideo _ _ _ h
        · rw [Result.state_mapState]
          exact keeps_data _ rfl (keeps_showSticker _ _ _ h)
        · split <;> exact h
        · split <;> exact h

theorem keeps_addContactById {s t : PurpleTdClient} (env : Env) (userId : Int)
    (phoneNumber alias_ groupName : String) (h : KeepsIssued s t) :
    KeepsIssued s (t.addContactById env userId phoneNumber alias_ groupName) := by
  unfold addContactById
  exact keeps_register _ _ _ (Nat.le_refl _) (keeps_sendQuery _ _ (KeepsIssued.refl t)) h

theorem keeps_run (h : RegistryHandler) (env : Env) (s : PurpleTdClient) (requestId : Nat)
    (object : Option td_api.Object) :
    KeepsIssued { s with m_data := s.m_data.erasePendingRequest requestId }
      (h.run env s requestId object).state := by
  have h0 := KeepsIssued.refl { s with m_data := s.m_data.erasePendingRequest requestId }
  cases h
  · -- groupInfoResponse
    simp only [RegistryHandler.run, Result.state, groupInfoResponse,
      TdAccountData.getPendingRequest]
    split
    · split
      · split
        · exact keeps_data _ rfl (keeps_emit _ h0)
        · exact keeps_data _ rfl h0
      · exact keeps_data _ rfl h0
    · exact h0
  · -- imageDownloadResponse
    simp only [RegistryHandler.run, imageDownloadResponse, TdAccountData.getPendingRequest]
    split
    · split
      · exact keeps_showDownloadedImage _ _ _ _ _ h0
      · exact h0
    · exact h0
  · -- stickerDownloadResponse
    simp only [RegistryHandler.run, stickerDownloadResponse, TdAccountData.getPendingRequest]
    split
    · split
      · exact keeps_showDownloadedSticker _ _ _ _ h0
      · exact h0
    · exact h0
  · -- fileDownloadResponse
    simp only [RegistryHandler.run, fileDownloadResponse, TdAccountData.getPendingRequest]
    split
    · split
      · exact keeps_showDownloadedInlineFile _ _ _ _ h0
      · exact h0
    · exact h0
  · -- findMessageResponse
    simp only [RegistryHandler.run, findMessageResponse, TdAccountData.getPendingRequest]
    split
    · exact h0
    · split
      · split
        · exact keeps_showMessage _ _ _ (keeps_same h0 rfl rfl)
        · exact keeps_showMessage _ _ _ h0
      · split
        · exact keeps_same h0 rfl rfl
        · exact h0
  · -- importContactResponse
    simp only [RegistryHandler.run, importContactResponse, TdAccountData.getPendingRequest]
    split
    · exact h0
    · split
      · exact h0
      · split
        · exact h0
        · split
          · exact keeps_addContactById _ _ _ _ _ h0
          · exact h0
  · -- addContactResponse
    simp only [RegistryHandler.run, addContactResponse, TdAccountData.getPendingRequest]
    split
    · exact h0
    · split
      · exact h0
      · exact keeps_register _ _ _ (Nat.le_refl _) (keeps_sendQuery _ _ (KeepsIssued.refl _)) h0
      · exact h0
  · -- addContactCreatePrivateChatResponse
    simp only [RegistryHandler.run, Result.state, addContactCreatePrivateChatResponse,
      TdAccountData.getPendingRequest]
    split
    · exact h0
    · split <;> exact h0
  · -- joinChatByLinkResponse
    simp only [RegistryHandler.run, Result.state, joinChatByLinkResponse,
      TdAccountData.getPendingRequest]
    have hfold : ∀ (l : List Nat) (t : PurpleTdClient),
        KeepsIssued { s with m_data := s.m_data.erasePendingRequest requestId } t →
        KeepsIssued { s with m_data := s.m_data.erasePendingRequest requestId }
          (l.foldl (fun acc chat => acc.emit (.purple_blist_remove_chat chat)) t) := by
      intro l
      induction l with
      | nil => intro t ht; exact ht
      | cons c l ih => intro t ht; exact ih _ (keeps_emit _ ht)
    split
    · split
      · exact hfold _ _ h0
      · exact h0
    · exact h0
  · -- sendMessageResponse
    simp only [RegistryHandler.run, Result.state, sendMessageResponse,
      TdAccountData.getPendingRequest]
    split
    · exact h0
    · split
      · exact keeps_same h0 rfl rfl
      · exact h0

/-- C5. Each of the ten response handlers that resume a registered workflow, run for a
request id handed out earlier and on any response (present or absent), takes the entry of
that request id and no other: in the state it ends in (also when it stops at a null
pointer) the registry holds no entry under the request id, a second take on the id yields
empty, and the entry of every other id handed out earlier is as before. -/
theorem handler_takes_entry_once (h : RegistryHandler) (env : Env) (s : PurpleTdClient)
    (requestId : Nat) (object : Option td_api.Object)
    (hissued : requestId < s.m_transceiver.nextRequestId) :
    (h.run env s requestId object).state.m_data.lookupPendingRequest requestId = none ∧
    (∀ (T : Type) (cast : PendingRequest → Option T),
      ((h.run env s requestId object).state.m_data.getPendingRequest cast requestId).1 = none) ∧
    (∀ id, id < s.m_transceiver.nextRequestId → id ≠ requestId →
      (h.run env s requestId object).state.m_data.lookupPendingRequest id =
        s.m_data.lookupPendingRequest id) := by
  have hk := keeps_run h env s requestId object
  have hnone : (h.run env s requestId object).state.m_data.lookupPendingRequest requestId =
      none := by
    rw [hk.2 requestId hissued]
    show (s.m_data.erasePendingRequest requestId).lookupPendingRequest requestId = none
    rw [lookup_erasePendingRequest, if_pos rfl]
  refine ⟨hnone, ?_, ?_⟩
  · intro T cast
    simp [TdAccountData.getPendingRequest, hnone]
  · intro id hid hne
    rw [hk.2 id hid]
    show (s.m_data.erasePendingRequest requestId).lookupPendingRequest id = _
    rw [lookup_erasePendingRequest, if_neg hne]

/-- C5, run on a sticker download whose response is a complete file of the animated
format: the handler starts the download of the thumbnail under a new request id, and the
entry of request id 1 is gone. -/
theorem handler_takes_entry_once_witness :
    1 < downloadClient.m_transceiver.nextRequestId ∧
    downloadClient.m_data.lookupPendingRequest 1 ≠ none ∧
    (RegistryHandler.stickerDownloadResponse.run sampleEnv downloadClient 1
      (some (.file ⟨4, some ⟨"/tmp/sticker.tgs", true⟩⟩))).state.m_data.lookupPendingRequest 1 =
      none :=
  ⟨by decide, by decide,
    (handler_takes_entry_once .stickerDownloadResponse sampleEnv downloadClient 1
      (some (.file ⟨4, some ⟨"/tmp/sticker.tgs", true⟩⟩)) (by decide)).1⟩

/-- C6, as stated, fails for `joinChatByLinkResponse`: with no entry under the request id
and an error response, the handler still shows the error notice "Failed to join chat". -/
theorem joinChatByLinkResponse_without_entry_notifies :
    (newClient none none).m_data.lookupPendingRequest 5 = none ∧
    (RegistryHandler.joinChatByLinkResponse.run sampleEnv (newClient none none) 5
      (some (.error 400 "INVITE_HASH_EXPIRED"))).state.trace =
      [Event.purple_notify_error true "Failed to join chat"
        "Failed to join chat: code 400 (INVITE_HASH_EXPIRED)"] := by
  decide

/-- C6, amended. When the registry holds no entry for the request id, each of the nine
handlers other than `joinChatByLinkResponse` runs to completion and leaves the client
exactly as it was, whatever the response: no change of the Mirror, no query, no call of
the presentation layer. `joinChatByLinkResponse` also leaves the client as it was when the
response is a chat (no chat entry is removed); for every other response, present or
absent, its one effect is the error notice "Failed to join chat". -/
theorem handler_without_entry (h : RegistryHandler) (env : Env) (s : PurpleTdClient)
    (requestId : Nat) (object : Option td_api.Object)
    (hgone : s.m_data.lookupPendingRequest requestId = none) :
    (h ≠ .joinChatByLinkResponse → h.run env s requestId object = .ok s) ∧
    (∀ c, RegistryHandler.joinChatByLinkResponse.run env s requestId (some (.chat c)) =
      .ok s) ∧
    ((∀ c, object ≠ some (.chat c)) →
      RegistryHandler.joinChatByLinkResponse.run env s requestId object =
        .ok (s.emit (.purple_notify_error true (tr "Failed to join chat")
          (formatMessage (tr "Failed to join chat: \x7b\x7d") [getDisplayedError object])))) := by
  have hs : ({ s with m_data := s.m_data } : PurpleTdClient) = s := rfl
  refine ⟨?_, ?_, ?_⟩
  · intro hne
    cases h
    case joinChatByLinkResponse => exact absurd rfl hne
    all_goals
      simp only [RegistryHandler.run, groupInfoResponse, imageDownloadResponse,
        stickerDownloadResponse, fileDownloadResponse, findMessageResponse,
        importContactResponse, addContactResponse, addContactCreatePrivateChatResponse,
        sendMessageResponse, getPendingRequest_of_lookup_none _ _ _ hgone, hs]
  · intro c
    simp only [RegistryHandler.run, joinChatByLinkResponse,
      getPendingRequest_of_lookup_none _ _ _ hgone, hs]
  · intro hobj
    simp only [RegistryHandler.run, joinChatByLinkResponse,
      getPendingRequest_of_lookup_none _ _ _ hgone]

/-- C6 amended, run on a client with an empty registry: a file response for an unknown
download changes nothing. -/
theorem handler_without_entry_witness :
    loginClient.m_data.lookupPendingRequest 7 = none ∧
    RegistryHandler.imageDownloadResponse.run sampleEnv loginClient 7
      (some (.file ⟨4, some ⟨"/tmp/photo.jpg", true⟩⟩)) = .ok loginClient :=
  ⟨by decide,
    (handler_without_entry .imageDownloadResponse sampleEnv loginClient 7
      (some (.file ⟨4, some ⟨"/tmp/photo.jpg", true⟩⟩)) (by decide)).1 (by decide)⟩

theorem isChatInContactList_true_iff (chat : td_api.chat)
    (privateChatUser : Option td_api.user) :
    isChatInContactList chat privateChatUser = true ↔
      (chat.chat_list_ ≠ none ∨ ∃ u, privateChatUser = some u ∧ u.is_contact_ = true) := by
  unfold isChatInContactList
  cases hl : chat.chat_list_ <;> cases privateChatUser <;> simp

/-- C11, as stated, fails: on a connected client, for a private chat that has chat-list
membership but whose peer user is not known to the Mirror, `updateChat` makes no call at
all, so the chat is not made visible; the same holds for a secret chat with chat-list
membership. -/
theorem updateChat_listed_chat_not_shown :
    connectedClient.purple_account_is_connected = true ∧
    (connectedClient.updateChat
      (some ⟨113, .chatTypePrivate 13, some .chatListMain, "Thirteen"⟩)).trace =
      connectedClient.trace ∧
    (connectedClient.updateChat
      (some ⟨114, .chatTypeSecret 1 13, some .chatListMain, "Secret"⟩)).trace =
      connectedClient.trace := by
  decide

/-- C11, amended. On a connected client, if the chat has chat-list membership or is a
private chat whose peer user is known and a contact, `updateChat` calls no removal
primitive and makes these calls, in this order: `updatePrivateChat` when the chat is
private and its peer user is known to the Mirror; for a basic group, the request of the
group members (a query, unless already requested) and `updateBasicGroupChat`; for a
supergroup, `updateSupergroupChat`. Otherwise its only outward call is the removal
primitive. -/
theorem updateChat_connected (s : PurpleTdClient) (chat : td_api.chat)
    (hconn : s.purple_account_is_connected = true) :
    ((chat.chat_list_ ≠ none ∨
        ∃ u, s.m_data.getUserByPrivateChat chat = some u ∧ u.is_contact_ = true) →
      (s.updateChat (some chat)).trace = s.trace ++
        (match s.m_data.getUserByPrivateChat chat with
         | some u => [Event.updatePrivateChat chat.id_ u.id_]
         | none => []) ++
        (if getBasicGroupId chat ≠ 0 then
          (if s.m_data.isBasicGroupInfoRequested (getBasicGroupId chat) then []
           else [Event.sendQuery s.m_transceiver.nextRequestId
             (.getBasicGroupFullInfo (getBasicGroupId chat)) (some .groupInfoResponse)]) ++
          [Event.updateBasicGroupChat (getBasicGroupId chat)]
         else []) ++
        (if getSupergroupId chat ≠ 0 then [Event.updateSupergroupChat (getSupergroupId chat)]
         else [])) ∧
    (¬ (chat.chat_list_ ≠ none ∨
        ∃ u, s.m_data.getUserByPrivateChat chat = some u ∧ u.is_contact_ = true) →
      s.updateChat (some chat) = s.emit (.removeGroupChat chat.id_)) := by
  have hiff := isChatInContactList_true_iff chat (s.m_data.getUserByPrivateChat chat)
  constructor
  · intro h
    have hin := hiff.2 h
    simp only [updateChat, hconn, hin, requestBasicGroupMembers, emit, sendQuery]
    cases hu : s.m_data.getUserByPrivateChat chat <;>
      by_cases hb : getBasicGroupId chat = 0 <;>
      by_cases hsg : getSupergroupId chat = 0 <;>
      by_cases hr : s.m_data.isBasicGroupInfoRequested (getBasicGroupId chat) = true <;>
      simp [hb, hsg, hr]
  · intro h
    have hin : isChatInContactList chat (s.m_data.getUserByPrivateChat chat) = false := by
      cases hc : isChatInContactList chat (s.m_data.getUserByPrivateChat chat)
      · rfl
      · exact absurd (hiff.1 hc) h
    simp [updateChat, hconn, hin]

/-- C11 amended, run on a connected client for a listed basic-group chat and for a
private chat that is neither listed nor has a known peer. -/
theorem updateChat_connected_witness :
    connectedClient.purple_account_is_connected = true ∧
    (connectedClient.updateChat
      (some ⟨200, .chatTypeBasicGroup 20, some .chatListMain, "Group"⟩)).trace =
      [Event.sendQuery 1 (.getBasicGroupFullInfo 20) (some .groupInfoResponse),
        Event.updateBasicGroupChat 20] ∧
    connectedClient.updateChat (some ⟨115, .chatTypePrivate 15, none, "Fifteen"⟩) =
      connectedClient.emit (.removeGroupChat 115) :=
  ⟨rfl,
    (updateChat_connected connectedClient
      ⟨200, .chatTypeBasicGroup 20, some .chatListMain, "Group"⟩ rfl).1
      (Or.inl (by decide)),
    (updateChat_connected connectedClient ⟨115, .chatTypePrivate 15, none, "Fifteen"⟩ rfl).2
      (by decide)⟩

/-- C12. While the account is not connected, `updateUser`, `addChat`, `updateGroup` and
`updateSupergroup` only overwrite the Mirror entry, and `updateChat` does nothing: the
trace of outward calls (presentation-layer calls and queries) is unchanged, no request id
is handed out, and the overwritten user or chat is what the Mirror then returns. -/
theorem updates_not_connected (s : PurpleTdClient) (u : td_api.user) (c : td_api.chat)
    (g : td_api.basicGroup) (sg : td_api.supergroup) (chat : Option td_api.chat)
    (hconn : s.purple_account_is_connected = false) :
    (s.updateUser (some u) = { s with m_data := s.m_data.updateUser u } ∧
      (s.updateUser (some u)).m_data.getUser u.id_ = some u) ∧
    (s.addChat (some c) = { s with m_data := s.m_data.addChat c } ∧
      (s.addChat (some c)).m_data.getChat c.id_ = some c) ∧
    s.updateChat chat = s ∧
    s.updateGroup (some g) = { s with m_data := s.m_data.updateBasicGroup g } ∧
    s.updateSupergroup (some sg) = { s with m_data := s.m_data.updateSupergroup sg } ∧
    s.updateUser none = s ∧ s.addChat none = s ∧ s.updateGroup none = s ∧
    s.updateSupergroup none = s := by
  have hconn' : ∀ d : TdAccountData,
      ({ s with m_data := d } : PurpleTdClient).purple_account_is_connected = false := by
    intro d
    exact hconn
  have hchat : ∀ (t : PurpleTdClient) (ch : Option td_api.chat),
      t.purple_account_is_connected = false → t.updateChat ch = t := by
    intro t ch ht
    cases ch <;> simp [updateChat, ht]
  have huser : s.updateUser (some u) = { s with m_data := s.m_data.updateUser u } := by
    simp [updateUser, hconn']
  have hadd : s.addChat (some c) = { s with m_data := s.m_data.addChat c } := by
    simp only [addChat]
    exact hchat _ _ (hconn' _)
  refine ⟨⟨huser, ?_⟩, ⟨hadd, ?_⟩, hchat s chat hconn, ?_, ?_, rfl, rfl, rfl, rfl⟩
  · rw [huser]
    simp [TdAccountData.updateUser, TdAccountData.getUser]
  · rw [hadd]
    simp [TdAccountData.addChat, TdAccountData.getChat]
  · simp [updateGroup, hconn']
  · simp [updateSupergroup, hconn']

/-- C12, run on a client that is still connecting. -/
theorem updates_not_connected_witness :
    loginClient.purple_account_is_connected = false ∧
    (loginClient.addChat (some ⟨200, .chatTypeBasicGroup 20, some .chatListMain, "Group"⟩)).trace =
      [] ∧
    (loginClient.addChat
      (some ⟨200, .chatTypeBasicGroup 20, some .chatListMain, "Group"⟩)).m_data.getChat 200 =
      some ⟨200, .chatTypeBasicGroup 20, some .chatListMain, "Group"⟩ :=
  ⟨rfl,
    congrArg PurpleTdClient.trace
      (updates_not_connected loginClient ⟨13, "A", "B", "13", .userStatusOnline, true⟩
        ⟨200, .chatTypeBasicGroup 20, some .chatListMain, "Group"⟩ ⟨20, 3⟩ ⟨30, 5⟩ none rfl).2.1.1,
    (updates_not_connected loginClient ⟨13, "A", "B", "13", .userStatusOnline, true⟩
      ⟨200, .chatTypeBasicGroup 20, some .chatListMain, "Group"⟩ ⟨20, 3⟩ ⟨30, 5⟩ none rfl).2.1.2⟩

/-- C13. If no known user has the name as phone number and exactly one known user has it
as display name, `addContact` is `addContactById` for that user's id, with an empty phone
number: its only outward call is one `addContact` query carrying that user id (no
`importContacts` query), and a ContactRequest with that user id is registered under the
request id of that query. -/
theorem addContact_single_match (env : Env) (s : PurpleTdClient) (purpleName alias_ : String)
    (groupName : String) (u : td_api.user)
    (hphone : s.m_data.getUserByPhone (c_str purpleName) = none)
    (hone : s.m_data.getUsersByDisplayName env.getDisplayName (c_str purpleName) = [u]) :
    s.addContact env purpleName alias_ groupName =
      s.addContactById env u.id_ "" purpleName groupName ∧
    (s.addContact env purpleName alias_ groupName).trace = s.trace ++
      [Event.sendQuery s.m_transceiver.nextRequestId
        (.addContact
          ⟨"", (env.getNamesFromAlias (some (c_str purpleName))).1,
            (env.getNamesFromAlias (some (c_str purpleName))).2, "", u.id_⟩ true)
        (some .addContactResponse)] ∧
    (s.addContact env purpleName alias_ groupName).m_data.lookupPendingRequest
      s.m_transceiver.nextRequestId =
      some (.ofContactRequest ⟨"", purpleName, groupName, u.id_⟩) := by
  have h : s.addContact env purpleName alias_ groupName =
      s.addContactById env u.id_ "" purpleName groupName := by
    simp [addContact, hphone, hone]
  rw [h]
  refine ⟨rfl, ?_, ?_⟩
  · simp [addContactById, sendQuery]
  · simp only [addContactById, sendQuery]
    rw [lookup_addPendingRequest, if_pos rfl]

/-- C13, run for the name of the one user called Ann Lee. -/
theorem addContact_single_match_witness :
    contactsClient.m_data.getUserByPhone (c_str "Ann Lee") = none ∧
    contactsClient.m_data.getUsersByDisplayName sampleEnv.getDisplayName (c_str "Ann Lee") =
      [⟨21, "Ann", "Lee", "111", .userStatusOnline, false⟩] ∧
    (contactsClient.addContact sampleEnv "Ann Lee" "Annie" "Friends").trace =
      [Event.sendQuery 1 (.addContact ⟨"", "Ann Lee", "", "", 21⟩ true)
        (some .addContactResponse)] :=
  ⟨by decide, by decide,
    (addContact_single_match sampleEnv contactsClient "Ann Lee" "Annie" "Friends"
      ⟨21, "Ann", "Lee", "111", .userStatusOnline, false⟩ (by decide) (by decide)).2.1⟩

/-- C14. If more than one known user has the name as display name and none has it as
phone number, `addContact` sends no query and registers nothing: its one outward call
hands the ambiguity message to the idle callback, which shows it as a "Failed to add
contact" error. -/
theorem addContact_ambiguous (env : Env) (s : PurpleTdClient) (purpleName alias_ : String)
    (groupName : String)
    (hphone : s.m_data.getUserByPhone (c_str purpleName) = none)
    (hmany : 1 < (s.m_data.getUsersByDisplayName env.getDisplayName (c_str purpleName)).length) :
    s.addContact env purpleName alias_ groupName =
      s.emit (.g_idle_add_failedContactIdle
        (c_str ("More than one user known with name '" ++ purpleName ++ "'"))) ∧
    queriesOf (s.addContact env purpleName alias_ groupName).trace = queriesOf s.trace ∧
    (s.addContact env purpleName alias_ groupName).m_data = s.m_data ∧
    ∀ t : PurpleTdClient, ∀ message : String, (t.failedContactIdle message).trace = t.trace ++
      [Event.purple_notify_error false (tr "Failed to add contact")
        (formatMessage (tr "Failed to add contact: \x7b\x7d") [message])] := by
  have h : s.addContact env purpleName alias_ groupName =
      s.emit (.g_idle_add_failedContactIdle
        (c_str ("More than one user known with name '" ++ purpleName ++ "'"))) := by
    unfold addContact
    simp only [hphone]
    match hl : s.m_data.getUsersByDisplayName env.getDisplayName (c_str purpleName) with
    | [] => simp [hl] at hmany
    | [_] => simp [hl] at hmany
    | _ :: _ :: _ => simp [notifyFailedContactDeferred]
  rw [h]
  refine ⟨rfl, ?_, rfl, ?_⟩
  · simp [emit, queriesOf]
  · intro t message
    rfl

/-- C14, run for a name that two known users share. -/
theorem addContact_ambiguous_witness :
    contactsClient.m_data.getUserByPhone (c_str "Bob Ray") = none ∧
    1 < (contactsClient.m_data.getUsersByDisplayName sampleEnv.getDisplayName
      (c_str "Bob Ray")).length ∧
    contactsClient.addContact sampleEnv "Bob Ray" "Bobby" "Friends" =
      contactsClient.emit (.g_idle_add_failedContactIdle
        "More than one user known with name 'Bob Ray'") :=
  ⟨by decide, by decide,
    (addContact_ambiguous sampleEnv contactsClient "Bob Ray" "Bobby" "Friends"
      (by decide) (by decide)).1⟩

theorem getPendingRequest_of_lookup_some {T : Type} (cast : PendingRequest → Option T)
    (d : TdAccountData) (k : Nat) (r : PendingRequest)
    (h : d.lookupPendingRequest k = some r) :
    d.getPendingRequest cast k = (cast r, d.erasePendingRequest k) := by
  simp [TdAccountData.getPendingRequest, h]

/-- C15. In `importContactResponse`, when the stored request's identifier is not a valid
phone number, every response payload (an object of any class, also imported contacts that
carry a user id) ends in the error "... is not a valid phone number", shown as a "Failed to
add contact" notice, as the only outward call; and for every response, also an absent one,
no query is sent, so neither `addContact` nor `createPrivateChat`. -/
theorem importContactResponse_invalid_phone (env : Env) (s : PurpleTdClient) (requestId : Nat)
    (request : ContactRequest)
    (hreq : s.m_data.lookupPendingRequest requestId = some (.ofContactRequest request))
    (hbad : env.isPhoneNumber (c_str request.phoneNumber) = false) :
    (∀ object : td_api.Object,
      s.importContactResponse env requestId (some object) =
        .ok (({ s with m_data := s.m_data.erasePendingRequest requestId } :
          PurpleTdClient).notifyFailedContact
            (formatMessage (tr "\x7b\x7d is not a valid phone number") [request.phoneNumber])) ∧
      (s.importContactResponse env requestId (some object)).state.trace = s.trace ++
        [Event.purple_notify_error true (tr "Failed to add contact")
          (formatMessage (tr "Failed to add contact: \x7b\x7d")
            [formatMessage (tr "\x7b\x7d is not a valid phone number")
              [request.phoneNumber]])]) ∧
    (∀ object : Option td_api.Object,
      queriesOf (s.importContactResponse env requestId object).state.trace =
        queriesOf s.trace) := by
  have hstep : ∀ object : td_api.Object,
      s.importContactResponse env requestId (some object) =
        .ok (({ s with m_data := s.m_data.erasePendingRequest requestId } :
          PurpleTdClient).notifyFailedContact
            (formatMessage (tr "\x7b\x7d is not a valid phone number")
              [request.phoneNumber])) := by
    intro object
    simp [importContactResponse, getPendingRequest_of_lookup_some _ _ _ _ hreq,
      PendingRequest.asContactRequest, hbad]
  refine ⟨fun object => ⟨hstep object, ?_⟩, ?_⟩
  · rw [hstep]
    rfl
  · intro object
    cases object with
    | none =>
      simp [importContactResponse, getPendingRequest_of_lookup_some _ _ _ _ hreq,
        PendingRequest.asContactRequest, Result.state]
    | some o =>
      rw [hstep]
      simp [Result.state, notifyFailedContact, showFailedContactMessage, emit, queriesOf]

/-- C15, run for the imported contacts [21], a payload that carries a user id. -/
theorem importContactResponse_invalid_phone_witness :
    contactRequestClient.m_data.lookupPendingRequest 1 =
      some (.ofContactRequest ⟨"not-a-number", "Al", "Friends", 0⟩) ∧
    sampleEnv.isPhoneNumber (c_str "not-a-number") = false ∧
    (contactRequestClient.importContactResponse sampleEnv 1
      (some (.importedContacts [21]))).state.trace =
      [Event.purple_notify_error true "Failed to add contact"
        "Failed to add contact: not-a-number is not a valid phone number"] :=
  ⟨by decide, by decide,
    ((importContactResponse_invalid_phone sampleEnv contactRequestClient 1
      ⟨"not-a-number", "Al", "Friends", 0⟩ (by decide) (by decide)).1
      (.importedContacts [21])).2⟩

/-- C16, where the code departs from the claim. With a contact request registered under
the request id, `addContactResponse` on a present response other than ok (an error or any
other object) shows the "Failed to add contact" error with the text of
`getDisplayedError` and sends no query. On an absent response it dereferences the null
pointer after taking the entry: no error is reported and no outward call is made. -/
theorem addContactResponse_failure (s : PurpleTdClient) (requestId : Nat)
    (request : ContactRequest)
    (hreq : s.m_data.lookupPendingRequest requestId = some (.ofContactRequest request)) :
    (∀ object : td_api.Object, object ≠ .ok →
      (s.addContactResponse requestId (some object)).state.trace = s.trace ++
        [Event.purple_notify_error true (tr "Failed to add contact")
          (formatMessage (tr "Failed to add contact: \x7b\x7d")
            [getDisplayedError (some object)])] ∧
      (s.addContactResponse requestId (some object)).completed = true) ∧
    s.addContactResponse requestId none =
      .nullDeref { s with m_data := s.m_data.erasePendingRequest requestId } ∧
    (s.addContactResponse requestId none).state.trace = s.trace ∧
    (s.addContactResponse requestId none).completed = false := by
  refine ⟨?_, ?_, ?_, ?_⟩
  · intro object hne
    cases object <;>
      first
      | exact absurd rfl hne
      | simp [addContactResponse, getPendingRequest_of_lookup_some _ _ _ _ hreq,
          PendingRequest.asContactRequest, Result.state, Result.completed,
          notifyFailedContact, showFailedContactMessage, emit]
  all_goals
    simp [addContactResponse, getPendingRequest_of_lookup_some _ _ _ _ hreq,
      PendingRequest.asContactRequest, Result.state, Result.completed]

/-- C16, run on an error response and on an absent response for request id 2. -/
theorem addContactResponse_failure_witness :
    contactRequestClient.m_data.lookupPendingRequest 2 =
      some (.ofContactRequest ⟨"", "Ann Lee", "Friends", 21⟩) ∧
    (contactRequestClient.addContactResponse 2
      (some (.error 400 "CONTACT_ID_INVALID"))).state.trace =
      [Event.purple_notify_error true "Failed to add contact"
        "Failed to add contact: code 400 (CONTACT_ID_INVALID)"] ∧
    (contactRequestClient.addContactResponse 2 none).state.trace = [] ∧
    (contactRequestClient.addContactResponse 2 none).completed = false :=
  ⟨by decide,
    ((addContactResponse_failure contactRequestClient 2 ⟨"", "Ann Lee", "Friends", 21⟩
      (by decide)).1 (.error 400 "CONTACT_ID_INVALID") (by decide)).1,
    (addContactResponse_failure contactRequestClient 2 ⟨"", "Ann Lee", "Friends", 21⟩
      (by decide)).2.2.1,
    (addContactResponse_failure contactRequestClient 2 ⟨"", "Ann Lee", "Friends", 21⟩
      (by decide)).2.2.2⟩

/-- C17. `getDisplayedError` returns "No response received" for an absent response,
"code <code> (<message>)" with the code and message of an error object, and "Unexpected
response" for every other response object. -/
theorem getDisplayedError_cases (code : Int) (message : String) (object : td_api.Object) :
    getDisplayedError none = "No response received" ∧
    getDisplayedError (some (.error code message)) =
      "code " ++ toString code ++ " (" ++ message ++ ")" ∧
    ((∀ c m, object ≠ .error c m) → getDisplayedError (some object) = "Unexpected response") := by
  refine ⟨rfl, ?_, ?_⟩
  · have h : getDisplayedError (some (.error code message)) =
        String.mk ("code ".data ++ ((toString code).data ++ (" (".data ++
          (message.data ++ ")".data)))) := rfl
    rw [h]
    apply String.ext
    simp [String.data_append]
  · intro hne
    cases object <;> first | rfl | exact absurd rfl (hne _ _)

/-- C17, run on an error object and on an object of another class. -/
theorem getDisplayedError_cases_witness :
    getDisplayedError (some (.error 420 "FLOOD_WAIT")) = "code 420 (FLOOD_WAIT)" ∧
    getDisplayedError (some (.users [1])) = "Unexpected response" :=
  ⟨(getDisplayedError_cases 420 "FLOOD_WAIT" (.users [1])).2.1,
    (getDisplayedError_cases 420 "FLOOD_WAIT" (.users [1])).2.2 (by intro c m h; cases h)⟩

/-- C18, as stated, fails: for a known private chat whose peer user id equals the acting
user id and a present action, nothing is shown when that user is not known to the
Mirror. -/
theorem handleUserChatAction_unknown_user_shows_nothing :
    chatClient.m_data.getChat 113 = some ⟨113, .chatTypePrivate 13, some .chatListMain, "Thirteen"⟩ ∧
    chatClient.handleUserChatAction sampleEnv 113 13 (some .chatActionTyping) = chatClient ∧
    chatClient.handleUserChatAction sampleEnv 113 13 (some .chatActionCancel) = chatClient := by
  decide

/-- C18, amended. `handleUserChatAction` shows a typing indication exactly when the chat
of the update is known, is a private chat (its peer user id is not 0) whose peer user id
equals the acting user id, the action is present, and the acting user is known to the
Mirror. In that case a cancel action and a "start playing game" action each give "stopped
typing", and every other action gives "started typing" with a timeout of 10 seconds, as
the only outward call. In all other cases the client is left as it was. -/
theorem handleUserChatAction_cases (env : Env) (s : PurpleTdClient) (chat_id_ user_id_ : Int)
    (action_ : Option td_api.ChatAction) :
    (∀ chat u a, s.m_data.getChat chat_id_ = some chat →
      getUserIdByPrivateChat chat = user_id_ → user_id_ ≠ 0 →
      s.m_data.getUser user_id_ = some u → action_ = some a →
      s.handleUserChatAction env chat_id_ user_id_ action_ =
        s.emit (if a = .chatActionCancel ∨ a = .chatActionStartPlayingGame then
            Event.serv_got_typing_stopped (env.getPurpleBuddyName u)
          else Event.serv_got_typing (env.getPurpleBuddyName u) 10)) ∧
    ((s.m_data.getChat chat_id_ = none ∨
        (∃ chat, s.m_data.getChat chat_id_ = some chat ∧
          (getUserIdByPrivateChat chat = 0 ∨ getUserIdByPrivateChat chat ≠ user_id_)) ∨
        action_ = none ∨ s.m_data.getUser user_id_ = none) →
      s.handleUserChatAction env chat_id_ user_id_ action_ = s) := by
  constructor
  · intro chat u a hchat hpeer hnz huser hact
    subst hact
    have hnz' : getUserIdByPrivateChat chat ≠ 0 := hpeer ▸ hnz
    cases a <;>
      simp [handleUserChatAction, hchat, hpeer, hnz, showUserChatAction, huser,
        REMOTE_TYPING_NOTICE_TIMEOUT]
  · intro h
    unfold handleUserChatAction
    cases hchat : s.m_data.getChat chat_id_ with
    | none => rfl
    | some chat =>
      simp only
      by_cases hz : getUserIdByPrivateChat chat = 0
      · simp [hz]
      · by_cases hp : getUserIdByPrivateChat chat = user_id_
        · simp only [hz, hp, if_false, ne_eq, not_true_eq_false]
          rcases h with h | ⟨c, hc, h⟩ | h | h
          · simp [hchat] at h
          · rw [hchat] at hc
            cases hc
            rcases h with h | h
            · exact absurd h hz
            · exact absurd hp h
          · subst h
            split <;> rfl
          · cases action_ with
            | none => split <;> rfl
            | some a => cases a <;> simp [showUserChatAction, h]
        · simp [hz, hp]

/-- C18 amended, run for the known user 21 typing in the private chat 121. -/
theorem handleUserChatAction_cases_witness :
    chatClient.m_data.getChat 121 = some ⟨121, .chatTypePrivate 21, some .chatListMain, "Ann Lee"⟩ ∧
    chatClient.handleUserChatAction sampleEnv 121 21 (some .chatActionTyping) =
      chatClient.emit (.serv_got_typing "id21" 10) ∧
    chatClient.handleUserChatAction sampleEnv 121 21 (some .chatActionStartPlayingGame) =
      chatClient.emit (.serv_got_typing_stopped "id21") ∧
    chatClient.handleUserChatAction sampleEnv 121 22 (some .chatActionTyping) = chatClient :=
  ⟨by decide,
    (handleUserChatAction_cases sampleEnv chatClient 121 21 (some .chatActionTyping)).1
      ⟨121, .chatTypePrivate 21, some .chatListMain, "Ann Lee"⟩
      ⟨21, "Ann", "Lee", "111", .userStatusOnline, false⟩ .chatActionTyping
      (by decide) (by decide) (by decide) (by decide) rfl,
    (handleUserChatAction_cases sampleEnv chatClient 121 21
      (some .chatActionStartPlayingGame)).1
      ⟨121, .chatTypePrivate 21, some .chatListMain, "Ann Lee"⟩
      ⟨21, "Ann", "Lee", "111", .userStatusOnline, false⟩ .chatActionStartPlayingGame
      (by decide) (by decide) (by decide) (by decide) rfl,
    (handleUserChatAction_cases sampleEnv chatClient 121 22 (some .chatActionTyping)).2
      (Or.inr (Or.inl ⟨⟨121, .chatTypePrivate 21, some .chatListMain, "Ann Lee"⟩,
        by decide, Or.inr (by decide)⟩))⟩

/-- C19. For an incoming message in a known chat whose reply target is not 0 and is not
found in the Mirror (which by then holds the incoming message itself), `onIncomingMessage`
runs to completion with two outward calls, the `viewMessages` query and one `getMessage`
query with a timeout of 1 second, registers the message under the request id of the latter
and renders nothing. When `findMessageResponse` later handles any response for that
request id (a message, which it stores first, another object, or none after the timeout)
in a state that still holds the registration and the chat, its result is that of one call
of `showMessage` for the original message. -/
theorem onIncomingMessage_reply_fetch (env : Env) (s : PurpleTdClient)
    (message : td_api.message) (chat : td_api.chat)
    (hchat : s.m_data.getChat message.chat_id_ = some chat)
    (hreply : message.reply_to_message_id_ ≠ 0)
    (hunknown : (s.m_data.saveMessage message).findMessage message.reply_to_message_id_ = none) :
    (s.onIncomingMessage env (some message)).completed = true ∧
    (s.onIncomingMessage env (some message)).state.trace = s.trace ++
      [Event.sendQuery s.m_transceiver.nextRequestId
        (.viewMessages chat.id_ [message.id_] true) none,
       Event.sendQueryWithTimeout (s.m_transceiver.nextRequestId + 1)
        (.getMessage chat.id_ message.reply_to_message_id_) (some .findMessageResponse) 1] ∧
    (s.onIncomingMessage env (some message)).state.m_data.lookupPendingRequest
      (s.m_transceiver.nextRequestId + 1) = some (.ofPendingMessage ⟨message.id_, chat.id_⟩) ∧
    (s.onIncomingMessage env (some message)).state.m_data.findMessage message.id_ =
      some message ∧
    (∀ (t : PurpleTdClient) (object : Option td_api.Object) (current : td_api.chat),
      t.m_data.lookupPendingRequest (s.m_transceiver.nextRequestId + 1) =
        some (.ofPendingMessage ⟨message.id_, chat.id_⟩) →
      t.m_data.getChat chat.id_ = some current →
      t.findMessageResponse env (s.m_transceiver.nextRequestId + 1) object =
        showMessage env
          { t with m_data :=
              match object with
              | some (.message m) =>
                (t.m_data.erasePendingRequest (s.m_transceiver.nextRequestId + 1)).saveMessage m
              | _ => t.m_data.erasePendingRequest (s.m_transceiver.nextRequestId + 1) }
          current message.id_) := by
  have hrun : s.onIncomingMessage env (some message) = .ok
      { (({ (s.sendQuery (.viewMessages chat.id_ [message.id_] true) none).2 with
            m_data := s.m_data.saveMessage message } : PurpleTdClient).sendQueryWithTimeout
          (.getMessage chat.id_ message.reply_to_message_id_) (some .findMessageResponse) 1).2 with
        m_data := (s.m_data.saveMessage message).addPendingRequest
          (s.m_transceiver.nextRequestId + 1) (.ofPendingMessage ⟨message.id_, chat.id_⟩) } := by
    simp [onIncomingMessage, hchat, hreply, sendQuery, sendQueryWithTimeout]
    intro h
    simp [hunknown] at h
  refine ⟨by rw [hrun]; rfl, ?_, ?_, ?_, ?_⟩
  · rw [hrun]
    simp [Result.state, sendQuery, sendQueryWithTimeout]
  · rw [hrun]
    simp only [Result.state]
    rw [lookup_addPendingRequest, if_pos rfl]
  · rw [hrun]
    simp [Result.state, TdAccountData.addPendingRequest, TdAccountData.saveMessage,
      TdAccountData.findMessage]
  · intro t object current hreg hcur
    have hget : ∀ d : TdAccountData, d.chats = t.m_data.chats →
        d.getChat chat.id_ = some current := by
      intro d hd
      simpa [TdAccountData.getChat, hd] using hcur
    unfold findMessageResponse
    simp only [getPendingRequest_of_lookup_some _ _ _ _ hreg, PendingRequest.asPendingMessage]
    rw [hget _ (by cases object with
      | none => rfl
      | some o => cases o <;> rfl)]
    cases object with
    | none => rfl
    | some o => cases o <;> rfl

/-- C19, run for message 501 replying to the unknown message 500 in chat 121: the fetch
is sent without rendering, and when no response arrives the message is rendered once. -/
theorem onIncomingMessage_reply_fetch_witness :
    chatClient.m_data.getChat replyMessage.chat_id_ =
      some ⟨121, .chatTypePrivate 21, some .chatListMain, "Ann Lee"⟩ ∧
    replyMessage.reply_to_message_id_ ≠ 0 ∧
    (chatClient.m_data.saveMessage replyMessage).findMessage
      replyMessage.reply_to_message_id_ = none ∧
    (chatClient.onIncomingMessage sampleEnv (some replyMessage)).state.trace =
      [Event.sendQuery 1 (.viewMessages 121 [501] true) none,
        Event.sendQueryWithTimeout 2 (.getMessage 121 500) (some .findMessageResponse) 1] ∧
    ((chatClient.onIncomingMessage sampleEnv (some replyMessage)).state.findMessageResponse
      sampleEnv 2 none).state.trace =
      [Event.sendQuery 1 (.viewMessages 121 [501] true) none,
        Event.sendQueryWithTimeout 2 (.getMessage 121 500) (some .findMessageResponse) 1,
        Event.showMessageText 121 ⟨"id21", 1600000000, false, 500, ""⟩ (some "hello") none
          .noFlags] :=
  ⟨by decide, by decide, by decide,
    (onIncomingMessage_reply_fetch sampleEnv chatClient replyMessage
      ⟨121, .chatTypePrivate 21, some .chatListMain, "Ann Lee"⟩
      (by decide) (by decide) (by decide)).2.1,
    congrArg (fun r => r.state.trace)
      ((onIncomingMessage_reply_fetch sampleEnv chatClient replyMessage
        ⟨121, .chatTypePrivate 21, some .chatListMain, "Ann Lee"⟩
        (by decide) (by decide) (by decide)).2.2.2.2
        (chatClient.onIncomingMessage sampleEnv (some replyMessage)).state none
        ⟨121, .chatTypePrivate 21, some .chatListMain, "Ann Lee"⟩ (by decide) (by decide))⟩

/-- C20. For a message id and two updates for it, each send-succeeded or send-failed in
any combination: both are handled to completion; the first removes the entry of the id
from the temp-file map and deletes the recorded file once if a path was recorded (an entry
with a non-empty path), and makes no outward call otherwise; the second finds no entry and
makes no outward call; so the file is deleted at most once, and nothing is deleted when
there is no entry. -/
theorem removeTempFile_twice (env : Env) (s : PurpleTdClient) (messageId : Int)
    (failedFirst failedSecond : Bool) :
    (processUpdate env s (if failedFirst then .updateMessageSendFailed messageId
      else .updateMessageSendSucceeded messageId)).completed = true ∧
    (processUpdate env s (if failedFirst then .updateMessageSendFailed messageId
      else .updateMessageSendSucceeded messageId)).state.trace = s.trace ++
      (match s.m_data.tempFileUploads.find? (fun e => e.1 == messageId) with
       | some e => if e.2 ≠ "" then [Event.remove (c_str e.2)] else []
       | none => []) ∧
    (processUpdate env s (if failedFirst then .updateMessageSendFailed messageId
      else .updateMessageSendSucceeded messageId)).state.m_data.tempFileUploads.find?
        (fun e => e.1 == messageId) = none ∧
    (processUpdate env
      (processUpdate env s (if failedFirst then .updateMessageSendFailed messageId
        else .updateMessageSendSucceeded messageId)).state
      (if failedSecond then .updateMessageSendFailed messageId
        else .updateMessageSendSucceeded messageId)).completed = true ∧
    (processUpdate env
      (processUpdate env s (if failedFirst then .updateMessageSendFailed messageId
        else .updateMessageSendSucceeded messageId)).state
      (if failedSecond then .updateMessageSendFailed messageId
        else .updateMessageSendSucceeded messageId)).state.trace =
      (processUpdate env s (if failedFirst then .updateMessageSendFailed messageId
        else .updateMessageSendSucceeded messageId)).state.trace := by
  have hfirst : ∀ b : Bool, processUpdate env s (if b then .updateMessageSendFailed messageId
      else .updateMessageSendSucceeded messageId) = .ok (s.removeTempFile messageId) := by
    intro b
    cases b <;> rfl
  have hsecond : ∀ (t : PurpleTdClient) (b : Bool),
      processUpdate env t (if b then .updateMessageSendFailed messageId
        else .updateMessageSendSucceeded messageId) = .ok (t.removeTempFile messageId) := by
    intro t b
    cases b <;> rfl
  have hgone : (s.removeTempFile messageId).m_data.tempFileUploads.find?
      (fun e => e.1 == messageId) = none := by
    have h : (s.removeTempFile messageId).m_data.tempFileUploads =
        s.m_data.tempFileUploads.filter (fun e => e.1 != messageId) := by
      unfold removeTempFile
      simp only [TdAccountData.extractTempFileUpload]
      split <;> rfl
    rw [h, List.find?_filter, List.find?_eq_none]
    intro e _
    by_cases he : e.1 = messageId <;> simp [he]
  rw [hfirst, hsecond]
  refine ⟨rfl, ?_, hgone, rfl, ?_⟩
  · simp only [Result.state, removeTempFile, TdAccountData.extractTempFileUpload, emit]
    cases s.m_data.tempFileUploads.find? (fun e => e.1 == messageId) with
    | none => simp
    | some e => by_cases hp : e.2 = "" <;> simp [hp]
  · simp only [Result.state]
    show ((s.removeTempFile messageId).removeTempFile messageId).trace = _
    generalize s.removeTempFile messageId = t at hgone
    simp [removeTempFile, TdAccountData.extractTempFileUpload, hgone]

theorem selectPhotoSize_eq (photo : td_api.messagePhoto) :
    selectPhotoSize photo =
      match (match photo.photo_ with
             | some ph => ph.sizes_.foldl selectPhotoSizeStep none
             | none => none) with
      | some sel => sel.photo_
      | none => none := rfl

theorem selectPhotoSize_fold (l : List (Option td_api.photoSize)) :
    ∀ init : Option td_api.photoSize,
      (∀ s0, init = some s0 → s0.photo_.isSome = true) →
      (l.foldl selectPhotoSizeStep init = none ↔
        init = none ∧ ∀ sz, some sz ∈ l → sz.photo_ = none) ∧
      (∀ sel, l.foldl selectPhotoSizeStep init = some sel →
        sel.photo_.isSome = true ∧ (some sel ∈ l ∨ init = some sel) ∧
        (∀ sz, some sz ∈ l → sz.photo_.isSome = true → sz.width_ ≤ sel.width_) ∧
        (∀ s0, init = some s0 → s0.width_ ≤ sel.width_)) := by
  induction l with
  | nil =>
    intro init hinit
    refine ⟨by simp, ?_⟩
    intro sel hsel
    simp only [List.foldl_nil] at hsel
    refine ⟨hinit sel hsel, Or.inr hsel, by simp, ?_⟩
    intro s0 h0
    rw [hsel] at h0
    cases h0
    exact le_refl _
  | cons a l ih =>
    intro init hinit
    rw [List.foldl_cons]
    have hstep : ∀ s0, selectPhotoSizeStep init a = some s0 → s0.photo_.isSome = true := by
      intro s0 h0
      unfold selectPhotoSizeStep at h0
      cases a with
      | none => exact hinit s0 h0
      | some ns =>
        simp only at h0
        split at h0
        · rename_i hc
          cases h0
          simp only [Bool.and_eq_true] at hc
          exact hc.1
        · exact hinit s0 h0
    obtain ⟨ih1, ih2⟩ := ih (selectPhotoSizeStep init a) hstep
    constructor
    · rw [ih1]
      constructor
      · rintro ⟨h1, h2⟩
        cases a with
        | none =>
          refine ⟨h1, ?_⟩
          intro sz hsz
          simp only [List.mem_cons] at hsz
          rcases hsz with hsz | hsz
          · cases hsz
          · exact h2 sz hsz
        | some ns =>
          unfold selectPhotoSizeStep at h1
          simp only at h1
          split at h1
          · cases h1
          · rename_i hc
            subst h1
            simp only [Bool.and_true, Bool.not_eq_true, Option.not_isSome,
              Option.isNone_iff_eq_none] at hc
            refine ⟨rfl, ?_⟩
            intro sz hsz
            simp only [List.mem_cons] at hsz
            rcases hsz with hsz | hsz
            · cases hsz
              simpa using hc
            · exact h2 sz hsz
      · rintro ⟨h1, h2⟩
        subst h1
        have ha : selectPhotoSizeStep none a = none := by
          cases a with
          | none => rfl
          | some ns =>
            have := h2 ns (List.mem_cons_self _ _)
            simp [selectPhotoSizeStep, this]
        exact ⟨ha, fun sz hsz => h2 sz (List.mem_cons_of_mem _ hsz)⟩
    · intro sel hsel
      obtain ⟨hp, hmem, hmax, hinit'⟩ := ih2 sel hsel
      have hcase : (selectPhotoSizeStep init a = init ∧
            ∀ ns, a = some ns → ns.photo_.isSome = true →
              ∃ s0, init = some s0 ∧ ns.width_ ≤ s0.width_) ∨
          (∃ ns, a = some ns ∧ selectPhotoSizeStep init a = some ns ∧
            ∀ s0, init = some s0 → s0.width_ ≤ ns.width_) := by
        cases a with
        | none => exact Or.inl ⟨rfl, fun ns h => by cases h⟩
        | some ns =>
          unfold selectPhotoSizeStep
          simp only
          split
          · rename_i hc
            right
            refine ⟨ns, rfl, rfl, ?_⟩
            intro s0 h0
            subst h0
            simp only [Bool.and_eq_true, decide_eq_true_eq] at hc
            exact le_of_lt hc.2
          · rename_i hc
            left
            refine ⟨rfl, ?_⟩
            intro ns' hns' hph
            cases hns'
            cases init with
            | none => simp [hph] at hc
            | some s0 =>
              refine ⟨s0, rfl, ?_⟩
              simp only [hph, Bool.true_and, decide_eq_true_eq, not_lt] at hc
              exact hc
      refine ⟨hp, ?_, ?_, ?_⟩
      · rcases hmem with hmem | hmem
        · exact Or.inl (List.mem_cons_of_mem _ hmem)
        · rcases hcase with ⟨he, _⟩ | ⟨ns, ha, he, _⟩
          · exact Or.inr (he.symm.trans hmem)
          · rw [he] at hmem
            cases hmem
            exact Or.inl (ha ▸ List.mem_cons_self _ _)
      · intro sz hsz hph
        simp only [List.mem_cons] at hsz
        rcases hsz with hsz | hsz
        · rcases hcase with ⟨he, hle⟩ | ⟨ns, ha, he, _⟩
          · obtain ⟨s0, h0, hw⟩ := hle sz hsz.symm hph
            exact le_trans hw (hinit' s0 (he.trans h0))
          · rw [ha] at hsz
            cases hsz
            exact hinit' sz he
        · exact hmax sz hsz hph
      · intro s0 h0
        rcases hcase with ⟨he, _⟩ | ⟨ns, _, he, hle⟩
        · exact hinit' s0 (he.trans h0)
        · exact le_trans (hle s0 h0) (hinit' ns he)

/-- C21. When `selectPhotoSize` returns a file, it is the file of a size of the photo
whose width is at least the width of every size of the photo that has a file; and it
returns no file if and only if the photo is absent or none of its sizes has a file. -/
theorem selectPhotoSize_widest (photo : td_api.messagePhoto) :
    (∀ f, selectPhotoSize photo = some f →
      ∃ ph sz, photo.photo_ = some ph ∧ some sz ∈ ph.sizes_ ∧ sz.photo_ = some f ∧
        ∀ other, some other ∈ ph.sizes_ → other.photo_.isSome = true →
          other.width_ ≤ sz.width_) ∧
    (selectPhotoSize photo = none ↔
      photo.photo_ = none ∨
        ∃ ph, photo.photo_ = some ph ∧ ∀ sz, some sz ∈ ph.sizes_ → sz.photo_ = none) := by
  rw [selectPhotoSize_eq]
  cases hph : photo.photo_ with
  | none => simp
  | some ph =>
    obtain ⟨h1, h2⟩ := selectPhotoSize_fold ph.sizes_ none (by simp)
    simp only
    cases hsel : ph.sizes_.foldl selectPhotoSizeStep none with
    | none =>
      refine ⟨by simp, ?_⟩
      simp only [true_iff]
      exact Or.inr ⟨ph, rfl, (h1.1 hsel).2⟩
    | some sel =>
      obtain ⟨hp, hmem, hmax, _⟩ := h2 sel hsel
      constructor
      · intro f hf
        simp only at hf
        refine ⟨ph, sel, rfl, ?_, hf, hmax⟩
        rcases hmem with hmem | hmem
        · exact hmem
        · cases hmem
      · simp only
        constructor
        · intro hnone
          rw [hnone] at hp
          cases hp
        · rintro (h | ⟨ph', hph', hall⟩)
          · cases h
          · cases hph'
            have := (h1.2 ⟨rfl, hall⟩)
            rw [hsel] at this
            cases this

/-- C21, run on a photo whose sizes with a file have the widths 90, 800 and 800: the file
of the first size of width 800 is returned. -/
theorem selectPhotoSize_widest_witness :
    selectPhotoSize samplePhoto = some ⟨32, some ⟨"/tmp/photo.jpg", true⟩⟩ ∧
    ∃ ph sz, samplePhoto.photo_ = some ph ∧ some sz ∈ ph.sizes_ ∧
      sz.photo_ = some ⟨32, some ⟨"/tmp/photo.jpg", true⟩⟩ ∧
      ∀ other, some other ∈ ph.sizes_ → other.photo_.isSome = true →
        other.width_ ≤ sz.width_ :=
  ⟨by decide,
    (selectPhotoSize_widest samplePhoto).1 ⟨32, some ⟨"/tmp/photo.jpg", true⟩⟩ (by decide)⟩

theorem startsNoDownload_refl (s : PurpleTdClient) : StartsNoDownload s s :=
  ⟨rfl, rfl, rfl⟩

theorem startsNoDownload_showDownloadedInlineFile (s : PurpleTdClient) (chatId : Int)
    (message : TgMessageInfo) (filePath label : String) :
    StartsNoDownload s (s.showDownloadedInlineFile chatId message filePath label).state := by
  unfold showDownloadedInlineFile
  repeat' split
  all_goals simp [StartsNoDownload, Result.state, emit, queriesOf]

theorem startsNoDownload_showDownloadedImage (env : Env) (s : PurpleTdClient) (chatId : Int)
    (message : TgMessageInfo) (filePath : String) (caption : Option String) :
    StartsNoDownload s (s.showDownloadedImage env chatId message filePath caption).state := by
  unfold showDownloadedImage
  repeat' split
  all_goals simp [StartsNoDownload, Result.state, emit, queriesOf]

theorem showDownloadedImage_no_plain_notice (env : Env) (s : PurpleTdClient) (chatId : Int)
    (message : TgMessageInfo) (filePath : String) (caption : Option String) :
    ∃ evs, (s.showDownloadedImage env chatId message filePath caption).state.trace =
        s.trace ++ evs ∧
      ∀ e ∈ evs, (∃ id, e = Event.purple_imgstore_add_with_id id) ∨
        ∃ cid text notice, e = Event.showMessageText cid message text notice
          .PURPLE_MESSAGE_IMAGES := by
  unfold showDownloadedImage
  split
  · exact ⟨[], (List.append_nil _).symm, by simp⟩
  · simp only
    split
    · refine ⟨[_] ++ [_], List.append_assoc _ _ _, ?_⟩
      intro e he
      simp only [List.singleton_append, List.mem_cons, List.mem_singleton, List.not_mem_nil,
        or_false] at he
      rcases he with he | he
      · exact Or.inl ⟨_, he⟩
      · exact Or.inr ⟨_, _, _, he⟩
    · split
      · refine ⟨[_], rfl, ?_⟩
        intro e he
        simp only [List.mem_singleton] at he
        exact Or.inr ⟨_, _, _, he⟩
      · split
        · exact ⟨[], (List.append_nil _).symm, by simp⟩
        · refine ⟨[_], rfl, ?_⟩
          intro e he
          simp only [List.mem_singleton] at he
          exact Or.inr ⟨_, _, _, he⟩

theorem string_append_ne_empty_left (a b : String) (h : a ≠ "") : a ++ b ≠ "" := by
  intro hc
  apply h
  have h1 := congrArg String.data hc
  simp only [String.data_append] at h1
  apply String.ext
  exact (List.append_eq_nil.mp h1).1

theorem imgSrcTag_ne_empty (filePath : String) :
    "<img src=\"file://" ++ filePath ++ "\">" ≠ "" := by
  rw [String.append_assoc]
  exact string_append_ne_empty_left _ _ (by decide)

theorem imgIdTag_ne_empty (id : Int) : "\n<img id=\"" ++ toString id ++ "\">" ≠ "" := by
  rw [String.append_assoc]
  exact string_append_ne_empty_left _ _ (by decide)

theorem imageTextWithCaption_ne_empty (tag : String) (caption : Option String)
    (h : tag ≠ "") : imageTextWithCaption tag caption ≠ "" := by
  unfold imageTextWithCaption
  split
  · split
    · rw [String.append_assoc]
      exact string_append_ne_empty_left _ _ h
    · exact h
  · exact h

theorem showDownloadedImage_img (env : Env) (s : PurpleTdClient) (chatId : Int)
    (message : TgMessageInfo) (filePath : String) (caption : Option String)
    (current : td_api.chat) (hchat : s.m_data.getChat chatId = some current) :
    (env.g_file_get_contents filePath = true →
      s.showDownloadedImage env chatId message filePath caption =
        .ok ((s.emit (.purple_imgstore_add_with_id
          (env.purple_imgstore_add_with_id filePath))).emit
          (.showMessageText current.id_ message
            (some (imageTextWithCaption
              ("\n<img id=\"" ++ toString (env.purple_imgstore_add_with_id filePath) ++ "\">")
              caption)) none .PURPLE_MESSAGE_IMAGES))) ∧
    (env.g_file_get_contents filePath = false → '"' ∉ filePath.data →
      s.showDownloadedImage env chatId message filePath caption =
        .ok (s.emit (.showMessageText current.id_ message
          (some (imageTextWithCaption ("<img src=\"file://" ++ filePath ++ "\">") caption))
          none .PURPLE_MESSAGE_IMAGES))) := by
  constructor
  · intro hread
    unfold showDownloadedImage
    simp only [hchat, hread, if_true]
    have htag := imgIdTag_ne_empty (env.purple_imgstore_add_with_id filePath)
    have hne := imageTextWithCaption_ne_empty _ caption htag
    cases caption with
    | none => simp [imageTextWithCaption, htag]
    | some c =>
      by_cases hc : c_str c = ""
      · simp [imageTextWithCaption, hc, htag]
      · simp only [imageTextWithCaption, hc, ne_eq, not_false_eq_true, if_true] at hne
        simp [imageTextWithCaption, hc, htag, hne]
  · intro hread hq
    have hq' : filePath.data.contains '"' = false := by
      simpa using hq
    unfold showDownloadedImage
    simp only [hchat, hread, hq']
    simp only [Bool.false_eq_true, if_false, Bool.not_false, if_true]
    have htag := imgSrcTag_ne_empty filePath
    have hne := imageTextWithCaption_ne_empty _ caption htag
    cases caption with
    | none => simp [imageTextWithCaption, htag]
    | some c =>
      by_cases hc : c_str c = ""
      · simp [imageTextWithCaption, hc, htag]
      · simp only [imageTextWithCaption, hc, ne_eq, not_false_eq_true, if_true] at hne
        simp [imageTextWithCaption, hc, htag, hne]

/-- C22. For a photo message whose selected file is locally complete, `showPhotoMessage`
goes straight to rendering: its result is that of `showDownloadedImage` for the local path
of the file and the caption, on the unchanged state. No query is sent, no request id is
handed out and the registry is unchanged; the only outward calls are those of rendering
(the image store and `showMessageText` with the image flag), so no "Downloading image"
notice; and when the chat is in the Mirror the image tag with the caption is shown (for a
file that can be read, or else a path without a double quote). -/
theorem showPhotoMessage_complete (env : Env) (s : PurpleTdClient) (chat : td_api.chat)
    (message : TgMessageInfo) (photo : td_api.messagePhoto) (f : td_api.file)
    (hsel : selectPhotoSize photo = some f) (hdone : isDownloadingCompleted f = true) :
    s.showPhotoMessage env chat message photo =
      s.showDownloadedImage env chat.id_ message (localPath f)
        (photo.caption_.map (fun c => c.text_)) ∧
    StartsNoDownload s (s.showPhotoMessage env chat message photo).state ∧
    (∃ evs, (s.showPhotoMessage env chat message photo).state.trace = s.trace ++ evs ∧
      ∀ e ∈ evs, (∃ id, e = Event.purple_imgstore_add_with_id id) ∨
        ∃ cid text notice, e = Event.showMessageText cid message text notice
          .PURPLE_MESSAGE_IMAGES) ∧
    (∀ current, s.m_data.getChat chat.id_ = some current →
      (env.g_file_get_contents (localPath f) = true →
        s.showPhotoMessage env chat message photo =
          .ok ((s.emit (.purple_imgstore_add_with_id
            (env.purple_imgstore_add_with_id (localPath f)))).emit
            (.showMessageText current.id_ message
              (some (imageTextWithCaption
                ("\n<img id=\"" ++
                  toString (env.purple_imgstore_add_with_id (localPath f)) ++ "\">")
                (photo.caption_.map (fun c => c.text_)))) none .PURPLE_MESSAGE_IMAGES))) ∧
      (env.g_file_get_contents (localPath f) = false → '"' ∉ (localPath f).data →
        s.showPhotoMessage env chat message photo =
          .ok (s.emit (.showMessageText current.id_ message
            (some (imageTextWithCaption ("<img src=\"file://" ++ localPath f ++ "\">")
              (photo.caption_.map (fun c => c.text_)))) none .PURPLE_MESSAGE_IMAGES)))) := by
  have h : s.showPhotoMessage env chat message photo =
      s.showDownloadedImage env chat.id_ message (localPath f)
        (photo.caption_.map (fun c => c.text_)) := by
    simp [showPhotoMessage, hsel, hdone, showImage]
  rw [h]
  refine ⟨rfl, startsNoDownload_showDownloadedImage _ _ _ _ _ _,
    showDownloadedImage_no_plain_notice _ _ _ _ _ _, ?_⟩
  intro current hcur
  exact showDownloadedImage_img env s chat.id_ message (localPath f) _ current hcur

/-- C22, run on the photo message of chat 121 whose widest file is complete. -/
theorem showPhotoMessage_complete_witness :
    selectPhotoSize samplePhoto = some ⟨32, some ⟨"/tmp/photo.jpg", true⟩⟩ ∧
    isDownloadingCompleted ⟨32, some ⟨"/tmp/photo.jpg", true⟩⟩ = true ∧
    (photoClient.showPhotoMessage sampleEnv
      ⟨121, .chatTypePrivate 21, some .chatListMain, "Ann Lee"⟩
      ⟨"id21", 1600000100, false, 0, ""⟩ samplePhoto).state.trace =
      [Event.showMessageText 121 ⟨"id21", 1600000100, false, 0, ""⟩
        (some "<img src=\"file:///tmp/photo.jpg\">\nthe caption") none
        .PURPLE_MESSAGE_IMAGES] :=
  ⟨by decide, by decide,
    congrArg (fun r => r.state.trace)
      (((showPhotoMessage_complete sampleEnv photoClient
        ⟨121, .chatTypePrivate 21, some .chatListMain, "Ann Lee"⟩
        ⟨"id21", 1600000100, false, 0, ""⟩ samplePhoto ⟨32, some ⟨"/tmp/photo.jpg", true⟩⟩
        (by decide) (by decide)).2.2.2
        ⟨121, .chatTypePrivate 21, some .chatListMain, "Ann Lee"⟩ (by decide)).2
        (by decide) (by decide))⟩

theorem requestDownload_registers (s : PurpleTdClient) (fileId chatId : Int)
    (message : TgMessageInfo) (thumbnail : Option td_api.file) (cb : ResponseCb) :
    (s.requestDownload fileId chatId message thumbnail cb).trace = s.trace ++
      [Event.sendQuery s.m_transceiver.nextRequestId
        (.downloadFile fileId FILE_DOWNLOAD_PRIORITY 0 0 true) (some cb)] ∧
    (s.requestDownload fileId chatId message thumbnail cb).m_data.lookupPendingRequest
      s.m_transceiver.nextRequestId =
      some (.ofDownloadRequest ⟨chatId, message, thumbnail⟩) ∧
    (∀ id, id ≠ s.m_transceiver.nextRequestId →
      (s.requestDownload fileId chatId message thumbnail cb).m_data.lookupPendingRequest id =
        s.m_data.lookupPendingRequest id) := by
  refine ⟨rfl, ?_, ?_⟩
  · simp only [requestDownload, sendQuery]
    rw [lookup_addPendingRequest, if_pos rfl]
  · intro id hid
    simp only [requestDownload, sendQuery]
    rw [lookup_addPendingRequest, if_neg hid]

theorem startsNoDownload_showDownloadedSticker (s : PurpleTdClient) (chatId : Int)
    (message : TgMessageInfo) (filePath : String) (thumbnail : Option td_api.file)
    (h : thumbnail = none ∨ isTgs filePath = false ∨
      ∃ t, thumbnail = some t ∧ isDownloadingCompleted t = true) :
    StartsNoDownload s (s.showDownloadedSticker chatId message filePath thumbnail).state := by
  unfold showDownloadedSticker
  split
  · rename_i thumb htgs
    split
    · exact startsNoDownload_showDownloadedInlineFile _ _ _ _ _
    · rename_i hnc
      rcases h with h | h | ⟨t, ht, hc⟩
      · cases h
      · rw [h] at htgs
        cases htgs
      · cases ht
        exact absurd hc hnc
  · exact startsNoDownload_showDownloadedInlineFile _ _ _ _ _

/-- C23. At each place that starts a download, the `downloadFile` query is sent only for
a file that is not locally complete, through `requestDownload`; for a complete file (in
`showDownloadedSticker` also when there is no thumbnail or the sticker is not of the
animated format) no query is sent and nothing is registered. `requestDownload` sends one
`downloadFile` query and registers one DownloadRequest under the request id returned for
it, leaving every other entry of the registry as it was. -/
theorem download_only_when_incomplete (env : Env) (s : PurpleTdClient) (chat : td_api.chat)
    (chatId : Int) (message : TgMessageInfo) (file : td_api.file) (caption : Option String)
    (filePath : String) (thumbnail : Option td_api.file) (sticker : td_api.sticker)
    (stickerFile : td_api.file) (cb : ResponseCb) :
    ((isDownloadingCompleted file = true →
        StartsNoDownload s (s.showImage env chat message file caption).state) ∧
      (isDownloadingCompleted file = false →
        s.showImage env chat message file caption =
          .ok (s.requestDownload file.id_ chat.id_ message none .imageDownloadResponse))) ∧
    ((isDownloadingCompleted file = true →
        StartsNoDownload s (s.showInlineFile chat message file).state) ∧
      (isDownloadingCompleted file = false →
        s.showInlineFile chat message file =
          .ok (s.requestDownload file.id_ chat.id_ message none .fileDownloadResponse))) ∧
    ((thumbnail = none ∨ isTgs filePath = false ∨
          (∃ t, thumbnail = some t ∧ isDownloadingCompleted t = true) →
        StartsNoDownload s (s.showDownloadedSticker chatId message filePath thumbnail).state) ∧
      (∀ t, thumbnail = some t → isTgs filePath = true → isDownloadingCompleted t = false →
        s.showDownloadedSticker chatId message filePath thumbnail =
          .ok (s.requestDownload t.id_ chatId message none .stickerDownloadResponse))) ∧
    ((sticker.sticker_ = some stickerFile → isDownloadingCompleted stickerFile = false →
        (s.showSticker chat message ⟨some sticker⟩).2 =
          .ok (s.requestDownload stickerFile.id_ chat.id_ message (stickerThumbnailFile sticker)
            .stickerDownloadResponse)) ∧
      (sticker.sticker_ = some stickerFile → isDownloadingCompleted stickerFile = true →
        (s.showSticker chat message ⟨some sticker⟩).2 =
          s.showDownloadedSticker chat.id_ message (localPath stickerFile)
            (stickerThumbnailFile sticker)) ∧
      (sticker.sticker_ = none → (s.showSticker chat message ⟨some sticker⟩).2 = .ok s) ∧
      (s.showSticker chat message ⟨none⟩).2 = .ok s) ∧
    ((s.requestDownload file.id_ chatId message thumbnail cb).trace = s.trace ++
        [Event.sendQuery s.m_transceiver.nextRequestId
          (.downloadFile file.id_ FILE_DOWNLOAD_PRIORITY 0 0 true) (some cb)] ∧
      (s.requestDownload file.id_ chatId message thumbnail cb).m_data.lookupPendingRequest
        s.m_transceiver.nextRequestId =
        some (.ofDownloadRequest ⟨chatId, message, thumbnail⟩) ∧
      (∀ id, id ≠ s.m_transceiver.nextRequestId →
        (s.requestDownload file.id_ chatId message thumbnail cb).m_data.lookupPendingRequest id =
          s.m_data.lookupPendingRequest id)) := by
  refine ⟨⟨?_, ?_⟩, ⟨?_, ?_⟩, ⟨?_, ?_⟩, ⟨?_, ?_, ?_, rfl⟩, ?_⟩
  · intro h
    simp only [showImage, h, if_true]
    exact startsNoDownload_showDownloadedImage _ _ _ _ _ _
  · intro h
    simp [showImage, h]
  · intro h
    simp only [showInlineFile, h, if_true]
    exact startsNoDownload_showDownloadedInlineFile _ _ _ _ _
  · intro h
    simp [showInlineFile, h]
  · exact startsNoDownload_showDownloadedSticker s chatId message filePath thumbnail
  · intro t ht htgs hc
    simp [showDownloadedSticker, ht, htgs, hc]
  · intro hs hc
    cases hth : sticker.thumbnail_ <;> simp [showSticker, hs, hc, stickerThumbnailFile, hth]
  · intro hs hc
    cases hth : sticker.thumbnail_ <;> simp [showSticker, hs, hc, stickerThumbnailFile, hth]
  · intro hs
    simp [showSticker, hs]
  · exact requestDownload_registers s file.id_ chatId message thumbnail cb

/-- C23, run on the sample sticker, whose file is not complete: one download is started
and registered under request id 1. -/
theorem download_only_when_incomplete_witness :
    isDownloadingCompleted ⟨41, none⟩ = false ∧
    ((chatClient.showSticker ⟨121, .chatTypePrivate 21, some .chatListMain, "Ann Lee"⟩
      ⟨"id21", 1600000100, false, 0, ""⟩ sampleSticker).2.state.trace =
      [Event.sendQuery 1 (.downloadFile 41 1 0 0 true) (some .stickerDownloadResponse)]) ∧
    (chatClient.showSticker ⟨121, .chatTypePrivate 21, some .chatListMain, "Ann Lee"⟩
      ⟨"id21", 1600000100, false, 0, ""⟩ sampleSticker).2.state.m_data.lookupPendingRequest 1 =
      some (.ofDownloadRequest ⟨121, ⟨"id21", 1600000100, false, 0, ""⟩, some ⟨42, none⟩⟩) :=
  ⟨by decide,
    congrArg (fun r => r.state.trace)
      ((download_only_when_incomplete sampleEnv chatClient
        ⟨121, .chatTypePrivate 21, some .chatListMain, "Ann Lee"⟩ 121
        ⟨"id21", 1600000100, false, 0, ""⟩ ⟨41, none⟩ none "" none
        ⟨some ⟨41, none⟩, some ⟨some ⟨42, none⟩, 128, 128⟩⟩ ⟨41, none⟩
        .stickerDownloadResponse).2.2.2.1.1 rfl (by decide)),
    congrArg (fun r => r.state.m_data.lookupPendingRequest 1)
      ((download_only_when_incomplete sampleEnv chatClient
        ⟨121, .chatTypePrivate 21, some .chatListMain, "Ann Lee"⟩ 121
        ⟨"id21", 1600000100, false, 0, ""⟩ ⟨41, none⟩ none "" none
        ⟨some ⟨41, none⟩, some ⟨some ⟨42, none⟩, 128, 128⟩⟩ ⟨41, none⟩
        .stickerDownloadResponse).2.2.2.1.1 rfl (by decide))⟩

theorem exists_last_occurrence (c : Char) (l : List Char) (h : c ∈ l) :
    ∃ pre suf, l = pre ++ c :: suf ∧ c ∉ suf := by
  induction l with
  | nil => cases h
  | cons y r ih =>
    by_cases hr : c ∈ r
    · obtain ⟨pre, suf, hp, hn⟩ := ih hr
      exact ⟨y :: pre, suf, by simp [hp], hn⟩
    · have hy : y = c := by
        simp only [List.mem_cons] at h
        rcases h with h | h
        · exact h.symm
        · exact absurd h hr
      exact ⟨[], r, by simp [hy], hr⟩

theorem afterLast_eq_none (c : Char) (l : List Char) : afterLast c l = none ↔ c ∉ l := by
  induction l with
  | nil => simp [afterLast]
  | cons x rest ih =>
    unfold afterLast
    cases hrest : afterLast c rest with
    | some suf =>
      have : c ∈ rest := by
        by_contra hc
        rw [ih.2 hc] at hrest
        cases hrest
      simp [this]
    | none =>
      have hc := ih.1 hrest
      by_cases hx : x = c
      · simp [hx]
      · have hx' : ¬ c = x := fun h => hx h.symm
        simp [hx, hx', hc]

theorem afterLast_append (c : Char) (pre suffix : List Char) (h : c ∉ suffix) :
    afterLast c (pre ++ c :: suffix) = some suffix := by
  induction pre with
  | nil =>
    simp only [List.nil_append, afterLast]
    rw [(afterLast_eq_none c suffix).2 h]
    simp
  | cons y pre ih =>
    show afterLast c (y :: (pre ++ c :: suffix)) = some suffix
    unfold afterLast
    rw [ih]

theorem afterLast_eq_some (c : Char) (l suffix : List Char) :
    afterLast c l = some suffix ↔ ∃ pre, l = pre ++ c :: suffix ∧ c ∉ suffix := by
  constructor
  · intro h
    have hmem : c ∈ l := by
      by_contra hc
      rw [(afterLast_eq_none c l).2 hc] at h
      cases h
    obtain ⟨pre, suf, hp, hn⟩ := exists_last_occurrence c l hmem
    have := afterLast_append c pre suf hn
    rw [← hp, h] at this
    cases this
    exact ⟨pre, hp, hn⟩
  · rintro ⟨pre, hp, hn⟩
    rw [hp]
    exact afterLast_append c pre suffix hn

theorem c_str_of_no_nul (l : List Char) (h : ∀ ch ∈ l, ch ≠ '\x00') : c_str (String.mk l) =
    String.mk l := by
  unfold c_str
  congr 1
  rw [List.takeWhile_eq_self_iff]
  intro ch hch
  simpa using h ch hch

theorem isTgs_iff (path : String) (hnul : ∀ ch ∈ path.data, ch ≠ '\x00') :
    isTgs path = true ↔ ∃ pre, path.data = pre ++ '.' :: "tgs".data := by
  unfold isTgs
  constructor
  · intro h
    cases hs : afterLast '.' path.data with
    | none => simp [hs] at h
    | some suffix =>
      obtain ⟨pre, hp, _⟩ := (afterLast_eq_some '.' path.data suffix).1 hs
      have hsn : ∀ ch ∈ suffix, ch ≠ '\x00' := by
        intro ch hch
        apply hnul
        rw [hp]
        simp [hch]
      simp only [hs, c_str_of_no_nul suffix hsn, beq_iff_eq] at h
      have hd := congrArg String.data h
      simp only at hd
      exact ⟨pre, by rw [hp, hd]⟩
  · rintro ⟨pre, hp⟩
    have hs : afterLast '.' path.data = some "tgs".data := by
      rw [hp]
      exact afterLast_append '.' pre _ (by decide)
    simp only [hs]
    decide

/-- C24. `showDownloadedSticker` turns to the thumbnail exactly when the sticker file is
of the animated format (`isTgs`) and a thumbnail is given: it then shows the local path of
the thumbnail if the thumbnail is complete, and else starts the download of the thumbnail;
in every other case it shows the sticker file itself. For a path without NUL character,
`isTgs` holds exactly when the path ends in a dot followed by "tgs", which is then its
part after the last dot. -/
theorem showDownloadedSticker_cases (s : PurpleTdClient) (chatId : Int)
    (message : TgMessageInfo) (filePath : String) (thumbnail : Option td_api.file) :
    (∀ t, isTgs filePath = true → thumbnail = some t → isDownloadingCompleted t = true →
      s.showDownloadedSticker chatId message filePath thumbnail =
        s.showDownloadedInlineFile chatId message (localPath t) "Sticker") ∧
    (∀ t, isTgs filePath = true → thumbnail = some t → isDownloadingCompleted t = false →
      s.showDownloadedSticker chatId message filePath thumbnail =
        .ok (s.requestDownload t.id_ chatId message none .stickerDownloadResponse)) ∧
    (isTgs filePath = false ∨ thumbnail = none →
      s.showDownloadedSticker chatId message filePath thumbnail =
        s.showDownloadedInlineFile chatId message filePath "Sticker") ∧
    ((∀ ch ∈ filePath.data, ch ≠ '\x00') →
      (isTgs filePath = true ↔ ∃ pre, filePath.data = pre ++ '.' :: "tgs".data)) := by
  refine ⟨?_, ?_, ?_, isTgs_iff filePath⟩
  · intro t htgs ht hc
    simp [showDownloadedSticker, htgs, ht, hc]
  · intro t htgs ht hc
    simp [showDownloadedSticker, htgs, ht, hc]
  · intro h
    unfold showDownloadedSticker
    split
    · rename_i thumb htgs
      rcases h with h | h
      · rw [h] at htgs
        cases htgs
      · cases h
    · rfl

/-- C24, run for an animated sticker with a complete thumbnail and for a sticker of
another format with the same thumbnail. -/
theorem showDownloadedSticker_cases_witness :
    isTgs "/tmp/sticker.tgs" = true ∧ isTgs "/tmp/sticker.webp" = false ∧
    (chatClient.showDownloadedSticker 121 ⟨"id21", 1600000100, false, 0, ""⟩ "/tmp/sticker.tgs"
      (some ⟨42, some ⟨"/tmp/thumb.jpg", true⟩⟩)).state.trace =
      [Event.showMessageText 121 ⟨"id21", 1600000100, false, 0, ""⟩
        (some "<a href=\"file:///tmp/thumb.jpg\">Sticker</a>") none .noFlags] ∧
    (chatClient.showDownloadedSticker 121 ⟨"id21", 1600000100, false, 0, ""⟩ "/tmp/sticker.webp"
      (some ⟨42, some ⟨"/tmp/thumb.jpg", true⟩⟩)).state.trace =
      [Event.showMessageText 121 ⟨"id21", 1600000100, false, 0, ""⟩
        (some "<a href=\"file:///tmp/sticker.webp\">Sticker</a>") none .noFlags] :=
  ⟨by decide, by decide,
    congrArg (fun r => r.state.trace)
      ((showDownloadedSticker_cases chatClient 121 ⟨"id21", 1600000100, false, 0, ""⟩
        "/tmp/sticker.tgs" (some ⟨42, some ⟨"/tmp/thumb.jpg", true⟩⟩)).1
        ⟨42, some ⟨"/tmp/thumb.jpg", true⟩⟩ (by decide) rfl (by decide)),
    congrArg (fun r => r.state.trace)
      ((showDownloadedSticker_cases chatClient 121 ⟨"id21", 1600000100, false, 0, ""⟩
        "/tmp/sticker.webp" (some ⟨42, some ⟨"/tmp/thumb.jpg", true⟩⟩)).2.2.1
        (Or.inl (by decide)))⟩

theorem foldl_remove_chat (l : List Nat) (s : PurpleTdClient) :
    l.foldl (fun acc chat => acc.emit (.purple_blist_remove_chat chat)) s =
      { s with trace := s.trace ++ l.map (fun chat => Event.purple_blist_remove_chat chat) } := by
  induction l generalizing s with
  | nil => simp
  | cons c l ih =>
    rw [List.foldl_cons, ih]
    simp [emit]

/-- C25. With a join request registered under the request id: on a response that is not
a chat (an error, another object, or none) the only outward call of
`joinChatByLinkResponse` is the error notice "Failed to join chat" with the text of
`getDisplayedError`, so no chat entry is removed; on a chat response its outward calls are
the removal of every chat entry found for the invite link of the request, and no error is
shown. In both cases the entry is taken and nothing else changes. -/
theorem joinChatByLinkResponse_cases (env : Env) (s : PurpleTdClient) (requestId : Nat)
    (request : GroupJoinRequest)
    (hreq : s.m_data.lookupPendingRequest requestId = some (.ofGroupJoinRequest request)) :
    (∀ object : Option td_api.Object, (∀ c, object ≠ some (.chat c)) →
      s.joinChatByLinkResponse env requestId object =
        { s with
          m_data := s.m_data.erasePendingRequest requestId
          trace := s.trace ++
            [Event.purple_notify_error true (tr "Failed to join chat")
              (formatMessage (tr "Failed to join chat: \x7b\x7d")
                [getDisplayedError object])] }) ∧
    (∀ c : td_api.chat,
      s.joinChatByLinkResponse env requestId (some (.chat c)) =
        { s with
          m_data := s.m_data.erasePendingRequest requestId
          trace := s.trace ++ (env.findChatsByInviteLink request.inviteLink).map
            (fun chat => Event.purple_blist_remove_chat chat) }) := by
  constructor
  · intro object hobj
    simp only [joinChatByLinkResponse, getPendingRequest_of_lookup_some _ _ _ _ hreq]
    rfl
  · intro c
    simp only [joinChatByLinkResponse, getPendingRequest_of_lookup_some _ _ _ _ hreq,
      PendingRequest.asGroupJoinRequest, foldl_remove_chat]

/-- C25, run on an error response and on a chat response for the join registered under
request id 1. -/
theorem joinChatByLinkResponse_cases_witness :
    joinClient.m_data.lookupPendingRequest 1 =
      some (.ofGroupJoinRequest ⟨"https://t.me/joinchat/abc"⟩) ∧
    (joinClient.joinChatByLinkResponse sampleEnv 1
      (some (.error 400 "INVITE_HASH_EXPIRED"))).trace = joinClient.trace ++
      [Event.purple_notify_error true "Failed to join chat"
        "Failed to join chat: code 400 (INVITE_HASH_EXPIRED)"] ∧
    (joinClient.joinChatByLinkResponse sampleEnv 1
      (some (.chat ⟨300, .chatTypeBasicGroup 30, some .chatListMain, "Group"⟩))).trace =
      joinClient.trace ++ [Event.purple_blist_remove_chat 1, Event.purple_blist_remove_chat 2] :=
  ⟨by decide,
    congrArg PurpleTdClient.trace
      ((joinChatByLinkResponse_cases sampleEnv joinClient 1 ⟨"https://t.me/joinchat/abc"⟩
        (by decide)).1 (some (.error 400 "INVITE_HASH_EXPIRED")) (by intro c h; cases h)),
    congrArg PurpleTdClient.trace
      ((joinChatByLinkResponse_cases sampleEnv joinClient 1 ⟨"https://t.me/joinchat/abc"⟩
        (by decide)).2 ⟨300, .chatTypeBasicGroup 30, some .chatListMain, "Group"⟩)⟩

/-- C26. `showSticker` starts at most one download. A `stickerDownloadResponse` for a
registered download starts at most one further download, namely that of the thumbnail its
request carries, and registers it without thumbnail; and a `stickerDownloadResponse` whose
request carries no thumbnail starts no download at all, whatever the response: it ends by
showing a file or nothing. So one sticker leads to at most two download queries. -/
theorem stickerDownloadResponse_chain (s : PurpleTdClient) (chat : td_api.chat)
    (message : TgMessageInfo) (stickerContent : td_api.messageSticker) (requestId : Nat)
    (object : Option td_api.Object) (request : DownloadRequest)
    (hreq : s.m_data.lookupPendingRequest requestId = some (.ofDownloadRequest request)) :
    (StartsNoDownload s (s.showSticker chat message stickerContent).2.state ∨
      ∃ fileId thumbnail, (s.showSticker chat message stickerContent).2 =
        .ok (s.requestDownload fileId chat.id_ message thumbnail .stickerDownloadResponse)) ∧
    (StartsNoDownload { s with m_data := s.m_data.erasePendingRequest requestId }
        (s.stickerDownloadResponse requestId object).state ∨
      ∃ t, request.thumbnail = some t ∧
        s.stickerDownloadResponse requestId object =
          .ok (({ s with m_data := s.m_data.erasePendingRequest requestId } :
            PurpleTdClient).requestDownload t.id_ request.chatId request.message none
              .stickerDownloadResponse)) ∧
    (request.thumbnail = none →
      StartsNoDownload { s with m_data := s.m_data.erasePendingRequest requestId }
        (s.stickerDownloadResponse requestId object).state ∧
      (s.stickerDownloadResponse requestId object =
          .ok { s with m_data := s.m_data.erasePendingRequest requestId } ∨
        s.stickerDownloadResponse requestId object =
          ({ s with m_data := s.m_data.erasePendingRequest requestId } :
            PurpleTdClient).showDownloadedInlineFile request.chatId request.message
              (getDownloadPath object) "Sticker")) := by
  have hsticker : ∀ (t : PurpleTdClient) (chatId : Int) (msg : TgMessageInfo) (path : String)
      (thumb : Option td_api.file),
      StartsNoDownload t (t.showDownloadedSticker chatId msg path thumb).state ∨
      ∃ th, thumb = some th ∧ t.showDownloadedSticker chatId msg path thumb =
        .ok (t.requestDownload th.id_ chatId msg none .stickerDownloadResponse) := by
    intro t chatId msg path thumb
    cases thumb with
    | none => exact Or.inl (startsNoDownload_showDownloadedSticker _ _ _ _ _ (Or.inl rfl))
    | some th =>
      cases htgs : isTgs path with
      | false =>
        exact Or.inl (startsNoDownload_showDownloadedSticker _ _ _ _ _ (Or.inr (Or.inl htgs)))
      | true =>
        cases hc : isDownloadingCompleted th with
        | true =>
          exact Or.inl (startsNoDownload_showDownloadedSticker _ _ _ _ _
            (Or.inr (Or.inr ⟨th, rfl, hc⟩)))
        | false =>
          exact Or.inr ⟨th, rfl, by simp [showDownloadedSticker, htgs, hc]⟩
  have hresp : s.stickerDownloadResponse requestId object =
      if getDownloadPath object ≠ "" then
        ({ s with m_data := s.m_data.erasePendingRequest requestId } :
          PurpleTdClient).showDownloadedSticker request.chatId request.message
            (getDownloadPath object) request.thumbnail
      else .ok { s with m_data := s.m_data.erasePendingRequest requestId } := by
    simp only [stickerDownloadResponse, getPendingRequest_of_lookup_some _ _ _ _ hreq,
      PendingRequest.asDownloadRequest]
  refine ⟨?_, ?_, ?_⟩
  · unfold showSticker
    split
    · exact Or.inl (startsNoDownload_refl s)
    · split
      · exact Or.inl (startsNoDownload_refl s)
      · simp only
        split
        · rcases hsticker s chat.id_ message _ _ with h | ⟨th, _, h⟩
          · exact Or.inl h
          · exact Or.inr ⟨_, _, h⟩
        · exact Or.inr ⟨_, _, rfl⟩
  · rw [hresp]
    split
    · rcases hsticker _ request.chatId request.message (getDownloadPath object)
        request.thumbnail with h | ⟨th, hth, h⟩
      · exact Or.inl h
      · exact Or.inr ⟨th, hth, h⟩
    · exact Or.inl (startsNoDownload_refl _)
  · intro hnone
    rw [hresp, hnone]
    split
    · refine ⟨startsNoDownload_showDownloadedSticker _ _ _ _ _ (Or.inl rfl), Or.inr ?_⟩
      simp [showDownloadedSticker]
    · exact ⟨startsNoDownload_refl _, Or.inl rfl⟩

/-- C26, run on the second response of the chain for the sample sticker: the request
under id 2 carries no thumbnail, and after the response the queries sent are still just
the two downloads, although the thumbnail file is itself of the animated format. -/
theorem stickerDownloadResponse_chain_witness :
    thumbnailClient.m_data.lookupPendingRequest 2 =
      some (.ofDownloadRequest ⟨121, ⟨"id21", 1600000100, false, 0, ""⟩, none⟩) ∧
    queriesOf (thumbnailClient.stickerDownloadResponse 2
      (some (.file ⟨42, some ⟨"/tmp/thumb.tgs", true⟩⟩))).state.trace =
      [.downloadFile 41 1 0 0 true, .downloadFile 42 1 0 0 true] :=
  ⟨by decide,
    ((stickerDownloadResponse_chain thumbnailClient
      ⟨121, .chatTypePrivate 21, some .chatListMain, "Ann Lee"⟩
      ⟨"id21", 1600000100, false, 0, ""⟩ sampleSticker 2
      (some (.file ⟨42, some ⟨"/tmp/thumb.tgs", true⟩⟩))
      ⟨121, ⟨"id21", 1600000100, false, 0, ""⟩, none⟩ (by decide)).2.2 rfl).1.1⟩

/-- C28. With no proxy configured, processing WaitTdlibParameters sends the queries
`disableProxy`, `getProxies` and `setTdlibParameters` and no `addProxy`, and leaves the
proxy members as they were. Then, with no proxy added, a successful getProxies response on
its own runs the removal: one `removeProxy` query for every non-null proxy of the returned
list, in list order. -/
theorem getProxiesResponse_no_proxy (env : Env) (s : PurpleTdClient) (requestId : Nat)
    (ps : td_api.proxies) (hnone : configuredProxyType s = .PURPLE_PROXY_NONE)
    (hadded : s.m_isProxyAdded = false) (hp : s.m_addedProxy = none) :
    queriesOf (s.processAuthorizationState env .authorizationStateWaitTdlibParameters).trace =
      queriesOf s.trace ++ [.disableProxy, .getProxies,
        .setTdlibParameters
          { database_directory_ := env.purple_user_dir ++ env.G_DIR_SEPARATOR_S ++
              env.configSubdir ++ env.G_DIR_SEPARATOR_S ++ s.m_account.username
            use_message_database_ := true
            use_secret_chats_ := true
            api_id_ := 94575
            api_hash_ := "a3406de8d171bb422bb6ddf3bbd800e2"
            system_language_code_ := "en"
            device_model_ := "Desktop"
            system_version_ := "Unknown"
            application_version_ := "1.0"
            enable_storage_optimizer_ := true }] ∧
    (s.processAuthorizationState env .authorizationStateWaitTdlibParameters).m_isProxyAdded =
      false ∧
    (s.processAuthorizationState env .authorizationStateWaitTdlibParameters).m_addedProxy =
      none ∧
    (s.getProxiesResponse requestId (some (.proxies ps))).completed = true ∧
    (s.getProxiesResponse requestId (some (.proxies ps))).state.trace = s.trace ++
      removeProxyEvents s.m_transceiver.nextRequestId
        ((ps.proxies_.filterMap (fun p => p)).map (fun p => p.id_)) ∧
    queriesOf (s.getProxiesResponse requestId (some (.proxies ps))).state.trace =
      queriesOf s.trace ++
        (ps.proxies_.filterMap (fun p => p)).map (fun p => td_api.Function.removeProxy p.id_) := by
  have hadd : ∀ t : PurpleTdClient, configuredProxyType t = .PURPLE_PROXY_NONE →
      t.addProxy env = (true, t) := by
    intro t ht
    unfold addProxy
    cases hinfo : t.m_account.proxyInfo with
    | none => simp
    | some p =>
      simp only [configuredProxyType, hinfo] at ht
      simp [ht]
  have hresp : s.getProxiesResponse requestId (some (.proxies ps)) =
      removeOldProxies { s with m_proxies := some ps } := by
    simp [getProxiesResponse, hadded]
  have hstale : staleProxyIds none ps =
      (ps.proxies_.filterMap (fun p => p)).map (fun p => p.id_) := by
    simp [staleProxyIds]
  have hwait : s.processAuthorizationState env .authorizationStateWaitTdlibParameters =
      (((s.sendQuery .disableProxy none).2.sendQuery .getProxies
        (some .getProxiesResponse)).2).sendTdlibParameters env := by
    simp only [processAuthorizationState]
    rw [hadd _ (show configuredProxyType (s.sendQuery .disableProxy none).2 = _ from hnone)]
    rfl
  rw [hwait, hresp, removeOldProxies_eq _ ps rfl]
  refine ⟨?_, hadded, hp, rfl, ?_, ?_⟩
  · simp [sendTdlibParameters, sendQuery, queriesOf]
  · simp only [Result.state, hp, hstale]
  · simp only [Result.state, hp, hstale, queriesOf_append, queriesOf_removeProxyEvents,
      List.map_map]
    rfl

/-- C28, run on a client with no proxy configured: after WaitTdlibParameters and a
getProxies response listing the proxies 3 and 9 (and a null entry), both are removed. -/
theorem getProxiesResponse_no_proxy_witness :
    configuredProxyType noProxyClient = .PURPLE_PROXY_NONE ∧
    noProxyClient.m_isProxyAdded = false ∧ noProxyClient.m_addedProxy = none ∧
    queriesOf (noProxyClient.getProxiesResponse 2
      (some (.proxies ⟨[some ⟨3, "a", 1, false⟩, none, some ⟨9, "b", 2, true⟩]⟩))).state.trace =
      queriesOf noProxyClient.trace ++ [.removeProxy 3, .removeProxy 9] :=
  ⟨rfl, rfl, rfl,
    (getProxiesResponse_no_proxy sampleEnv noProxyClient 2
      ⟨[some ⟨3, "a", 1, false⟩, none, some ⟨9, "b", 2, true⟩]⟩ rfl rfl rfl).2.2.2.2.2⟩

/-- C29. `showDownloadedInlineFile` shows nothing when the chat is not in the Mirror. For
a known chat and a path without double quote its one outward call shows the text
`<a href="file://PATH">LABEL</a>` and no notice. For a path with a double quote no text is
shown: the only possible outward call is the notice "Cannot show file: path contains
quotes" after the sender's name (nothing at all is shown when the sender's name cannot be
built, for an outgoing message on an account without alias), so the path is never put into
link markup. -/
theorem showDownloadedInlineFile_cases (s : PurpleTdClient) (chatId : Int)
    (message : TgMessageInfo) (filePath label : String) :
    (s.m_data.getChat chatId = none →
      s.showDownloadedInlineFile chatId message filePath label = .ok s) ∧
    (∀ chat, s.m_data.getChat chatId = some chat → '"' ∉ filePath.data →
      s.showDownloadedInlineFile chatId message filePath label =
        .ok (s.emit (.showMessageText chat.id_ message
          (some ("<a href=\"file://" ++ filePath ++ "\">" ++ label ++ "</a>")) none
          .noFlags))) ∧
    (∀ chat, s.m_data.getChat chatId = some chat → '"' ∈ filePath.data →
      (s.showDownloadedInlineFile chatId message filePath label).state.trace = s.trace ++
        (match getSenderDisplayName chat message s.m_account with
         | some name =>
           [Event.showMessageText chat.id_ message none
             (some ((if name ≠ "" then name ++ ": " else name) ++
               "Cannot show file: path contains quotes")) .noFlags]
         | none => []) ∧
      ∀ cid info text notice flags,
        Event.showMessageText cid info (some text) notice flags ∈
          (s.showDownloadedInlineFile chatId message filePath label).state.trace →
        Event.showMessageText cid info (some text) notice flags ∈ s.trace) := by
  refine ⟨?_, ?_, ?_⟩
  · intro h
    simp [showDownloadedInlineFile, h]
  · intro chat hchat hq
    simp only [showDownloadedInlineFile, hchat]
    rw [if_neg (by simpa using hq)]
  · intro chat hchat hq
    have htrace : (s.showDownloadedInlineFile chatId message filePath label).state.trace =
        s.trace ++
        (match getSenderDisplayName chat message s.m_account with
         | some name =>
           [Event.showMessageText chat.id_ message none
             (some ((if name ≠ "" then name ++ ": " else name) ++
               "Cannot show file: path contains quotes")) .noFlags]
         | none => []) := by
      simp only [showDownloadedInlineFile, hchat, makeNoticeWithSender]
      rw [if_pos (by simpa using hq)]
      cases getSenderDisplayName chat message s.m_account <;> simp [Result.state, emit]
    refine ⟨htrace, ?_⟩
    intro cid info text notice flags hmem
    rw [htrace] at hmem
    rcases List.mem_append.mp hmem with h | h
    · exact h
    · cases hn : getSenderDisplayName chat message s.m_account <;> rw [hn] at h <;>
        simp at h

/-- C29, run in chat 121 for a path with a double quote and for a path without. -/
theorem showDownloadedInlineFile_cases_witness :
    chatClient.m_data.getChat 121 =
      some ⟨121, .chatTypePrivate 21, some .chatListMain, "Ann Lee"⟩ ∧
    '"' ∈ "/tmp/a\"b.pdf".data ∧ '"' ∉ "/tmp/ab.pdf".data ∧
    (chatClient.showDownloadedInlineFile 121 ⟨"id21", 1600000100, false, 0, ""⟩
      "/tmp/a\"b.pdf" "Sent file").state.trace =
      [Event.showMessageText 121 ⟨"id21", 1600000100, false, 0, ""⟩ none
        (some "Ann Lee: Cannot show file: path contains quotes") .noFlags] ∧
    chatClient.showDownloadedInlineFile 121 ⟨"id21", 1600000100, false, 0, ""⟩
      "/tmp/ab.pdf" "Sent file" =
      .ok (chatClient.emit (.showMessageText 121 ⟨"id21", 1600000100, false, 0, ""⟩
        (some "<a href=\"file:///tmp/ab.pdf\">Sent file</a>") none .noFlags)) :=
  ⟨by decide, by decide, by decide,
    ((showDownloadedInlineFile_cases chatClient 121 ⟨"id21", 1600000100, false, 0, ""⟩
      "/tmp/a\"b.pdf" "Sent file").2.2
      ⟨121, .chatTypePrivate 21, some .chatListMain, "Ann Lee"⟩ (by decide) (by decide)).1,
    (showDownloadedInlineFile_cases chatClient 121 ⟨"id21", 1600000100, false, 0, ""⟩
      "/tmp/ab.pdf" "Sent file").2.1
      ⟨121, .chatTypePrivate 21, some .chatListMain, "Ann Lee"⟩ (by decide) (by decide)⟩

/-- C30. When no known user has the name as phone number and exactly one known user has
it as display name, `addContact` does not use its alias argument: for every alias it is
`addContactById` with that user's id, an empty phone number and the name itself as alias,
so the first and last name of the contact sent are those `getNamesFromAlias` derives from
the name, and the registered request holds the name as alias. -/
theorem addContact_ignores_alias (env : Env) (s : PurpleTdClient) (purpleName : String)
    (groupName : String) (u : td_api.user) (alias1 alias2 : String)
    (hphone : s.m_data.getUserByPhone (c_str purpleName) = none)
    (hone : s.m_data.getUsersByDisplayName env.getDisplayName (c_str purpleName) = [u]) :
    s.addContact env purpleName alias1 groupName =
      s.addContact env purpleName alias2 groupName ∧
    s.addContact env purpleName alias1 groupName =
      s.addContactById env u.id_ "" purpleName groupName ∧
    queriesOf (s.addContact env purpleName alias1 groupName).trace = queriesOf s.trace ++
      [.addContact
        { phone_number_ := ""
          first_name_ := (env.getNamesFromAlias (some (c_str purpleName))).1
          last_name_ := (env.getNamesFromAlias (some (c_str purpleName))).2
          vcard_ := ""
          user_id_ := u.id_ } true] ∧
    (s.addContact env purpleName alias1 groupName).m_data.lookupPendingRequest
      s.m_transceiver.nextRequestId =
      some (.ofContactRequest ⟨"", purpleName, groupName, u.id_⟩) := by
  have h : ∀ a : String, s.addContact env purpleName a groupName =
      s.addContactById env u.id_ "" purpleName groupName := by
    intro a
    simp [addContact, hphone, hone]
  rw [h alias1, h alias2]
  refine ⟨rfl, rfl, ?_, ?_⟩
  · simp [addContactById, sendQuery, queriesOf]
  · simp only [addContactById, sendQuery]
    rw [lookup_addPendingRequest, if_pos rfl]

/-- C30, run for the name of the one user called Ann Lee with the alias "Annie": the
contact sent is named after "Ann Lee". -/
theorem addContact_ignores_alias_witness :
    contactsClient.m_data.getUserByPhone (c_str "Ann Lee") = none ∧
    contactsClient.m_data.getUsersByDisplayName sampleEnv.getDisplayName (c_str "Ann Lee") =
      [⟨21, "Ann", "Lee", "111", .userStatusOnline, false⟩] ∧
    queriesOf (contactsClient.addContact sampleEnv "Ann Lee" "Annie" "Friends").trace =
      [.addContact ⟨"", "Ann Lee", "", "", 21⟩ true] ∧
    contactsClient.addContact sampleEnv "Ann Lee" "Annie" "Friends" =
      contactsClient.addContact sampleEnv "Ann Lee" "Somebody else" "Friends" :=
  ⟨by decide, by decide,
    (addContact_ignores_alias sampleEnv contactsClient "Ann Lee" "Friends"
      ⟨21, "Ann", "Lee", "111", .userStatusOnline, false⟩ "Annie" "Somebody else"
      (by decide) (by decide)).2.2.1,
    (addContact_ignores_alias sampleEnv contactsClient "Ann Lee" "Friends"
      ⟨21, "Ann", "Lee", "111", .userStatusOnline, false⟩ "Annie" "Somebody else"
      (by decide) (by decide)).1⟩

theorem sameFlags_refl (s : PurpleTdClient) : SameFlags s s := ⟨rfl, rfl⟩

theorem flags_requestBasicGroupMembers {s t : PurpleTdClient} (groupId : Int)
    (h : SameFlags s t) : SameFlags s (t.requestBasicGroupMembers groupId) := by
  unfold requestBasicGroupMembers
  split <;> exact h

theorem flags_updateChat {s t : PurpleTdClient} (chat : Option td_api.chat)
    (h : SameFlags s t) : SameFlags s (t.updateChat chat) := by
  unfold updateChat
  split
  · exact h
  · simp only
    split
    · exact h
    · split
      · have h1 : SameFlags s (match t.m_data.getUserByPrivateChat ‹td_api.chat› with
            | some u => t.emit (.updatePrivateChat (‹td_api.chat›).id_ u.id_)
            | none => t) := by
          split <;> exact h
        split
        · split
          · exact flags_requestBasicGroupMembers _ h1
          · exact h1
        · split
          · exact flags_requestBasicGroupMembers _ h1
          · exact h1
      · exact h

theorem flags_foldl {α : Type} (f : PurpleTdClient → α → PurpleTdClient) (s : PurpleTdClient)
    (hf : ∀ t a, SameFlags s t → SameFlags s (f t a)) (l : List α) (t : PurpleTdClient)
    (h : SameFlags s t) : SameFlags s (l.foldl f t) := by
  induction l generalizing t with
  | nil => exact h
  | cons a l ih => exact ih _ (hf _ _ h)

theorem flags_updateChatAndUserStatus {s t : PurpleTdClient} (env : Env) (chat : td_api.chat)
    (h : SameFlags s t) : SameFlags s (t.updateChatAndUserStatus env chat) := by
  unfold updateChatAndUserStatus
  have h1 := flags_updateChat (some chat) h
  simp only
  split
  · split
    · exact h1
    · exact h1
  · exact h1

theorem flags_updatePurpleChatListAndReportConnected {s t : PurpleTdClient} (env : Env)
    (h : SameFlags s t) : SameFlags s (t.updatePurpleChatListAndReportConnected env) := by
  unfold updatePurpleChatListAndReportConnected
  simp only
  have h1 : SameFlags s (t.purple_connection_set_state .PURPLE_CONNECTED) := h
  have h2 := flags_foldl (updateChatAndUserStatus env) s
    (fun _ _ ht => flags_updateChatAndUserStatus env _ ht)
    (t.purple_connection_set_state .PURPLE_CONNECTED).m_data.getChats _ h1
  split
  · exact h2
  · exact h2

theorem flags_requestMissingPrivateChats {s t : PurpleTdClient} (env : Env)
    (h : SameFlags s t) : SameFlags s (t.requestMissingPrivateChats env) := by
  unfold requestMissingPrivateChats
  split
  · exact flags_updatePurpleChatListAndReportConnected env h
  · exact h

theorem flags_notifyAuthError {s t : PurpleTdClient} (response : Option td_api.Object)
    (h : SameFlags s t) : SameFlags s (t.notifyAuthError response) := h

theorem flags_removeOldProxies {s t : PurpleTdClient} (h : SameFlags s t) :
    SameFlags s t.removeOldProxies.state := by
  unfold removeOldProxies
  split
  · exact h
  · refine flags_foldl _ s (fun u p hu => ?_) _ _ h
    split
    · split
      · exact hu
      · exact hu
    · exact hu

theorem flags_addProxy {s t : PurpleTdClient} (env : Env) (h : SameFlags s t) :
    SameFlags s (t.addProxy env).2 := by
  unfold addProxy
  simp only
  split
  · exact h
  · split
    · exact h
    · exact h

theorem flags_requestAuthCode {s t : PurpleTdClient}
    (codeInfo : Option td_api.authenticationCodeInfo) (h : SameFlags s t) :
    SameFlags s (t.requestAuthCode codeInfo) := by
  unfold requestAuthCode
  simp only
  split
  · exact h
  · exact h

theorem flags_registerUser {s t : PurpleTdClient} (env : Env) (h : SameFlags s t) :
    SameFlags s (t.registerUser env) := by
  unfold registerUser
  simp only
  split
  · exact h
  · exact h

theorem flags_processAuthorizationState {s t : PurpleTdClient} (env : Env)
    (authState : td_api.AuthorizationState) (h : SameFlags s t) :
    SameFlags s (t.processAuthorizationState env authState) := by
  unfold processAuthorizationState
  split
  · exact h
  · simp only
    split
    · exact flags_addProxy env h
    · exact flags_addProxy env h
  · exact h
  · exact flags_requestAuthCode _ h
  · exact flags_registerUser env h
  · split
    · exact h
    · exact h
  · exact h

theorem flags_requestDownload {s t : PurpleTdClient} (fileId chatId : Int)
    (message : TgMessageInfo) (thumbnail : Option td_api.file) (cb : ResponseCb)
    (h : SameFlags s t) :
    SameFlags s (t.requestDownload fileId chatId message thumbnail cb) := h

theorem flags_showDownloadedInlineFile {s t : PurpleTdClient} (chatId : Int)
    (message : TgMessageInfo) (filePath label : String) (h : SameFlags s t) :
    SameFlags s (t.showDownloadedInlineFile chatId message filePath label).state := by
  unfold showDownloadedInlineFile
  repeat' split
  all_goals exact h

theorem flags_showDownloadedSticker {s t : PurpleTdClient} (chatId : Int)
    (message : TgMessageInfo) (filePath : String) (thumbnail : Option td_api.file)
    (h : SameFlags s t) :
    SameFlags s (t.showDownloadedSticker chatId message filePath thumbnail).state := by
  unfold showDownloadedSticker
  split
  · split
    · exact flags_showDownloadedInlineFile _ _ _ _ h
    · exact flags_requestDownload _ _ _ _ _ h
  · exact flags_showDownloadedInlineFile _ _ _ _ h

theorem flags_showSticker {s t : PurpleTdClient} (chat : td_api.chat)
    (message : TgMessageInfo) (stickerContent : td_api.messageSticker) (h : SameFlags s t) :
    SameFlags s (t.showSticker chat message stickerContent).2.state := by
  unfold showSticker
  split
  · exact h
  · split
    · exact h
    · simp only
      split
      · exact flags_showDownloadedSticker _ _ _ _ h
      · exact flags_requestDownload _ _ _ _ _ h

theorem flags_showDownloadedImage {s t : PurpleTdClient} (env : Env) (chatId : Int)
    (message : TgMessageInfo) (filePath : String) (caption : Option String)
    (h : SameFlags s t) :
    SameFlags s (t.showDownloadedImage env chatId message filePath caption).state := by
  unfold showDownloadedImage
  repeat' split
  all_goals exact h

theorem flags_showImage {s t : PurpleTdClient} (env : Env) (chat : td_api.chat)
    (message : TgMessageInfo) (file : td_api.file) (caption : Option String)
    (h : SameFlags s t) :
    SameFlags s (t.showImage env chat message file caption).state := by
  unfold showImage
  split
  · exact flags_showDownloadedImage _ _ _ _ _ h
  · exact flags_requestDownload _ _ _ _ _ h

theorem flags_showPhotoMessage {s t : PurpleTdClient} (env : Env) (chat : td_api.chat)
    (message : TgMessageInfo) (photo : td_api.messagePhoto) (h : SameFlags s t) :
    SameFlags s (t.showPhotoMessage env chat message photo).state := by
  unfold showPhotoMessage
  simp only
  split
  · exact h
  · split
    · split
      · exact flags_showImage _ _ _ _ _ (t := t.emit _) h
      · exact flags_showImage _ _ _ _ _ h
    · split
      · exact h
      · exact h

theorem flags_showDocument {s t : PurpleTdClient} (chat : td_api.chat)
    (message : TgMessageInfo) (document : td_api.messageDocument) (h : SameFlags s t) :
    SameFlags s (t.showDocument chat message document).state := by
  unfold showDocument
  repeat' split
  all_goals exact h

theorem flags_showVideo {s t : PurpleTdClient} (chat : td_api.chat)
    (message : TgMessageInfo) (video : td_api.messageVideo) (h : SameFlags s t) :
    SameFlags s (t.showVideo chat message video).state := by
  unfold showVideo
  repeat' split
  all_goals exact h

theorem flags_showTextMessage {s t : PurpleTdClient} (chat : td_api.chat)
    (message : TgMessageInfo) (text : td_api.messageText) (h : SameFlags s t) :
    SameFlags s (t.showTextMessage chat message text) := by
  unfold showTextMessage
  split <;> exact h

theorem flags_showMessage {s t : PurpleTdClient} (env : Env) (chat : td_api.chat)
    (messageId : Int) (h : SameFlags s t) :
    SameFlags s (t.showMessage env chat messageId).state := by
  unfold showMessage
  split
  · exact h
  · split
    · exact h
    · simp only
      split
      · split <;> exact h
      · split
        · exact flags_showTextMessage _ _ _ h
        · exact flags_showPhotoMessage _ _ _ _ h
        · exact flags_showDocument _ _ _ h
        · exact flags_showVideo _ _ _ h
        · rw [Result.state_mapState]
          exact flags_showSticker _ _ _ h
        · split <;> exact h
        · split <;> exact h

theorem flags_run (cb : RegistryHandler) (env : Env) (s : PurpleTdClient) (requestId : Nat)
    (object : Option td_api.Object) : SameFlags s (cb.run env s requestId object).state := by
  have h0 : SameFlags s
      { s with
        m_data := (s.m_data.getPendingRequest PendingRequest.asGroupJoinRequest requestId).2 } :=
    ⟨rfl, rfl⟩
  have hs := sameFlags_refl s
  cases cb
  · -- groupInfoResponse
    simp only [RegistryHandler.run, Result.state, groupInfoResponse]
    split
    · split
      · split
        · exact hs
        · exact hs
      · exact hs
    · exact hs
  · -- imageDownloadResponse
    simp only [RegistryHandler.run, imageDownloadResponse]
    split
    · split
      · exact flags_showDownloadedImage _ _ _ _ _ (t := { s with m_data := _ }) hs
      · exact hs
    · exact hs
  · -- stickerDownloadResponse
    simp only [RegistryHandler.run, stickerDownloadResponse]
    split
    · split
      · exact flags_showDownloadedSticker _ _ _ _ (t := { s with m_data := _ }) hs
      · exact hs
    · exact hs
  · -- fileDownloadResponse
    simp only [RegistryHandler.run, fileDownloadResponse]
    split
    · split
      · exact flags_showDownloadedInlineFile _ _ _ _ (t := { s with m_data := _ }) hs
      · exact hs
    · exact hs
  · -- findMessageResponse
    simp only [RegistryHandler.run, findMessageResponse]
    split
    · exact hs
    · split
      · split
        · exact flags_showMessage _ _ _ (t := { s with m_data := _ }) hs
        · exact flags_showMessage _ _ _ (t := { s with m_data := _ }) hs
      · split
        · exact hs
        · exact hs
  · -- importContactResponse
    simp only [RegistryHandler.run, importContactResponse]
    split
    · exact hs
    · split
      · exact hs
      · split
        · exact hs
        · split
          · exact hs
          · exact hs
  · -- addContactResponse
    simp only [RegistryHandler.run, addContactResponse]
    split
    · exact hs
    · split
      · exact hs
      · exact hs
      · exact hs
  · -- addContactCreatePrivateChatResponse
    simp only [RegistryHandler.run, Result.state, addContactCreatePrivateChatResponse]
    split
    · exact hs
    · split <;> exact hs
  · -- joinChatByLinkResponse
    simp only [RegistryHandler.run, Result.state, joinChatByLinkResponse]
    split
    · split
      · exact flags_foldl (fun acc chat => acc.emit (.purple_blist_remove_chat chat)) s
          (fun _ _ hu => hu) _ _ h0
      · exact hs
    · exact hs
  · -- sendMessageResponse
    simp only [RegistryHandler.run, Result.state, sendMessageResponse]
    split
    · exact hs
    · split
      · exact hs
      · exact hs

theorem flags_responseCb_run (cb : ResponseCb) (env : Env) (s : PurpleTdClient)
    (requestId : Nat) (object : Option td_api.Object) :
    SameFlags s (cb.run env s requestId object).state := by
  have hs := sameFlags_refl s
  cases cb
  case authResponse =>
    simp only [ResponseCb.run, Result.state, authResponse]
    split <;> exact hs
  case addProxyResponse =>
    simp only [ResponseCb.run, addProxyResponse]
    split
    · split
      · exact flags_removeOldProxies (t := { s with m_addedProxy := _ }) hs
      · exact hs
    · exact hs
  case getProxiesResponse =>
    simp only [ResponseCb.run, getProxiesResponse]
    split
    · split
      · exact flags_removeOldProxies (t := { s with m_proxies := _ }) hs
      · exact hs
    · exact hs
  case getContactsResponse =>
    simp only [ResponseCb.run, Result.state, getContactsResponse]
    split <;> exact hs
  case getChatsResponse =>
    simp only [ResponseCb.run, Result.state, getChatsResponse]
    split
    · exact flags_requestMissingPrivateChats env
        (t := { s with m_usersForNewPrivateChats := _ }) hs
    · exact hs
  case loginCreatePrivateChatResponse =>
    simp only [ResponseCb.run, loginCreatePrivateChatResponse]
    split
    · exact hs
    · exact flags_requestMissingPrivateChats env (t := { s with m_data := _ }) hs
    · exact flags_requestMissingPrivateChats env hs
  all_goals
    simp only [ResponseCb.run]
    exact flags_run _ env s requestId object

theorem flags_updateUser {s t : PurpleTdClient} (userInfo : Option td_api.user)
    (h : SameFlags s t) : SameFlags s (t.updateUser userInfo) := by
  unfold updateUser
  split
  · exact h
  simp only
  repeat' split
  all_goals exact h

theorem flags_addChat {s t : PurpleTdClient} (chat : Option td_api.chat)
    (h : SameFlags s t) : SameFlags s (t.addChat chat) := by
  unfold addChat
  split
  · exact h
  · exact flags_updateChat _ (t := { t with m_data := _ }) h

theorem flags_onIncomingMessage {s t : PurpleTdClient} (env : Env)
    (message : Option td_api.message) (h : SameFlags s t) :
    SameFlags s (t.onIncomingMessage env message).state := by
  unfold onIncomingMessage
  split
  · exact h
  · split
    · exact h
    · simp only
      split
      · exact h
      · exact flags_showMessage env _ _
          (t := { (t.sendQuery _ none).2 with m_data := _ }) h

theorem flags_updateUserStatus {s t : PurpleTdClient} (env : Env) (userId : Int)
    (status : td_api.UserStatus) (h : SameFlags s t) :
    SameFlags s (t.updateUserStatus env userId status) := by
  unfold updateUserStatus
  split <;> exact h

theorem flags_showUserChatAction {s t : PurpleTdClient} (env : Env) (userId : Int)
    (isTyping : Bool) (h : SameFlags s t) :
    SameFlags s (t.showUserChatAction env userId isTyping) := by
  unfold showUserChatAction
  repeat' split
  all_goals exact h

theorem flags_handleUserChatAction {s t : PurpleTdClient} (env : Env) (chatId userId : Int)
    (action : Option td_api.ChatAction) (h : SameFlags s t) :
    SameFlags s (t.handleUserChatAction env chatId userId action) := by
  unfold handleUserChatAction
  split
  · exact h
  simp only
  repeat' split
  all_goals first | exact h | exact flags_showUserChatAction env _ _ h

theorem flags_updateGroup {s t : PurpleTdClient} (group : Option td_api.basicGroup)
    (h : SameFlags s t) : SameFlags s (t.updateGroup group) := by
  unfold updateGroup
  split
  · exact h
  simp only
  repeat' split
  all_goals exact h

theorem flags_updateSupergroup {s t : PurpleTdClient} (group : Option td_api.supergroup)
    (h : SameFlags s t) : SameFlags s (t.updateSupergroup group) := by
  unfold updateSupergroup
  split
  · exact h
  simp only
  repeat' split
  all_goals exact h

theorem flags_removeTempFile {s t : PurpleTdClient} (messageId : Int)
    (h : SameFlags s t) : SameFlags s (t.removeTempFile messageId) := by
  unfold removeTempFile
  simp only
  split <;> exact h

/-- One delivered update or response sets the connection flag if it is a connection-state
update of class Ready, Connecting or Updating, sets the last authorization state if it is
an authorization-state update with a non-null state, and leaves both as they were
otherwise. -/
theorem deliver_flags (env : Env) (s : PurpleTdClient) (i : Incoming) :
    (s.deliver env i).state.m_connectionReady =
      (connectionFlagOf i).getD s.m_connectionReady ∧
    (s.deliver env i).state.m_lastAuthState =
      (authorizationStateOf i).or s.m_lastAuthState := by
  have hs := sameFlags_refl s
  have key : ∀ r : Result, SameFlags s r.state → connectionFlagOf i = none →
      authorizationStateOf i = none →
      r.state.m_connectionReady = (connectionFlagOf i).getD s.m_connectionReady ∧
      r.state.m_lastAuthState = (authorizationStateOf i).or s.m_lastAuthState := by
    intro r hr hc ha
    rw [hc, ha]
    exact hr
  cases i with
  | response cb requestId object =>
    exact key _ (flags_responseCb_run cb env s requestId object) rfl rfl
  | update u =>
    cases u with
    | updateAuthorizationState a =>
      cases a with
      | none => exact key _ hs rfl rfl
      | some authState =>
        have h1 := flags_processAuthorizationState env authState
          (sameFlags_refl { s with m_lastAuthState := some authState.get_id })
        exact ⟨h1.1, h1.2⟩
    | updateConnectionState c =>
      cases c with
      | none => exact key _ hs rfl rfl
      | some c =>
        cases c
        case connectionStateReady =>
          refine ⟨?_, ?_⟩
          · show (connectionReady s).m_connectionReady = true
            unfold connectionReady
            simp only
            split <;> rfl
          · show (connectionReady s).m_lastAuthState = s.m_lastAuthState
            unfold connectionReady
            simp only
            split <;> rfl
        case connectionStateConnecting =>
          refine ⟨?_, ?_⟩
          · show (setPurpleConnectionInProgress s).m_connectionReady = false
            unfold setPurpleConnectionInProgress
            simp only
            split <;> rfl
          · show (setPurpleConnectionInProgress s).m_lastAuthState = s.m_lastAuthState
            unfold setPurpleConnectionInProgress
            simp only
            split <;> rfl
        case connectionStateUpdating => exact ⟨rfl, rfl⟩
        all_goals exact key _ hs rfl rfl
    | updateUser user => exact key _ (flags_updateUser user hs) rfl rfl
    | updateNewChat chat => exact key _ (flags_addChat chat hs) rfl rfl
    | updateNewMessage message =>
      cases message with
      | none => exact key _ hs rfl rfl
      | some m => exact key _ (flags_onIncomingMessage env (some m) hs) rfl rfl
    | updateUserStatus userId status =>
      cases status with
      | none => exact key _ hs rfl rfl
      | some st => exact key _ (flags_updateUserStatus env userId st hs) rfl rfl
    | updateUserChatAction chatId userId action =>
      exact key _ (flags_handleUserChatAction env chatId userId action hs) rfl rfl
    | updateBasicGroup g => exact key _ (flags_updateGroup g hs) rfl rfl
    | updateSupergroup g => exact key _ (flags_updateSupergroup g hs) rfl rfl
    | updateMessageSendSucceeded m => exact key _ (flags_removeTempFile m hs) rfl rfl
    | updateMessageSendFailed m => exact key _ (flags_removeTempFile m hs) rfl rfl
    | updateChatChatList chatId list =>
      exact key _ (flags_updateChat _ (t := { s with m_data := _ }) hs) rfl rfl
    | updateChatTitle chatId title =>
      exact key _ (flags_updateChat _ (t := { s with m_data := _ }) hs) rfl rfl
    | other id => exact key _ hs rfl rfl

theorem getLast?_filterMap_cons_getD {α β : Type} (f : α → Option β) (a : α) (l : List α)
    (d : β) :
    ((List.filterMap f (a :: l)).getLast?).getD d =
      ((List.filterMap f l).getLast?).getD ((f a).getD d) := by
  cases hfa : f a with
  | none => simp [List.filterMap_cons, hfa]
  | some b =>
    simp only [List.filterMap_cons, hfa, List.getLast?_cons, Option.getD_some]

theorem getLast?_filterMap_cons_or {α β : Type} (f : α → Option β) (a : α) (l : List α)
    (d : Option β) :
    ((List.filterMap f (a :: l)).getLast?).or d =
      ((List.filterMap f l).getLast?).or ((f a).or d) := by
  cases hfa : f a with
  | none => simp [List.filterMap_cons, hfa]
  | some b =>
    simp only [List.filterMap_cons, hfa, List.getLast?_cons]
    cases (List.filterMap f l).getLast? <;> rfl

/-- After a run of delivered updates and responses that completed, the connection flag is
the one of the most recent connection-state update of class Ready, Connecting or Updating,
and the last authorization state is the most recent non-null one; each is as at the start
when the run has no such update. -/
theorem deliverAll_flags (env : Env) (run : List Incoming) :
    ∀ s t : PurpleTdClient, s.deliverAll env run = .ok t →
      t.m_connectionReady = (lastConnectionFlag run).getD s.m_connectionReady ∧
      t.m_lastAuthState = (lastAuthorizationState run).or s.m_lastAuthState := by
  induction run with
  | nil =>
    intro s t h
    simp only [deliverAll, Result.ok.injEq] at h
    subst h
    exact ⟨rfl, rfl⟩
  | cons i rest ih =>
    intro s t h
    have hstep := deliver_flags env s i
    unfold deliverAll at h
    cases hd : s.deliver env i with
    | nullDeref u => rw [hd] at h; cases h
    | ok u =>
      rw [hd] at h hstep
      have hrest := ih u t h
      simp only [Result.state] at hstep
      unfold lastConnectionFlag lastAuthorizationState
      rw [getLast?_filterMap_cons_getD, getLast?_filterMap_cons_or, ← hstep.1, ← hstep.2]
      exact hrest

/-- C27. After any run of delivered updates and responses that completed, the connection
flag is the one set by the most recent connection-state update among Ready, Connecting
and Updating (as at the start when there was none): starting from a false flag, it is true
exactly when that update was Ready. The last authorization state is the most recent
non-null one. Consequently, when the most recent connection-state update was Connecting
or Updating, an authorizationStateReady update only records the state and sends nothing;
when it was Ready, the update sends the `getContacts` query of the bootstrap; and a
connection Ready update sends that query exactly when the most recent non-null
authorization state is Ready, and nothing otherwise. -/
theorem connectionReady_tracks_last_update (env : Env) (s t : PurpleTdClient)
    (run : List Incoming) (hrun : s.deliverAll env run = .ok t) :
    t.m_connectionReady = (lastConnectionFlag run).getD s.m_connectionReady ∧
    (s.m_connectionReady = false →
      (t.m_connectionReady = true ↔ lastConnectionFlag run = some true)) ∧
    t.m_lastAuthState = (lastAuthorizationState run).or s.m_lastAuthState ∧
    (lastConnectionFlag run = some false →
      t.processUpdate env (.updateAuthorizationState (some .authorizationStateReady)) =
        .ok { t with m_lastAuthState := some .ready }) ∧
    (lastConnectionFlag run = some true →
      (t.processUpdate env
        (.updateAuthorizationState (some .authorizationStateReady))).state.trace =
        t.trace ++ [Event.sendQuery t.m_transceiver.nextRequestId .getContacts
          (some .getContactsResponse)]) ∧
    (t.processUpdate env (.updateConnectionState (some .connectionStateReady))).state.trace =
      t.trace ++
        (if (lastAuthorizationState run).or s.m_lastAuthState = some .ready then
          [Event.sendQuery t.m_transceiver.nextRequestId .getContacts
            (some .getContactsResponse)]
        else []) := by
  obtain ⟨hflag, hauth⟩ := deliverAll_flags env run s t hrun
  refine ⟨hflag, ?_, hauth, ?_, ?_, ?_⟩
  · intro hs
    rw [hflag, hs]
    cases lastConnectionFlag run with
    | none => simp
    | some b => simp
  · intro hlast
    have hf : t.m_connectionReady = false := by rw [hflag, hlast]; rfl
    simp [processUpdate, processAuthorizationState, hf, td_api.AuthorizationState.get_id]
  · intro hlast
    have hf : t.m_connectionReady = true := by rw [hflag, hlast]; rfl
    simp [processUpdate, processAuthorizationState, hf, td_api.AuthorizationState.get_id,
      onLoggedIn, sendQuery, Result.state]
  · rw [← hauth]
    simp only [processUpdate, connectionReady, Result.state]
    split
    · simp [onLoggedIn, sendQuery]
    · simp

/-- C27, run from a new client on a Connecting update followed by an
authorizationStateReady update: the flag is false, no query has been sent, and the next
connection Ready update sends `getContacts`. -/
theorem connectionReady_tracks_last_update_witness :
    (newClient none none).deliverAll sampleEnv connectingThenAuthorized =
      .ok authorizedClient ∧
    authorizedClient.m_connectionReady = false ∧
    authorizedClient.m_lastAuthState = some .ready ∧
    queriesOf authorizedClient.trace = [] ∧
    (authorizedClient.processUpdate sampleEnv
      (.updateConnectionState (some .connectionStateReady))).state.trace =
      authorizedClient.trace ++
        [Event.sendQuery 1 .getContacts (some .getContactsResponse)] :=
  ⟨by decide,
    (connectionReady_tracks_last_update sampleEnv (newClient none none) authorizedClient
      connectingThenAuthorized (by decide)).1,
    (connectionReady_tracks_last_update sampleEnv (newClient none none) authorizedClient
      connectingThenAuthorized (by decide)).2.2.1,
    by decide,
    (connectionReady_tracks_last_update sampleEnv (newClient none none) authorizedClient
      connectingThenAuthorized (by decide)).2.2.2.2.2⟩

end PurpleTdClient
